import Mathlib

/-!
# Connection registry and broadcast fan-out

A shallow embedding of `backend/src/handlers/websocket.js`,
`backend/src/handlers/analytics.js` (`ingestData`),
`backend/src/utils/auth-middleware.js` (`verifyToken`) and, as a state machine,
`frontend/src/hooks/useWebSocket.js`.

Modelling conventions.

* The connections table is an association list of records keyed by
  `connectionId`; `PutItem` replaces the whole item, `UpdateItem` is an upsert,
  `DeleteItem` of an absent key is a no-op.  A scan reads one page only (the
  handlers never follow `LastEvaluatedKey`): it returns the records of that
  first page that satisfy the filter expression.
* Everything the handlers cannot control is read from an explicit environment
  `Env`: the clock, `JSON.parse`, `jwt.verify`, the outcome of every store
  request and of every transport push.  Theorems quantify over all
  environments.
* An `async` function becomes a pure function from the store to an `Outcome`:
  the new store, the ordered list of requests it issued (`Effect`), and its
  result.  A rejected promise is an `Except.error`.
* JavaScript numbers that occur here are millisecond timestamps; they are
  modelled as integers.
-/

namespace AnalyticsPlatform

/-! ## JavaScript values -/

/-- JavaScript values that flow through the handlers: the JSON values plus `undefined`. -/
inductive JsVal where
  | undefined
  | null
  | bool (b : Bool)
  | num (n : Int)
  | str (s : String)
  | arr (items : List JsVal)
  | obj (fields : List (String × JsVal))

mutual
/-- Structural equality test on values. -/
def JsVal.beq : JsVal → JsVal → Bool
  | .undefined, .undefined => true
  | .null, .null => true
  | .bool a, .bool b => a == b
  | .num a, .num b => a == b
  | .str a, .str b => a == b
  | .arr a, .arr b => JsVal.beqList a b
  | .obj a, .obj b => JsVal.beqFields a b
  | _, _ => false
/-- Structural equality test on arrays of values. -/
def JsVal.beqList : List JsVal → List JsVal → Bool
  | [], [] => true
  | a :: as, b :: bs => JsVal.beq a b && JsVal.beqList as bs
  | _, _ => false
/-- Structural equality test on the fields of an object. -/
def JsVal.beqFields : List (String × JsVal) → List (String × JsVal) → Bool
  | [], [] => true
  | (k, a) :: as, (l, b) :: bs => k == l && JsVal.beq a b && JsVal.beqFields as bs
  | _, _ => false
end

mutual
theorem JsVal.beq_iff : ∀ a b : JsVal, JsVal.beq a b = true ↔ a = b
  | .undefined, b => by cases b <;> simp [JsVal.beq]
  | .null, b => by cases b <;> simp [JsVal.beq]
  | .bool a, b => by cases b <;> simp [JsVal.beq]
  | .num a, b => by cases b <;> simp [JsVal.beq]
  | .str a, b => by cases b <;> simp [JsVal.beq]
  | .arr a, b => by cases b <;> simp [JsVal.beq, JsVal.beqList_iff a]
  | .obj a, b => by cases b <;> simp [JsVal.beq, JsVal.beqFields_iff a]
theorem JsVal.beqList_iff : ∀ a b : List JsVal, JsVal.beqList a b = true ↔ a = b
  | [], b => by cases b <;> simp [JsVal.beqList]
  | a :: as, b => by
    cases b <;> simp [JsVal.beqList, JsVal.beq_iff a, JsVal.beqList_iff as]
theorem JsVal.beqFields_iff :
    ∀ a b : List (String × JsVal), JsVal.beqFields a b = true ↔ a = b
  | [], b => by cases b <;> simp [JsVal.beqFields]
  | (k, a) :: as, b => by
    cases b with
    | nil => simp [JsVal.beqFields]
    | cons hd tl =>
      obtain ⟨l, b⟩ := hd
      simp [JsVal.beqFields, JsVal.beq_iff a, JsVal.beqFields_iff as, and_assoc]
end

instance : DecidableEq JsVal := fun a b =>
  if h : JsVal.beq a b = true then isTrue ((JsVal.beq_iff a b).1 h)
  else isFalse (fun e => h ((JsVal.beq_iff a b).2 e))

/-- Values on which a property read or a destructuring throws a `TypeError`. -/
def JsVal.isNullish : JsVal → Bool
  | .undefined => true
  | .null => true
  | _ => false

/-- Field lookup in an object literal. -/
def JsVal.lookup : List (String × JsVal) → String → JsVal
  | [], _ => .undefined
  | (k, v) :: rest, key => if k = key then v else JsVal.lookup rest key

/-- Property read `v.key` on a value that is not nullish (own data properties only). -/
def JsVal.prop : JsVal → String → JsVal
  | .obj fields, key => JsVal.lookup fields key
  | _, _ => .undefined

/-- Errors thrown (or promise rejections) seen by the handlers. -/
inductive JsError where
  /-- Thrown by `new Error(message)`. -/
  | error (message : String)
  /-- Thrown by a property read or destructuring of `undefined` / `null`. -/
  | typeError
  /-- Thrown by `JSON.parse`. -/
  | syntaxError
  /-- Rejection of an AWS SDK request. -/
  | serviceError
  deriving DecidableEq, Repr

/-! ## The connections table -/

/-- One row of the connections table.  `connectHandler` writes `timestamp`, `ttl` and
`status`; the join-tenant update writes `tenantId`, `joinedAt` and `status`. -/
structure Connection where
  connectionId : String
  timestamp : Option Int
  ttl : Option Int
  status : String
  tenantId : Option JsVal
  joinedAt : Option Int
  deriving DecidableEq

/-- Contents of the connections table. -/
abbrev Store := List Connection

/-- The record stored under a key (`GetItem`). -/
def Store.get (s : Store) (connectionId : String) : Option Connection :=
  s.find? (fun r => decide (r.connectionId = connectionId))

/-- The table after `DeleteItem`: no record with the key remains. -/
def Store.delete (s : Store) (connectionId : String) : Store :=
  s.filter (fun r => decide (r.connectionId ≠ connectionId))

/-- The table after `PutItem`: the item replaces whatever was stored under its key. -/
def Store.put (s : Store) (item : Connection) : Store :=
  item :: s.delete item.connectionId

/-- The table after `UpdateItem` with
`SET tenantId = :tenantId, joinedAt = :joinedAt, #status = :status`:
the three attributes are overwritten, the others kept; an absent key is created. -/
def Store.update (s : Store) (connectionId : String) (tenantId : JsVal) (joinedAt : Int) :
    Store :=
  match s.get connectionId with
  | some r =>
    s.put { r with tenantId := some tenantId, joinedAt := some joinedAt, status := "joined" }
  | none =>
    s.put { connectionId := connectionId, timestamp := none, ttl := none,
            status := "joined", tenantId := some tenantId, joinedAt := some joinedAt }

/-- The filter expression `tenantId = :tenantId AND #status = :status` with
`:status = 'joined'`. -/
def matchesTenant (tenantId : JsVal) (r : Connection) : Bool :=
  decide (r.tenantId = some tenantId) && decide (r.status = "joined")

/-! ## Environment, effects, outcomes -/

/-- How a transport push (`apiGateway.postToConnection`) settles. -/
inductive PushOutcome where
  | ok
  /-- Rejected with an error whose `statusCode` is the given value (if any). -/
  | failed (statusCode : Option Int)
  deriving DecidableEq, Repr

/-- Everything outside the handlers for the duration of one invocation. -/
structure Env where
  /-- The value of the k-th `Date.now()` call of the invocation. -/
  now : Nat → Int
  /-- The function `JSON.parse`; `none` when it throws. -/
  parse : String → Option JsVal
  /-- String conversion of a value inside a template literal. -/
  render : JsVal → String
  /-- The value of `Math.random().toString(36).substr(2, 9)`. -/
  random : String
  /-- The function `jwt.verify(token, JWT_SECRET)`; `none` when it throws. -/
  jwtVerify : String → Option JsVal
  /-- Whether a `put` on the connections table succeeds. -/
  putOk : Bool
  /-- Whether a `delete` of the given key succeeds. -/
  deleteOk : String → Bool
  /-- Whether an `update` on the connections table succeeds. -/
  updateOk : Bool
  /-- Whether a `scan` of the connections table succeeds. -/
  scanOk : Bool
  /-- Whether the record with the given key lies on the first page of a scan, the only
  page the handlers read (a page ends after 1 MB of table data). -/
  firstPage : String → Bool
  /-- Whether a `put` on the analytics table succeeds. -/
  analyticsPutOk : Bool
  /-- How a push of the given payload to the given connection settles. -/
  push : String → JsVal → PushOutcome

/-- Requests issued by the handlers, in the order they are issued. -/
inductive Effect where
  /-- Call `dynamodb.put` on the connections table. -/
  | put (item : Connection)
  /-- Call `dynamodb.delete` on the connections table. -/
  | delete (connectionId : String)
  /-- Call `dynamodb.update` on the connections table. -/
  | update (connectionId : String) (tenantId : JsVal) (joinedAt : Int)
  /-- Call `dynamodb.scan` on the connections table. -/
  | scan (tenantId : JsVal)
  /-- Call `apiGateway.postToConnection` (one delivery attempt). -/
  | push (connectionId : String) (data : JsVal)
  /-- The completion line `Broadcast complete: successful/attempted successful`. -/
  | report (successful attempted : Nat)
  /-- Call `dynamodb.put` on the analytics table. -/
  | analyticsPut (item : JsVal)
  /-- Call `broadcastToTenant(tenantId, data)` from `ingestData`. -/
  | broadcast (tenantId : JsVal) (data : JsVal)
  deriving DecidableEq

/-- What one invocation leaves behind. -/
structure Outcome (α : Type) where
  store : Store
  effects : List Effect
  result : α

/-- The delivery attempts among a list of effects, in order. -/
def pushesOf : List Effect → List (String × JsVal)
  | [] => []
  | .push c d :: rest => (c, d) :: pushesOf rest
  | _ :: rest => pushesOf rest

/-- The keys of the delete requests among a list of effects, in order. -/
def deletesOf : List Effect → List String
  | [] => []
  | .delete c :: rest => c :: deletesOf rest
  | _ :: rest => deletesOf rest

/-- Response of a WebSocket route handler. -/
structure Response where
  statusCode : Nat
  body : String
  deriving DecidableEq, Repr

/-- The `requestContext` of an API Gateway WebSocket event. -/
structure RequestContext where
  connectionId : String
  domainName : String
  stage : String
  deriving DecidableEq, Repr

/-- An API Gateway WebSocket event; `body` is `none` when the field is absent or null. -/
structure Event where
  requestContext : RequestContext
  body : Option String
  deriving DecidableEq, Repr

/-! ## websocket.js -/

/-- Source `getApiGatewayEndpoint`: destructures `event.requestContext`; the argument is
`none` when the caller passes no event (the read of `requestContext` then throws). -/
def getApiGatewayEndpoint (event : Option Event) : Except JsError String :=
  match event with
  | none => .error .typeError
  | some e => .ok ("https://" ++ e.requestContext.domainName ++ "/" ++ e.requestContext.stage)

/-- The records a single scan returns: those on the first page that satisfy the filter
expression. -/
def scanned (env : Env) (tenantId : JsVal) (r : Connection) : Bool :=
  env.firstPage r.connectionId && matchesTenant tenantId r

/-- Outcome of the one `dynamodb.scan` with the tenant filter: an `undefined` bind value
cannot be marshalled and the request is rejected; otherwise the store decides, and a
successful scan returns the matching records of its first page (the result's
`LastEvaluatedKey` is never followed). -/
def scan (env : Env) (tenantId : JsVal) (s : Store) : Option (List Connection) :=
  if tenantId = .undefined then none
  else if env.scanOk then some (s.filter (scanned env tenantId))
  else none

/-- Outcome of the join-tenant `dynamodb.update`: an `undefined` bind value cannot be
marshalled and the request is rejected; otherwise the store decides. -/
def update (env : Env) (connectionId : String) (tenantId : JsVal) (joinedAt : Int)
    (s : Store) : Option Store :=
  if tenantId = .undefined then none
  else if env.updateOk then some (s.update connectionId tenantId joinedAt)
  else none

/-- Source `connectHandler`. -/
def connectHandler (env : Env) (event : Event) (s : Store) : Outcome Response :=
  let connectionId := event.requestContext.connectionId
  let now := env.now 0
  let item : Connection :=
    { connectionId := connectionId, timestamp := some now,
      ttl := some (Int.fdiv now 1000 + 7200), status := "connected",
      tenantId := none, joinedAt := none }
  if env.putOk then
    ⟨s.put item, [.put item], ⟨200, "Connected"⟩⟩
  else
    ⟨s, [.put item], ⟨500, "Failed to connect"⟩⟩

/-- Source `disconnectHandler`. -/
def disconnectHandler (env : Env) (event : Event) (s : Store) : Outcome Response :=
  let connectionId := event.requestContext.connectionId
  if env.deleteOk connectionId then
    ⟨s.delete connectionId, [.delete connectionId], ⟨200, "Disconnected"⟩⟩
  else
    ⟨s, [.delete connectionId], ⟨500, "Failed to disconnect"⟩⟩

/-- The `gone` test of `postToConnection`:
`error.statusCode === 410 || error.statusCode === 403`. -/
def isGone (statusCode : Option Int) : Bool :=
  decide (statusCode = some 410) || decide (statusCode = some 403)

/-- The part of `postToConnection` that runs once the push promise has settled:
the `return true`, or the `catch` block with its clean-up delete. -/
def settlePush (env : Env) (connectionId : String) (data : JsVal) (s : Store) :
    Outcome Bool :=
  match env.push connectionId data with
  | .ok => ⟨s, [], true⟩
  | .failed statusCode =>
    if isGone statusCode then
      if env.deleteOk connectionId then
        ⟨s.delete connectionId, [.delete connectionId], false⟩
      else
        ⟨s, [.delete connectionId], false⟩
    else
      ⟨s, [], false⟩

/-- Source `postToConnection`: issue the push, then settle it. -/
def postToConnection (env : Env) (connectionId : String) (data : JsVal) (s : Store) :
    Outcome Bool :=
  let r := settlePush env connectionId data s
  ⟨r.store, .push connectionId data :: r.effects, r.result⟩

/-- The value of `event.body || '{}'`. -/
def bodyOrDefault (body : Option String) : String :=
  match body with
  | none => "{}"
  | some b => if b = "" then "{}" else b

/-- The message of `defaultHandler` after the inner `try`/`catch` around `JSON.parse`. -/
def parseMessage (env : Env) (body : Option String) : JsVal :=
  match env.parse (bodyOrDefault body) with
  | some v => v
  | none => .obj [("action", .str "unknown")]

/-- Source `defaultHandler`.  The endpoint computed before the `try` cannot fail here:
the event of a WebSocket route always carries its `requestContext`. -/
def defaultHandler (env : Env) (event : Event) (s : Store) : Outcome Response :=
  let connectionId := event.requestContext.connectionId
  let message := parseMessage env event.body
  if message.isNullish then
    -- the destructuring throws; the outer catch answers
    ⟨s, [], ⟨500, "Failed to process message"⟩⟩
  else
    let action := message.prop "action"
    let tenantId := message.prop "tenantId"
    if action = .str "heartbeat" then
      let r := postToConnection env connectionId
        (.obj [("type", .str "heartbeat-response"), ("timestamp", .num (env.now 0))]) s
      ⟨r.store, r.effects, ⟨200, "Heartbeat received"⟩⟩
    else if action = .str "join-tenant" then
      let joinedAt := env.now 0
      match update env connectionId tenantId joinedAt s with
      | none =>
        ⟨s, [.update connectionId tenantId joinedAt], ⟨500, "Failed to process message"⟩⟩
      | some s1 =>
        let r := postToConnection env connectionId
          (.obj [("type", .str "joined"), ("tenantId", tenantId),
                 ("message", .str ("Successfully joined tenant " ++ env.render tenantId))]) s1
        ⟨r.store, .update connectionId tenantId joinedAt :: r.effects,
          ⟨200, "Joined tenant"⟩⟩
    else
      let r := postToConnection env connectionId
        (.obj [("type", .str "echo"), ("originalMessage", message),
               ("timestamp", .num (env.now 0))]) s
      ⟨r.store, r.effects, ⟨200, "Message processed"⟩⟩

/-- Settling of the deliveries started by a broadcast, in the order of the scan result
(one admissible completion order; the clean-up deletes are keyed and commute). -/
def settleAll (env : Env) (data : JsVal) : List Connection → Store → Outcome (List Bool)
  | [], s => ⟨s, [], []⟩
  | r :: rest, s =>
    let a := settlePush env r.connectionId data s
    let b := settleAll env data rest a.store
    ⟨b.store, a.effects ++ b.effects, a.result :: b.result⟩

/-- The fan-out `connections.Items.map(...)` followed by `Promise.allSettled`: every push
is issued while mapping, before any of them is awaited; then all of them settle. -/
def deliverAll (env : Env) (data : JsVal) (items : List Connection) (s : Store) :
    Outcome (List Bool) :=
  let r := settleAll env data items s
  ⟨r.store, items.map (fun c => Effect.push c.connectionId data) ++ r.effects, r.result⟩

/-- Source `broadcastToTenant` (websocket.js 154-192).  The endpoint is computed before
the `try`, so a failure there rejects the returned promise; inside the `try` a failing
scan is caught and answered with `false`. -/
def broadcastToTenant (env : Env) (tenantId data : JsVal) (event : Option Event)
    (s : Store) : Outcome (Except JsError Bool) :=
  match getApiGatewayEndpoint event with
  | .error e => ⟨s, [], .error e⟩
  | .ok _ =>
    match scan env tenantId s with
    | none => ⟨s, [.scan tenantId], .ok false⟩
    | some connections =>
      if connections.length = 0 then
        ⟨s, [.scan tenantId], .ok true⟩
      else
        let results := deliverAll env data connections s
        let successful := (results.result.filter (fun ok => ok)).length
        ⟨results.store,
          .scan tenantId :: (results.effects ++ [.report successful connections.length]),
          .ok true⟩

/-- Source `broadcastFromAnalytics` (websocket.js 195-234), transcribed on its own.  The
endpoint comes from the process environment and cannot fail. -/
def broadcastFromAnalytics (env : Env) (tenantId data : JsVal) (s : Store) :
    Outcome (Except JsError Bool) :=
  match scan env tenantId s with
  | none => ⟨s, [.scan tenantId], .ok false⟩
  | some connections =>
    if connections.length = 0 then
      ⟨s, [.scan tenantId], .ok true⟩
    else
      let results := deliverAll env data connections s
      let successful := (results.result.filter (fun ok => ok)).length
      ⟨results.store,
        .scan tenantId :: (results.effects ++ [.report successful connections.length]),
        .ok true⟩

/-- Normal form used to state facts about a broadcast once: the scan, the empty case, the
fan-out and the report, with a plain boolean result.  That each source function has this
form is proved (`broadcastToTenant_some`, `broadcastFromAnalytics_body`). -/
def broadcastBody (env : Env) (tenantId data : JsVal) (s : Store) : Outcome Bool :=
  match scan env tenantId s with
  | none => ⟨s, [.scan tenantId], false⟩
  | some items =>
    if items.length = 0 then
      ⟨s, [.scan tenantId], true⟩
    else
      let r := deliverAll env data items s
      let successful := (r.result.filter (fun ok => ok)).length
      ⟨r.store, .scan tenantId :: (r.effects ++ [.report successful items.length]), true⟩

/-! ## auth-middleware.js and analytics.js -/

/-- An API Gateway HTTP event as read by `ingestData`: `headers` is `none` when the field
is absent, `body` is `none` when the request carries no body (the event holds `null`). -/
structure HttpEvent where
  headers : Option (List (String × String))
  body : Option String
  deriving DecidableEq, Repr

/-- Value of a header, if present. -/
def headerValue (headers : List (String × String)) (name : String) : Option String :=
  (headers.find? (fun kv => decide (kv.1 = name))).map (fun kv => kv.2)

/-- The value of `event.headers.Authorization || event.headers.authorization`;
`none` when the result is falsy (absent or the empty string). -/
def authHeader (headers : List (String × String)) : Option String :=
  match headerValue headers "Authorization" with
  | some v => if v = "" then (headerValue headers "authorization").filter (fun w => w ≠ "")
              else some v
  | none => (headerValue headers "authorization").filter (fun w => w ≠ "")

/-- Remove the first occurrence of a pattern from a list of characters. -/
def dropFirst (pat : List Char) : List Char → List Char
  | [] => []
  | c :: rest =>
    if pat.isPrefixOf (c :: rest) then (c :: rest).drop pat.length
    else c :: dropFirst pat rest

/-- The value of `authHeader.replace('Bearer ', '')`. -/
def stripBearer (header : String) : String :=
  String.mk (dropFirst "Bearer ".toList header.toList)

/-- Source `verifyToken`. -/
def verifyToken (env : Env) (event : HttpEvent) : Except JsError JsVal :=
  match event.headers with
  | none => .error .typeError
  | some headers =>
    match authHeader headers with
    | none => .error (.error "No token provided")
    | some header =>
      match env.jwtVerify (stripBearer header) with
      | some decoded => .ok decoded
      | none => .error (.error "Invalid token")

/-- The body object of an `ingestData` response before `JSON.stringify`. -/
inductive ResponseBody where
  /-- The object `{ success: true, message: '...', eventId }`. -/
  | recorded (eventId : String)
  /-- The object `{ error: error.message }` for the caught error. -/
  | failure (err : JsError)
  deriving DecidableEq, Repr

/-- Response of `ingestData` (the CORS header is the same on every path). -/
structure HttpResponse where
  statusCode : Nat
  body : ResponseBody
  deriving DecidableEq, Repr

/-- The test `error.message === 'No token provided' || error.message === 'Invalid token'`;
messages of engine and SDK errors are taken to differ from both. -/
def JsError.isAuthMessage : JsError → Bool
  | .error m => decide (m = "No token provided") || decide (m = "Invalid token")
  | _ => false

/-- The `catch` block of `ingestData`. -/
def ingestFailure (err : JsError) : HttpResponse :=
  ⟨if err.isAuthMessage then 401 else 500, .failure err⟩

/-- The identifier of the record built by `ingestData`. -/
def recordId (env : Env) (tenantId : JsVal) : String :=
  env.render tenantId ++ "-" ++ env.render (.num (env.now 1)) ++ "-" ++ env.random

/-- The object `analyticsRecord` built by `ingestData`. -/
def analyticsRecord (env : Env) (tenantId body : JsVal) : JsVal :=
  .obj [("tenantId", tenantId), ("timestamp", .num (env.now 0)),
        ("eventType", body.prop "eventType"), ("eventData", body.prop "eventData"),
        ("userId", body.prop "userId"), ("id", .str (recordId env tenantId))]

/-- The envelope `ingestData` hands to the broadcast. -/
def newEventEnvelope (env : Env) (record : JsVal) : JsVal :=
  .obj [("type", .str "new-event"), ("data", record), ("timestamp", .num (env.now 2))]

/-- The parsed request body of `ingestData`: `JSON.parse(event.body)` followed by the
destructuring, which throws on `null`. -/
def parseIngestBody (env : Env) (body : Option String) : Except JsError JsVal :=
  match body with
  | none => .error .typeError
  | some text =>
    match env.parse text with
    | none => .error .syntaxError
    | some v => if v.isNullish then .error .typeError else .ok v

/-- Source `ingestData`.  The broadcast is called with two arguments, so its `event`
parameter is `undefined`. -/
def ingestData (env : Env) (event : HttpEvent) (s : Store) : Outcome HttpResponse :=
  match verifyToken env event with
  | .error e => ⟨s, [], ingestFailure e⟩
  | .ok decoded =>
    if decoded.isNullish then ⟨s, [], ingestFailure .typeError⟩
    else
      let tenantId := decoded.prop "tenantId"
      match parseIngestBody env event.body with
      | .error e => ⟨s, [], ingestFailure e⟩
      | .ok body =>
        let record := analyticsRecord env tenantId body
        if env.analyticsPutOk then
          let envelope := newEventEnvelope env record
          let b := broadcastToTenant env tenantId envelope none s
          match b.result with
          | .error e =>
            ⟨b.store, .analyticsPut record :: .broadcast tenantId envelope :: b.effects,
              ingestFailure e⟩
          | .ok _ =>
            ⟨b.store, .analyticsPut record :: .broadcast tenantId envelope :: b.effects,
              ⟨201, .recorded (recordId env tenantId)⟩⟩
        else
          ⟨s, [.analyticsPut record], ingestFailure .serviceError⟩

/-! ## Runs of the system -/

/-- One invocation of an entry point, together with its environment. -/
inductive Action where
  | connect (env : Env) (event : Event)
  | disconnect (env : Env) (event : Event)
  | message (env : Env) (event : Event)
  | broadcastToTenant (env : Env) (tenantId data : JsVal) (event : Option Event)
  | broadcastFromAnalytics (env : Env) (tenantId data : JsVal)
  | ingest (env : Env) (event : HttpEvent)

/-- The connections table together with everything issued so far. -/
structure World where
  store : Store
  history : List Effect

/-- The world before anything has happened. -/
def World.empty : World := ⟨[], []⟩

/-- Store and effects of one action started on a given store. -/
def Action.perform : Action → Store → Store × List Effect
  | .connect env event, s =>
    let r := connectHandler env event s
    (r.store, r.effects)
  | .disconnect env event, s =>
    let r := disconnectHandler env event s
    (r.store, r.effects)
  | .message env event, s =>
    let r := defaultHandler env event s
    (r.store, r.effects)
  | .broadcastToTenant env tenantId data event, s =>
    let r := AnalyticsPlatform.broadcastToTenant env tenantId data event s
    (r.store, r.effects)
  | .broadcastFromAnalytics env tenantId data, s =>
    let r := AnalyticsPlatform.broadcastFromAnalytics env tenantId data s
    (r.store, r.effects)
  | .ingest env event, s =>
    let r := ingestData env event s
    (r.store, r.effects)

/-- The world after one action. -/
def World.step (w : World) (a : Action) : World :=
  let r := a.perform w.store
  ⟨r.1, w.history ++ r.2⟩

/-- The world after a sequence of actions. -/
def World.run (w : World) (actions : List Action) : World :=
  actions.foldl World.step w

/-- The worlds that arise from the empty store by running the entry points. -/
def Reachable (w : World) : Prop :=
  ∃ actions : List Action, World.empty.run actions = w

/-! ## Sample environment used for concrete evaluations -/

/-- A small `JSON.parse`: a table of the message bodies used in the examples. -/
def sampleParse (text : String) : Option JsVal :=
  if text = "{}" then some (.obj [])
  else if text = "join acme" then
    some (.obj [("action", .str "join-tenant"), ("tenantId", .str "acme")])
  else if text = "join null" then
    some (.obj [("action", .str "join-tenant"), ("tenantId", .null)])
  else if text = "join" then some (.obj [("action", .str "join-tenant")])
  else if text = "event" then some (.obj [("eventType", .str "click")])
  else none

/-- An environment in which the store and the transport work. -/
def sampleEnv : Env where
  now := fun _ => 1700000000123
  parse := sampleParse
  render := fun v => match v with
    | .str t => t
    | _ => "?"
  random := "abc123xyz"
  jwtVerify := fun token =>
    if token = "good" then some (.obj [("tenantId", .str "acme")]) else none
  putOk := true
  deleteOk := fun _ => true
  updateOk := true
  scanOk := true
  firstPage := fun _ => true
  analyticsPutOk := true
  push := fun _ _ => .ok

/-- A WebSocket event of connection `c` with the given body. -/
def sampleEvent (c : String) (body : Option String) : Event :=
  ⟨⟨c, "ws.example.com", "dev"⟩, body⟩

/-! ## Predicates used in the statements -/

/-- The message is `{action: 'join-tenant', tenantId: T, ...}`. -/
def IsJoinTenant (env : Env) (event : Event) (tenantId : JsVal) : Prop :=
  (parseMessage env event.body).prop "action" = .str "join-tenant"
    ∧ (parseMessage env event.body).prop "tenantId" = tenantId

/-- The transport does not classify a push to the connection as gone. -/
def NotGone (env : Env) (connectionId : String) : Prop :=
  ∀ data code, env.push connectionId data = .failed code → isGone code = false

/-! ## Sample stores and failing environments used for concrete evaluations -/

/-- A record as left by `connectHandler` at time 1700000000000. -/
def connectedRecord (c : String) : Connection :=
  ⟨c, some 1700000000000, some 1700007200, "connected", none, none⟩

/-- A record as left by `connectHandler` followed by a join-tenant update. -/
def joinedRecord (c tenant : String) : Connection :=
  ⟨c, some 1700000000000, some 1700007200, "joined", some (.str tenant), some 1700000000100⟩

/-- A table with two connections joined to `acme`, one joined to `other`, one not joined. -/
def sampleStore : Store :=
  [joinedRecord "c1" "acme", connectedRecord "c2", joinedRecord "c3" "acme",
   joinedRecord "c4" "other"]

/-- The transport answers every push to `c1` with status 410; the store works. -/
def goneEnv : Env :=
  { sampleEnv with push := fun c _ => if c = "c1" then .failed (some 410) else .ok }

/-- As `goneEnv`, but every delete request on the connections table is rejected. -/
def goneEnvDeleteFails : Env :=
  { goneEnv with deleteOk := fun _ => false }

/-- Key of the `i`-th filler record of the large sample table. -/
def fillerId (i : Nat) : String :=
  "f" ++ toString i

/-- A table of 30002 records, more than one scan page covers: `c1` joined to `acme`,
then 30000 connections that joined no tenant, then `c3` joined to `acme`. -/
@[irreducible]
def largeStore : Store :=
  joinedRecord "c1" "acme"
    :: ((List.range 30000).map (fun i => connectedRecord (fillerId i))
        ++ [joinedRecord "c3" "acme"])

/-- A working environment whose scan page covers `c1` and the first 15000 filler records
of the large table; the other records, `c3` among them, lie beyond the first page. -/
def pagedEnv : Env :=
  { sampleEnv with
    firstPage := fun c => decide (c = "c1" ∨ c ∈ (List.range 15000).map fillerId) }

/-- A payload as sent by the ingestion bridge. -/
def sampleMessage : JsVal :=
  .obj [("type", .str "new-event"), ("data", .obj [("x", .num 1)])]

/-- Settling the push of `data` to `c` removes the record of `c`: the transport answers
gone and the clean-up delete succeeds. -/
def evicts (env : Env) (data : JsVal) (c : String) : Bool :=
  match env.push c data with
  | .failed code => isGone code && env.deleteOk c
  | .ok => false

/-- An authenticated ingest request carrying one event. -/
def sampleIngest : HttpEvent :=
  ⟨some [("Authorization", "Bearer good")], some "event"⟩

/-! ## Envelopes and predicates used in the statements about single messages -/

/-- The acknowledgement `{type: 'joined', tenantId, message}` of a join-tenant message. -/
def joinedAck (env : Env) (tenantId : JsVal) : JsVal :=
  .obj [("type", .str "joined"), ("tenantId", tenantId),
        ("message", .str ("Successfully joined tenant " ++ env.render tenantId))]

/-- The envelope `{type: 'heartbeat-response', timestamp}`. -/
def heartbeatResponse (env : Env) : JsVal :=
  .obj [("type", .str "heartbeat-response"), ("timestamp", .num (env.now 0))]

/-- The envelope `{type: 'echo', originalMessage, timestamp}`. -/
def echoEnvelope (env : Env) (message : JsVal) : JsVal :=
  .obj [("type", .str "echo"), ("originalMessage", message), ("timestamp", .num (env.now 0))]

/-- The transport answers the push of `data` to `c` with a gone status (410 or 403). -/
def answeredGone (env : Env) (data : JsVal) (c : String) : Bool :=
  match env.push c data with
  | .failed code => isGone code
  | .ok => false

/-- The message is `{action: 'heartbeat', ...}`. -/
def IsHeartbeat (env : Env) (event : Event) : Prop :=
  (parseMessage env event.body).prop "action" = .str "heartbeat"

/-- A `JSON.parse` table that also knows the JSON text `null` and a heartbeat message. -/
def sampleParseMore (text : String) : Option JsVal :=
  if text = "null" then some .null
  else if text = "heartbeat" then some (.obj [("action", .str "heartbeat")])
  else sampleParse text

/-- The working environment with the larger parse table. -/
def sampleEnvMore : Env :=
  { sampleEnv with parse := sampleParseMore }

/-- The environment in which the transport answers 410 for `c1`, with the larger parse
table. -/
def goneEnvMore : Env :=
  { goneEnv with parse := sampleParseMore }

/-- An environment in which every request to the connections table is rejected. -/
def storeDownEnv : Env :=
  { sampleEnv with putOk := false, deleteOk := fun _ => false, updateOk := false,
                   scanOk := false }

/-- The completion reports `successful/attempted` among a list of effects, in order. -/
def reportsOf : List Effect → List (Nat × Nat)
  | [] => []
  | .report k n :: rest => (k, n) :: reportsOf rest
  | _ :: rest => reportsOf rest

/-- A `JSON.parse` table that also knows a join-tenant message for tenant `other`. -/
def sampleParseSwitch (text : String) : Option JsVal :=
  if text = "join other" then
    some (.obj [("action", .str "join-tenant"), ("tenantId", .str "other")])
  else sampleParse text

/-- The working environment with the join message for `other`. -/
def switchEnv : Env :=
  { sampleEnv with parse := sampleParseSwitch }

/-- The environment in which the transport answers 410 for `c1`, with the join message
for `other`. -/
def switchGoneEnv : Env :=
  { goneEnv with parse := sampleParseSwitch }

/-! ## Record shapes -/

/-- The record written by a join-tenant update for a key that has no record. -/
def bareJoinedRecord (c : String) (tenantId : JsVal) (joinedAt : Int) : Connection :=
  { connectionId := c, timestamp := none, ttl := none, status := "joined",
    tenantId := some tenantId, joinedAt := some joinedAt }

/-- The record carries a creation timestamp and the expiry `floor(timestamp / 1000) + 7200`. -/
def HasExpiry (r : Connection) : Prop :=
  ∃ now : Int, r.timestamp = some now ∧ r.ttl = some (Int.fdiv now 1000 + 7200)

/-- The record carries neither timestamp nor ttl: only the attributes of a join-tenant
update. -/
def JoinOnly (r : Connection) : Prop :=
  r.timestamp = none ∧ r.ttl = none ∧ r.status = "joined"
    ∧ (∃ v, r.tenantId = some v) ∧ (∃ j, r.joinedAt = some j)

/-- The two shapes of record that the handlers can leave in the table. -/
def StoredShape (r : Connection) : Prop :=
  (r.status = "connected" ∨ r.status = "joined") ∧ (HasExpiry r ∨ JoinOnly r)

/-! ## frontend/src/hooks/useWebSocket.js

The hook is embedded as a state machine.  The state collects the React state
(`connectionStatus`, `lastMessage`, `messageHistory`) and the refs
(`reconnectAttempts`, `reconnectTimeoutRef`, `heartbeatIntervalRef`, `ws`); every
handler is a function from the state to the new state and the list of things it
asks the browser or the caller to do.  The options are fixed for the life of the
hook; `maxReconnectAttempts` is a count and is modelled as a natural number. -/

namespace useWebSocket

/-- The options the handlers read, together with the browser's `JSON.parse`. -/
structure Options where
  /-- Whether `url` is truthy. -/
  hasUrl : Bool
  shouldReconnect : Bool
  maxReconnectAttempts : Nat
  /-- The function `JSON.parse`; `none` when it throws. -/
  parse : String → Option JsVal

/-- React state and refs of the hook. -/
structure State where
  connectionStatus : String
  /-- The state `lastMessage`; `none` is the initial `null`. -/
  lastMessage : Option JsVal
  messageHistory : List JsVal
  /-- The ref `reconnectAttempts.current`. -/
  reconnectAttempts : Nat
  /-- Whether `reconnectTimeoutRef.current` holds a timer id. -/
  reconnectTimeoutSet : Bool
  /-- Whether `heartbeatIntervalRef.current` holds an interval id. -/
  heartbeatSet : Bool
  /-- Whether `ws.current` holds a socket. -/
  hasSocket : Bool
  deriving DecidableEq

/-- What a handler asks the browser or the caller to do. -/
inductive HookEffect where
  /-- Call `setTimeout(() => connect(), reconnectInterval)`. -/
  | scheduleReconnect
  /-- Call `clearTimeout(reconnectTimeoutRef.current)`. -/
  | clearReconnectTimeout
  /-- Call `ws.current.close(code, ...)`; `none` when called without a code. -/
  | closeSocket (code : Option Nat)
  /-- Call `new WebSocket(url)`. -/
  | createSocket
  /-- Call `setTimeout` for the initial heartbeat, one second after open. -/
  | scheduleInitialHeartbeat
  /-- Call `ws.current.send` with the heartbeat message. -/
  | sendHeartbeat
  /-- Call the callback `onOpen`. -/
  | onOpen
  /-- Call the callback `onClose`. -/
  | onClose
  /-- Call the callback `onMessage`. -/
  | onMessage (message : JsVal)
  /-- Call the callback `onError`. -/
  | onError
  deriving DecidableEq

/-- The state of the first render. -/
def initial : State :=
  { connectionStatus := "Connecting", lastMessage := none, messageHistory := [],
    reconnectAttempts := 0, reconnectTimeoutSet := false, heartbeatSet := false,
    hasSocket := false }

/-- The value of `prev.slice(-49)`: the last 49 elements, or all of them if fewer. -/
def slice49 (prev : List JsVal) : List JsVal :=
  prev.drop (prev.length - 49)

/-- The message of `ws.onmessage`: the parsed data, or the raw data when parsing throws. -/
def decode (opts : Options) (data : String) : JsVal :=
  match opts.parse data with
  | some v => v
  | none => .str data

/-- Source `stopHeartbeat`. -/
def stopHeartbeat (st : State) : State :=
  { st with heartbeatSet := false }

/-- Source `ws.current.onopen`. -/
def onopen (st : State) : State × List HookEffect :=
  ({ st with connectionStatus := "Open", reconnectAttempts := 0 },
   [.scheduleInitialHeartbeat, .onOpen])

/-- Source `ws.current.onclose`. -/
def onclose (opts : Options) (code : Nat) (st : State) : State × List HookEffect :=
  let st1 := stopHeartbeat { st with connectionStatus := "Closed" }
  if opts.shouldReconnect && decide (code ≠ 1000)
      && decide (st1.reconnectAttempts < opts.maxReconnectAttempts) then
    ({ st1 with connectionStatus := "Reconnecting",
                reconnectAttempts := st1.reconnectAttempts + 1,
                reconnectTimeoutSet := true },
     [.scheduleReconnect, .onClose])
  else
    ({ st1 with connectionStatus := "Failed" }, [.onClose])

/-- Source `ws.current.onmessage`. -/
def onmessage (opts : Options) (data : String) (st : State) : State × List HookEffect :=
  let message := decode opts data
  ({ st with lastMessage := some message,
             messageHistory := slice49 st.messageHistory ++ [message] },
   if message.prop "type" = .str "heartbeat-response" then [] else [.onMessage message])

/-- Source `ws.current.onerror`. -/
def onerror (st : State) : State × List HookEffect :=
  (stopHeartbeat { st with connectionStatus := "Error" }, [.onError])

/-- Source `connect`; `created` tells whether `new WebSocket(url)` returns (true) or
throws (false). -/
def connect (opts : Options) (created : Bool) (st : State) : State × List HookEffect :=
  if opts.hasUrl then
    let closing : List HookEffect := if st.hasSocket then [.closeSocket none] else []
    if created then
      ({ st with connectionStatus := "Connecting", hasSocket := true },
       closing ++ [.createSocket])
    else
      (stopHeartbeat { st with connectionStatus := "Error" }, closing ++ [.createSocket])
  else
    ({ st with connectionStatus := "Failed" }, [])

/-- Source `disconnect`. -/
def disconnect (st : State) : State × List HookEffect :=
  let clearing : List HookEffect :=
    if st.reconnectTimeoutSet then [.clearReconnectTimeout] else []
  let closing : List HookEffect :=
    if st.hasSocket then [.closeSocket (some 1000)] else []
  ({ stopHeartbeat { st with reconnectTimeoutSet := false } with
       connectionStatus := "Closed" },
   clearing ++ closing)

/-- Source `reconnect` (the manual reconnect). -/
def reconnect (opts : Options) (created : Bool) (st : State) : State × List HookEffect :=
  connect opts created { st with reconnectAttempts := 0 }

/-- The timer callback set one second after open: `sendHeartbeat(); startHeartbeat()` when
the socket is open. -/
def initialHeartbeat (socketOpen : Bool) (st : State) : State × List HookEffect :=
  if socketOpen then ({ st with heartbeatSet := true }, [.sendHeartbeat]) else (st, [])

/-- The returned value `reconnectAttemptsLeft`:
`Math.max(0, maxReconnectAttempts - reconnectAttempts.current)`. -/
def reconnectAttemptsLeft (opts : Options) (st : State) : Int :=
  max 0 ((opts.maxReconnectAttempts : Int) - (st.reconnectAttempts : Int))

/-- What can happen to the hook. -/
inductive HookEvent where
  /-- The socket fires `open`. -/
  | opened
  /-- A socket fires `close` with the given code. -/
  | closed (code : Nat)
  /-- The socket fires `message` with the given data. -/
  | message (data : String)
  /-- The socket fires `error`. -/
  | errored
  /-- The caller invokes `disconnect()`. -/
  | disconnect
  /-- The caller invokes `reconnect()`. -/
  | reconnect (created : Bool)
  /-- The function `connect()` runs, called by the mount effect or by a reconnect timer. -/
  | autoConnect (created : Bool)
  /-- The initial-heartbeat timer fires. -/
  | heartbeatDue (socketOpen : Bool)
  deriving DecidableEq

/-- The handler run by an event. -/
def step (opts : Options) (st : State) : HookEvent → State × List HookEffect
  | .opened => onopen st
  | .closed code => onclose opts code st
  | .message data => onmessage opts data st
  | .errored => onerror st
  | .disconnect => disconnect st
  | .reconnect created => reconnect opts created st
  | .autoConnect created => connect opts created st
  | .heartbeatDue socketOpen => initialHeartbeat socketOpen st

/-- The state after a sequence of events. -/
def run (opts : Options) (st : State) (events : List HookEvent) : State :=
  events.foldl (fun acc e => (step opts acc e).1) st

/-- Everything the handlers asked for during a sequence of events, in order. -/
def trace (opts : Options) : State → List HookEvent → List HookEffect
  | _, [] => []
  | st, e :: rest => (step opts st e).2 ++ trace opts (step opts st e).1 rest

/-- The messages received during a sequence of events, in arrival order. -/
def received (opts : Options) : List HookEvent → List JsVal
  | [] => []
  | .message data :: rest => decode opts data :: received opts rest
  | _ :: rest => received opts rest

/-- The events that reset the attempt counter: a successful open and a manual reconnect. -/
def isReset : HookEvent → Bool
  | .opened => true
  | .reconnect _ => true
  | _ => false

/-- Options used for concrete evaluations: reconnect enabled, three attempts. -/
def sampleOptions : Options :=
  { hasUrl := true, shouldReconnect := true, maxReconnectAttempts := 3,
    parse := sampleParseMore }

end useWebSocket

/-! ## Basic facts about the store and the effect projections -/

theorem pushesOf_append (xs ys : List Effect) :
    pushesOf (xs ++ ys) = pushesOf xs ++ pushesOf ys := by
  induction xs with
  | nil => rfl
  | cons e rest ih => cases e <;> simp [pushesOf, ih]

theorem deletesOf_append (xs ys : List Effect) :
    deletesOf (xs ++ ys) = deletesOf xs ++ deletesOf ys := by
  induction xs with
  | nil => rfl
  | cons e rest ih => cases e <;> simp [deletesOf, ih]

theorem pushesOf_started (data : JsVal) (items : List Connection) :
    pushesOf (items.map (fun c => Effect.push c.connectionId data))
      = items.map (fun c => (c.connectionId, data)) := by
  induction items with
  | nil => rfl
  | cons r rest ih => simp [pushesOf, ih]

theorem settlePush_pushes (env : Env) (c : String) (data : JsVal) (s : Store) :
    pushesOf (settlePush env c data s).effects = [] := by
  unfold settlePush
  split
  · rfl
  · split
    · split <;> rfl
    · rfl

theorem settleAll_pushes (env : Env) (data : JsVal) (items : List Connection) (s : Store) :
    pushesOf (settleAll env data items s).effects = [] := by
  induction items generalizing s with
  | nil => rfl
  | cons r rest ih => simp [settleAll, pushesOf_append, settlePush_pushes, ih]

theorem deliverAll_pushes (env : Env) (data : JsVal) (items : List Connection) (s : Store) :
    pushesOf (deliverAll env data items s).effects
      = items.map (fun c => (c.connectionId, data)) := by
  simp [deliverAll, pushesOf_append, settleAll_pushes, pushesOf_started]

theorem mem_scanned_iff (env : Env) (tenantId : JsVal) (s : Store) (r : Connection) :
    r ∈ s.filter (scanned env tenantId)
      ↔ r ∈ s ∧ env.firstPage r.connectionId = true
          ∧ r.tenantId = some tenantId ∧ r.status = "joined" := by
  simp [scanned, matchesTenant, List.mem_filter]

theorem scanned_nil_of_matching_nil (env : Env) (tenantId : JsVal) (s : Store)
    (h : s.filter (matchesTenant tenantId) = []) :
    s.filter (scanned env tenantId) = [] := by
  rw [List.filter_eq_nil_iff] at h ⊢
  intro r hr hm
  simp only [scanned, Bool.and_eq_true] at hm
  exact h r hr hm.2

theorem scan_eq_some (env : Env) (tenantId : JsVal) (s : Store) (items : List Connection)
    (h : scan env tenantId s = some items) :
    items = s.filter (scanned env tenantId) := by
  unfold scan at h
  split at h
  · cases h
  · split at h
    · exact (Option.some.inj h).symm
    · cases h

theorem scan_mem_iff (env : Env) (tenantId : JsVal) (s : Store) (items : List Connection)
    (h : scan env tenantId s = some items) (r : Connection) :
    r ∈ items ↔ r ∈ s ∧ env.firstPage r.connectionId = true
        ∧ r.tenantId = some tenantId ∧ r.status = "joined" := by
  rw [scan_eq_some env tenantId s items h]
  exact mem_scanned_iff env tenantId s r

/-- With an event, `broadcastToTenant` has the normal form `broadcastBody`. -/
theorem broadcastToTenant_some (env : Env) (tenantId data : JsVal) (event : Event)
    (s : Store) :
    broadcastToTenant env tenantId data (some event) s
      = ⟨(broadcastBody env tenantId data s).store,
         (broadcastBody env tenantId data s).effects,
         .ok (broadcastBody env tenantId data s).result⟩ := by
  unfold broadcastToTenant broadcastBody getApiGatewayEndpoint
  cases scan env tenantId s with
  | none => rfl
  | some items => by_cases h : items.length = 0 <;> simp [h]

/-- The function `broadcastFromAnalytics` has the normal form `broadcastBody`. -/
theorem broadcastFromAnalytics_body (env : Env) (tenantId data : JsVal) (s : Store) :
    broadcastFromAnalytics env tenantId data s
      = ⟨(broadcastBody env tenantId data s).store,
         (broadcastBody env tenantId data s).effects,
         .ok (broadcastBody env tenantId data s).result⟩ := by
  unfold broadcastFromAnalytics broadcastBody
  cases scan env tenantId s with
  | none => rfl
  | some items => by_cases h : items.length = 0 <;> simp [h]

theorem broadcastBody_pushes (env : Env) (tenantId data : JsVal) (s : Store)
    (items : List Connection) (h : scan env tenantId s = some items) :
    pushesOf (broadcastBody env tenantId data s).effects
      = items.map (fun c => (c.connectionId, data)) := by
  unfold broadcastBody
  rw [h]
  by_cases h0 : items.length = 0
  · have : items = [] := List.length_eq_zero.mp h0
    subst this
    simp [pushesOf]
  · simp [h0, pushesOf, pushesOf_append, deliverAll_pushes]

/-! ## Broadcast fan-out -/

theorem broadcastBody_result (env : Env) (tenantId data : JsVal) (s : Store) :
    (broadcastBody env tenantId data s).result = (scan env tenantId s).isSome := by
  unfold broadcastBody
  cases scan env tenantId s with
  | none => rfl
  | some items => by_cases h : items.length = 0 <;> simp [h]

theorem broadcastToTenant_effects (env : Env) (tenantId data : JsVal) (event : Event)
    (s : Store) :
    (broadcastToTenant env tenantId data (some event) s).effects
      = (broadcastBody env tenantId data s).effects := by
  rw [broadcastToTenant_some]

theorem broadcastFromAnalytics_effects (env : Env) (tenantId data : JsVal) (s : Store) :
    (broadcastFromAnalytics env tenantId data s).effects
      = (broadcastBody env tenantId data s).effects := by
  rw [broadcastFromAnalytics_body]

theorem broadcastFromAnalytics_result (env : Env) (tenantId data : JsVal) (s : Store) :
    (broadcastFromAnalytics env tenantId data s).result
      = .ok (broadcastBody env tenantId data s).result := by
  rw [broadcastFromAnalytics_body]

theorem fillerId_ne_c3 (i : Nat) : fillerId i ≠ "c3" := by
  intro h
  have hd := congrArg String.data h
  simp [fillerId, String.data_append] at hd

theorem scan_pagedEnv_largeStore :
    scan pagedEnv (.str "acme") largeStore = some [joinedRecord "c1" "acme"] := by
  have hfill : ((List.range 30000).map (fun i => connectedRecord (fillerId i))).filter
      (scanned pagedEnv (.str "acme")) = [] := by
    rw [List.filter_eq_nil_iff]
    intro r hr
    obtain ⟨i, -, rfl⟩ := List.mem_map.mp hr
    simp [scanned, matchesTenant, connectedRecord]
  have hc1 : scanned pagedEnv (.str "acme") (joinedRecord "c1" "acme") = true := by
    simp [scanned, matchesTenant, joinedRecord, pagedEnv]
  have hc3 : scanned pagedEnv (.str "acme") (joinedRecord "c3" "acme") = false := by
    have hne : ∀ i, ¬ fillerId i = "c3" := fillerId_ne_c3
    simp [scanned, joinedRecord, pagedEnv, hne]
  have hok : pagedEnv.scanOk = true := rfl
  unfold scan
  rw [if_neg (by simp), if_pos hok]
  unfold largeStore
  rw [List.filter_cons_of_pos hc1, List.filter_append, hfill, List.nil_append,
    List.filter_cons_of_neg (by simp [hc3]), List.filter_nil]

/-- Counterexample for C1: the large table holds 30002 records, `c1` and `c3` both stored
with `tenantId = acme` and `status = 'joined'`; the record of `c3` lies beyond the first
page of the scan.  The scan succeeds, the broadcast returns `true`, and the only
delivery attempt goes to `c1`: `c3` is never attempted. -/
theorem broadcast_skips_joined_record_beyond_first_page :
    joinedRecord "c3" "acme" ∈ largeStore
    ∧ (joinedRecord "c3" "acme").tenantId = some (.str "acme")
    ∧ (joinedRecord "c3" "acme").status = "joined"
    ∧ scan pagedEnv (.str "acme") largeStore = some [joinedRecord "c1" "acme"]
    ∧ (broadcastFromAnalytics pagedEnv (.str "acme") sampleMessage largeStore).result
        = .ok true
    ∧ pushesOf (broadcastFromAnalytics pagedEnv (.str "acme") sampleMessage
          largeStore).effects
        = [("c1", sampleMessage)]
    ∧ pushesOf (broadcastToTenant pagedEnv (.str "acme") sampleMessage
          (some (sampleEvent "c9" none)) largeStore).effects
        = [("c1", sampleMessage)] := by
  have hs := scan_pagedEnv_largeStore
  have hp : pushesOf (broadcastBody pagedEnv (.str "acme") sampleMessage largeStore).effects
      = [("c1", sampleMessage)] := by
    rw [broadcastBody_pushes pagedEnv (.str "acme") sampleMessage largeStore _ hs]
    rfl
  have hr : (broadcastBody pagedEnv (.str "acme") sampleMessage largeStore).result = true := by
    rw [broadcastBody_result, hs]
    rfl
  have hmem : joinedRecord "c3" "acme" ∈ largeStore := by
    unfold largeStore
    exact List.mem_cons_of_mem _ (List.mem_append_right _ (List.mem_singleton_self _))
  exact ⟨hmem, rfl, rfl, hs,
    (broadcastFromAnalytics_result pagedEnv _ _ largeStore).trans (congrArg Except.ok hr),
    (congrArg pushesOf (broadcastFromAnalytics_effects pagedEnv _ _ largeStore)).trans hp,
    (congrArg pushesOf
      (broadcastToTenant_effects pagedEnv _ _ (sampleEvent "c9" none) largeStore)).trans hp⟩

/-- Claim C1 (amended): when the store scan succeeds, a broadcast
(`broadcastFromAnalytics`, or `broadcastToTenant` called with an event) issues its
delivery attempts to exactly the stored records with `tenantId = T` and
`status = 'joined'` that lie on the first page of the scan: the list of attempts is the
list of those records, one attempt each, every attempt carrying the broadcast payload,
whatever the outcomes of the individual pushes.  When every stored record lies on the
first page, these are exactly the stored records with `tenantId = T` and
`status = 'joined'`. -/
theorem broadcast_attempts_exactly_scanned (env : Env) (tenantId data : JsVal)
    (event : Event) (s : Store) (items : List Connection)
    (h : scan env tenantId s = some items) :
    (∀ r, r ∈ items ↔ r ∈ s ∧ env.firstPage r.connectionId = true
        ∧ r.tenantId = some tenantId ∧ r.status = "joined")
    ∧ pushesOf (broadcastToTenant env tenantId data (some event) s).effects
        = items.map (fun c => (c.connectionId, data))
    ∧ pushesOf (broadcastFromAnalytics env tenantId data s).effects
        = items.map (fun c => (c.connectionId, data))
    ∧ ((∀ r ∈ s, env.firstPage r.connectionId = true) →
        ∀ r, r ∈ items ↔ r ∈ s ∧ r.tenantId = some tenantId ∧ r.status = "joined") := by
  refine ⟨scan_mem_iff env tenantId s items h, ?_, ?_, fun hall r => ?_⟩
  · simpa [broadcastToTenant_some] using
      broadcastBody_pushes env tenantId data s items h
  · simpa [broadcastFromAnalytics_body] using
      broadcastBody_pushes env tenantId data s items h
  · rw [scan_mem_iff env tenantId s items h r]
    constructor
    · rintro ⟨hr, -, ht, hs⟩
      exact ⟨hr, ht, hs⟩
    · rintro ⟨hr, ht, hs⟩
      exact ⟨hr, hall r hr, ht, hs⟩

/-! ## Facts about single handlers -/

theorem not_nullish_of_prop {v : JsVal} {key s : String} (h : v.prop key = .str s) :
    v.isNullish = false := by
  cases v <;> simp_all [JsVal.prop, JsVal.isNullish]

theorem settlePush_store_notGone (env : Env) (c : String) (data : JsVal) (s : Store)
    (h : NotGone env c) : (settlePush env c data s).store = s := by
  unfold settlePush
  split
  · rfl
  · rename_i code hc
    simp [h data code hc]

theorem postToConnection_store_notGone (env : Env) (c : String) (data : JsVal) (s : Store)
    (h : NotGone env c) : (postToConnection env c data s).store = s := by
  simp [postToConnection, settlePush_store_notGone env c data s h]

theorem defaultHandler_join (env : Env) (event : Event) (s : Store) (tenantId : JsVal)
    (h : IsJoinTenant env event tenantId) :
    defaultHandler env event s =
      match update env event.requestContext.connectionId tenantId (env.now 0) s with
      | none =>
        ⟨s, [.update event.requestContext.connectionId tenantId (env.now 0)],
          ⟨500, "Failed to process message"⟩⟩
      | some s1 =>
        let r := postToConnection env event.requestContext.connectionId
          (.obj [("type", .str "joined"), ("tenantId", tenantId),
                 ("message", .str ("Successfully joined tenant " ++ env.render tenantId))]) s1
        ⟨r.store, .update event.requestContext.connectionId tenantId (env.now 0) :: r.effects,
          ⟨200, "Joined tenant"⟩⟩ := by
  obtain ⟨ha, ht⟩ := h
  have hn := not_nullish_of_prop ha
  unfold defaultHandler
  simp only [hn, ha, ht]
  simp

theorem join_ok_store (env : Env) (event : Event) (s : Store) (tenantId : JsVal)
    (h : IsJoinTenant env event tenantId)
    (hok : (defaultHandler env event s).result.statusCode = 200)
    (hlive : NotGone env event.requestContext.connectionId) :
    tenantId ≠ .undefined ∧
    (defaultHandler env event s).store
      = s.update event.requestContext.connectionId tenantId (env.now 0) := by
  rw [defaultHandler_join env event s tenantId h] at hok ⊢
  unfold update at hok ⊢
  by_cases hu : tenantId = .undefined
  · simp [hu] at hok
  · by_cases hq : env.updateOk = true
    · simp [hu, hq, postToConnection_store_notGone _ _ _ _ hlive]
    · simp [hu, hq] at hok

theorem connect_ok_store (env : Env) (event : Event) (s : Store)
    (hok : (connectHandler env event s).result.statusCode = 200) :
    (connectHandler env event s).store
      = s.put { connectionId := event.requestContext.connectionId,
                timestamp := some (env.now 0),
                ttl := some (Int.fdiv (env.now 0) 1000 + 7200),
                status := "connected", tenantId := none, joinedAt := none } := by
  unfold connectHandler at hok ⊢
  by_cases hp : env.putOk = true
  · simp [hp]
  · simp [hp] at hok

/-- Witness for the amended C1 on the sample table: the environment rejects the push to
`c1` with status 410, and the attempts still go to `c1` and `c3`, once each. -/
theorem broadcast_attempts_exactly_scanned_witness :
    scan goneEnv (.str "acme") sampleStore
        = some [joinedRecord "c1" "acme", joinedRecord "c3" "acme"]
    ∧ pushesOf (broadcastToTenant goneEnv (.str "acme") sampleMessage
          (some (sampleEvent "c9" none)) sampleStore).effects
        = [("c1", sampleMessage), ("c3", sampleMessage)]
    ∧ pushesOf (broadcastFromAnalytics goneEnv (.str "acme") sampleMessage
          sampleStore).effects
        = [("c1", sampleMessage), ("c3", sampleMessage)] :=
  have h := broadcast_attempts_exactly_scanned goneEnv (.str "acme") sampleMessage
      (sampleEvent "c9" none) sampleStore
      [joinedRecord "c1" "acme", joinedRecord "c3" "acme"] (by decide)
  ⟨by decide, h.2.1, h.2.2.1⟩

theorem broadcastBody_pushes_of_filter (env : Env) (tenantId data : JsVal) (s : Store)
    (hT : tenantId ≠ .undefined) (hscan : env.scanOk = true) :
    pushesOf (broadcastBody env tenantId data s).effects
      = (s.filter (scanned env tenantId)).map (fun c => (c.connectionId, data)) :=
  broadcastBody_pushes env tenantId data s _ (by simp [scan, hT, hscan])

theorem broadcastBody_pushes_nil (env : Env) (tenantId data : JsVal) (s : Store)
    (h : s.filter (matchesTenant tenantId) = []) :
    pushesOf (broadcastBody env tenantId data s).effects = [] := by
  cases hs : scan env tenantId s with
  | none => simp [broadcastBody, hs, pushesOf]
  | some items =>
    rw [broadcastBody_pushes env tenantId data s items hs,
      scan_eq_some env tenantId s items hs, scanned_nil_of_matching_nil env tenantId s h]
    rfl

theorem broadcastToTenant_pushes_nil (env : Env) (tenantId data : JsVal)
    (event : Option Event) (s : Store) (h : s.filter (matchesTenant tenantId) = []) :
    pushesOf (broadcastToTenant env tenantId data event s).effects = [] := by
  cases event with
  | none => simp [broadcastToTenant, getApiGatewayEndpoint, pushesOf]
  | some e =>
    simpa [broadcastToTenant_some] using
      broadcastBody_pushes_nil env tenantId data s h

/-- Counterexample for C2: from the empty store, connect(`c1`), connect(`c2`) and a
join-tenant message for `acme` handled for each, all four handlers answering 200; the
transport answers the join acknowledgement to `c1` with status 410, which removes the
record of `c1`, and the broadcast to `acme` attempts delivery to `c2` only. -/
theorem join_ack_gone_leaves_broadcast_without_target :
    (connectHandler goneEnv (sampleEvent "c1" none) []).result.statusCode = 200
    ∧ (connectHandler goneEnv (sampleEvent "c2" none)
        (connectHandler goneEnv (sampleEvent "c1" none) []).store).result.statusCode = 200
    ∧ (defaultHandler goneEnv (sampleEvent "c1" (some "join acme"))
        (connectHandler goneEnv (sampleEvent "c2" none)
          (connectHandler goneEnv (sampleEvent "c1" none) []).store).store
        ).result.statusCode = 200
    ∧ (defaultHandler goneEnv (sampleEvent "c2" (some "join acme"))
        (defaultHandler goneEnv (sampleEvent "c1" (some "join acme"))
          (connectHandler goneEnv (sampleEvent "c2" none)
            (connectHandler goneEnv (sampleEvent "c1" none) []).store).store).store
        ).result.statusCode = 200
    ∧ pushesOf (broadcastToTenant sampleEnv (.str "acme") sampleMessage
        (some (sampleEvent "c9" none))
        (defaultHandler goneEnv (sampleEvent "c2" (some "join acme"))
          (defaultHandler goneEnv (sampleEvent "c1" (some "join acme"))
            (connectHandler goneEnv (sampleEvent "c2" none)
              (connectHandler goneEnv (sampleEvent "c1" none) []).store).store).store
          ).store).effects
      = [("c2", sampleMessage)]
    ∧ pushesOf (broadcastFromAnalytics sampleEnv (.str "acme") sampleMessage
        (defaultHandler goneEnv (sampleEvent "c2" (some "join acme"))
          (defaultHandler goneEnv (sampleEvent "c1" (some "join acme"))
            (connectHandler goneEnv (sampleEvent "c2" none)
              (connectHandler goneEnv (sampleEvent "c1" none) []).store).store).store
          ).store).effects
      = [("c2", sampleMessage)] := by
  decide

/-- Claim C2 (amended): from the empty store, after connect(C1), connect(C2) and a
join-tenant message with tenant T handled for each, when all four handlers answered 200
and the transport did not answer either join acknowledgement gone, a broadcast to T
(`broadcastToTenant` called with an event, or `broadcastFromAnalytics`) whose scan
succeeds and has the records of C1 and C2 on its first page issues exactly one delivery
attempt to C2 and one to C1, both carrying the identical message, and returns `true`; a
broadcast to any other tenant issues no delivery attempt at all. -/
theorem two_joined_connections_scenario
    (e1 e2 e3 e4 eb eb2 : Env) (v1 v2 m1 m2 evb : Event) (evb2 : Option Event)
    (T T2 msg : JsVal) (c1 c2 : String)
    (hc : c1 ≠ c2) (hT : T ≠ T2)
    (hv1 : v1.requestContext.connectionId = c1)
    (hv2 : v2.requestContext.connectionId = c2)
    (hm1 : m1.requestContext.connectionId = c1)
    (hm2 : m2.requestContext.connectionId = c2)
    (hj1 : IsJoinTenant e3 m1 T) (hj2 : IsJoinTenant e4 m2 T)
    (hlive1 : NotGone e3 c1) (hlive2 : NotGone e4 c2)
    (ok1 : (connectHandler e1 v1 []).result.statusCode = 200)
    (ok2 : (connectHandler e2 v2 (connectHandler e1 v1 []).store).result.statusCode = 200)
    (ok3 : (defaultHandler e3 m1
        (connectHandler e2 v2 (connectHandler e1 v1 []).store).store).result.statusCode = 200)
    (ok4 : (defaultHandler e4 m2 (defaultHandler e3 m1
        (connectHandler e2 v2 (connectHandler e1 v1 []).store).store).store).result.statusCode
          = 200)
    (hscan : eb.scanOk = true)
    (hpage1 : eb.firstPage c1 = true) (hpage2 : eb.firstPage c2 = true) :
    pushesOf (broadcastToTenant eb T msg (some evb) (defaultHandler e4 m2 (defaultHandler e3 m1
        (connectHandler e2 v2 (connectHandler e1 v1 []).store).store).store).store).effects
      = [(c2, msg), (c1, msg)]
    ∧ (broadcastToTenant eb T msg (some evb) (defaultHandler e4 m2 (defaultHandler e3 m1
        (connectHandler e2 v2 (connectHandler e1 v1 []).store).store).store).store).result
      = .ok true
    ∧ pushesOf (broadcastFromAnalytics eb T msg (defaultHandler e4 m2 (defaultHandler e3 m1
        (connectHandler e2 v2 (connectHandler e1 v1 []).store).store).store).store).effects
      = [(c2, msg), (c1, msg)]
    ∧ (broadcastFromAnalytics eb T msg (defaultHandler e4 m2 (defaultHandler e3 m1
        (connectHandler e2 v2 (connectHandler e1 v1 []).store).store).store).store).result
      = .ok true
    ∧ pushesOf (broadcastToTenant eb2 T2 msg evb2 (defaultHandler e4 m2 (defaultHandler e3 m1
        (connectHandler e2 v2 (connectHandler e1 v1 []).store).store).store).store).effects
      = []
    ∧ pushesOf (broadcastFromAnalytics eb2 T2 msg (defaultHandler e4 m2 (defaultHandler e3 m1
        (connectHandler e2 v2 (connectHandler e1 v1 []).store).store).store).store).effects
      = [] := by
  rw [← hm1] at hlive1
  rw [← hm2] at hlive2
  obtain ⟨hTu, hs4⟩ := join_ok_store e4 m2 _ T hj2 ok4 hlive2
  obtain ⟨-, hs3⟩ := join_ok_store e3 m1 _ T hj1 ok3 hlive1
  have hs2 := connect_ok_store e2 v2 _ ok2
  have hs1 := connect_ok_store e1 v1 _ ok1
  have hc' : c2 ≠ c1 := fun h => hc h.symm
  have hT' : ¬ (T = T2) := hT
  have hstore : (defaultHandler e4 m2 (defaultHandler e3 m1
        (connectHandler e2 v2 (connectHandler e1 v1 []).store).store).store).store
      = [ { connectionId := c2, timestamp := some (e2.now 0),
            ttl := some (Int.fdiv (e2.now 0) 1000 + 7200), status := "joined",
            tenantId := some T, joinedAt := some (e4.now 0) },
          { connectionId := c1, timestamp := some (e1.now 0),
            ttl := some (Int.fdiv (e1.now 0) 1000 + 7200), status := "joined",
            tenantId := some T, joinedAt := some (e3.now 0) } ] := by
    rw [hs4, hs3, hs2, hs1, hv1, hv2, hm1, hm2]
    simp [Store.update, Store.put, Store.delete, Store.get, hc, hc']
  rw [hstore]
  refine ⟨?_, ?_, ?_, ?_, ?_, ?_⟩
  · simp only [broadcastToTenant_some]
    rw [broadcastBody_pushes_of_filter eb T msg _ hTu hscan]
    simp [scanned, matchesTenant, hpage1, hpage2]
  · simp [broadcastToTenant_some, broadcastBody_result, scan, hTu, hscan]
  · simp only [broadcastFromAnalytics_body]
    rw [broadcastBody_pushes_of_filter eb T msg _ hTu hscan]
    simp [scanned, matchesTenant, hpage1, hpage2]
  · simp [broadcastFromAnalytics_body, broadcastBody_result, scan, hTu, hscan]
  · apply broadcastToTenant_pushes_nil
    simp [matchesTenant, hT']
  · simp only [broadcastFromAnalytics_body]
    apply broadcastBody_pushes_nil
    simp [matchesTenant, hT']

theorem notGone_sampleEnv (c : String) : NotGone sampleEnv c := by
  intro data code h
  simp [sampleEnv] at h

/-- Witness for the amended C2: connections `c1` and `c2`, tenant `acme`, against `other`. -/
theorem two_joined_connections_scenario_witness :
    pushesOf (broadcastToTenant sampleEnv (.str "acme") sampleMessage
        (some (sampleEvent "c9" none))
        (defaultHandler sampleEnv (sampleEvent "c2" (some "join acme"))
          (defaultHandler sampleEnv (sampleEvent "c1" (some "join acme"))
            (connectHandler sampleEnv (sampleEvent "c2" none)
              (connectHandler sampleEnv (sampleEvent "c1" none) []).store).store).store
          ).store).effects
      = [("c2", sampleMessage), ("c1", sampleMessage)]
    ∧ pushesOf (broadcastToTenant sampleEnv (.str "other") sampleMessage
        (some (sampleEvent "c9" none))
        (defaultHandler sampleEnv (sampleEvent "c2" (some "join acme"))
          (defaultHandler sampleEnv (sampleEvent "c1" (some "join acme"))
            (connectHandler sampleEnv (sampleEvent "c2" none)
              (connectHandler sampleEnv (sampleEvent "c1" none) []).store).store).store
          ).store).effects
      = [] :=
  have h := two_joined_connections_scenario sampleEnv sampleEnv sampleEnv sampleEnv
    sampleEnv sampleEnv (sampleEvent "c1" none) (sampleEvent "c2" none)
    (sampleEvent "c1" (some "join acme")) (sampleEvent "c2" (some "join acme"))
    (sampleEvent "c9" none) (some (sampleEvent "c9" none))
    (.str "acme") (.str "other") sampleMessage "c1" "c2"
    (by decide) (by decide) rfl rfl rfl rfl
    ⟨by decide, by decide⟩ ⟨by decide, by decide⟩
    (notGone_sampleEnv "c1") (notGone_sampleEnv "c2")
    (by decide) (by decide) (by decide) (by decide) rfl rfl rfl
  ⟨h.1, h.2.2.2.2.1⟩

/-! ## Eviction of gone connections -/

theorem isGone_iff (code : Option Int) :
    isGone code = true ↔ code = some 410 ∨ code = some 403 := by
  simp [isGone]

theorem settlePush_store (env : Env) (c : String) (data : JsVal) (s : Store) :
    (settlePush env c data s).store = if evicts env data c then s.delete c else s := by
  unfold settlePush evicts
  cases env.push c data with
  | ok => simp
  | failed code =>
    by_cases hg : isGone code = true <;> by_cases hd : env.deleteOk c = true <;> simp [hg, hd]

theorem settleAll_store (env : Env) (data : JsVal) (items : List Connection) (s : Store) :
    (settleAll env data items s).store
      = s.filter (fun r => !(decide (r.connectionId ∈ items.map (fun i => i.connectionId))
          && evicts env data r.connectionId)) := by
  induction items generalizing s with
  | nil => simp [settleAll]
  | cons i rest ih =>
    simp only [settleAll, ih, settlePush_store]
    by_cases he : evicts env data i.connectionId = true
    · simp only [he, if_true, Store.delete, List.filter_filter]
      apply List.filter_congr
      intro r _
      by_cases hr : r.connectionId = i.connectionId
      · simp [hr, he]
      · simp [hr]
    · simp only [he, if_false]
      apply List.filter_congr
      intro r _
      by_cases hr : r.connectionId = i.connectionId
      · have he' : evicts env data i.connectionId = false := by simpa using he
        simp [hr, he']
      · simp [hr]

theorem broadcastBody_store (env : Env) (tenantId data : JsVal) (s : Store)
    (items : List Connection) (h : scan env tenantId s = some items) :
    (broadcastBody env tenantId data s).store
      = s.filter (fun r => !(decide (r.connectionId ∈ items.map (fun i => i.connectionId))
          && evicts env data r.connectionId)) := by
  unfold broadcastBody
  rw [h]
  by_cases h0 : items.length = 0
  · have : items = [] := List.length_eq_zero.mp h0
    subst this
    simp
  · simp [h0, deliverAll, settleAll_store]

theorem broadcastBody_store_subset (env : Env) (tenantId data : JsVal) (s : Store)
    (r : Connection) (h : r ∈ (broadcastBody env tenantId data s).store) : r ∈ s := by
  cases hs : scan env tenantId s with
  | none => simpa [broadcastBody, hs] using h
  | some items =>
    rw [broadcastBody_store env tenantId data s items hs] at h
    exact (List.mem_filter.mp h).1

theorem broadcastBody_push_target (env : Env) (tenantId data : JsVal) (s : Store)
    (c : String) (d : JsVal)
    (h : (c, d) ∈ pushesOf (broadcastBody env tenantId data s).effects) :
    d = data ∧ ∃ r ∈ s, r.connectionId = c ∧ r.tenantId = some tenantId
      ∧ r.status = "joined" := by
  cases hs : scan env tenantId s with
  | none => simp [broadcastBody, hs, pushesOf] at h
  | some items =>
    rw [broadcastBody_pushes env tenantId data s items hs] at h
    obtain ⟨r, hr, heq⟩ := List.mem_map.mp h
    have hm := (scan_mem_iff env tenantId s items hs r).mp hr
    simp only [Prod.mk.injEq] at heq
    exact ⟨heq.2.symm, r, hm.1, heq.1, hm.2.2.1, hm.2.2.2⟩

theorem broadcastToTenant_push_target (env : Env) (tenantId data : JsVal)
    (event : Option Event) (s : Store) (c : String) (d : JsVal)
    (h : (c, d) ∈ pushesOf (broadcastToTenant env tenantId data event s).effects) :
    d = data ∧ ∃ r ∈ s, r.connectionId = c ∧ r.tenantId = some tenantId
      ∧ r.status = "joined" := by
  cases event with
  | none => simp [broadcastToTenant, getApiGatewayEndpoint, pushesOf] at h
  | some e =>
    exact broadcastBody_push_target env tenantId data s c d
      (by simpa [broadcastToTenant_some] using h)

theorem broadcastFromAnalytics_push_target (env : Env) (tenantId data : JsVal)
    (s : Store) (c : String) (d : JsVal)
    (h : (c, d) ∈ pushesOf (broadcastFromAnalytics env tenantId data s).effects) :
    d = data ∧ ∃ r ∈ s, r.connectionId = c ∧ r.tenantId = some tenantId
      ∧ r.status = "joined" :=
  broadcastBody_push_target env tenantId data s c d
    (by simpa [broadcastFromAnalytics_body] using h)

/-- Counterexample for C3: the push to `c1` is answered 410 during the broadcast, but the
clean-up delete is rejected; after the broadcast the record of `c1` is still stored and
the next broadcast to the tenant attempts `c1` again. -/
theorem gone_push_with_failed_cleanup_keeps_record :
    goneEnvDeleteFails.push "c1" sampleMessage = .failed (some 410)
    ∧ (broadcastToTenant goneEnvDeleteFails (.str "acme") sampleMessage
        (some (sampleEvent "c9" none)) [joinedRecord "c1" "acme"]).store.get "c1"
        = some (joinedRecord "c1" "acme")
    ∧ pushesOf (broadcastToTenant goneEnvDeleteFails (.str "acme") (.str "msg2")
        (some (sampleEvent "c9" none))
        (broadcastToTenant goneEnvDeleteFails (.str "acme") sampleMessage
          (some (sampleEvent "c9" none)) [joinedRecord "c1" "acme"]).store).effects
        = [("c1", .str "msg2")] := by
  decide

/-- Claim C3 (amended): if the scan of broadcast(T, msg) (`broadcastToTenant` called
with an event) returns a record of connection C, the push to C is answered gone (410 or
403) and the clean-up delete succeeds, then the broadcast attempted C, after the
broadcast the store holds no record for C, a following broadcast to T (either function,
in any environment) makes no delivery attempt to C, and when every stored record joined
to T was a record of C the following broadcast to T makes no attempt at all. -/
theorem gone_connection_evicted_after_broadcast
    (env env2 : Env) (T msg msg2 : JsVal) (event : Event) (event2 : Option Event)
    (s : Store) (items : List Connection) (c : String) (code : Option Int)
    (hscan : scan env T s = some items)
    (hin : ∃ r ∈ items, r.connectionId = c)
    (hfail : env.push c msg = .failed code)
    (hgone : code = some 410 ∨ code = some 403)
    (hdel : env.deleteOk c = true) :
    (c, msg) ∈ pushesOf (broadcastToTenant env T msg (some event) s).effects
    ∧ (broadcastToTenant env T msg (some event) s).store.get c = none
    ∧ (∀ r ∈ (broadcastToTenant env T msg (some event) s).store, r.connectionId ≠ c)
    ∧ (∀ d, (c, d) ∉ pushesOf (broadcastToTenant env2 T msg2 event2
          (broadcastToTenant env T msg (some event) s).store).effects)
    ∧ (∀ d, (c, d) ∉ pushesOf (broadcastFromAnalytics env2 T msg2
          (broadcastToTenant env T msg (some event) s).store).effects)
    ∧ ((∀ r ∈ s, r.tenantId = some T → r.status = "joined" → r.connectionId = c) →
        pushesOf (broadcastToTenant env2 T msg2 event2
          (broadcastToTenant env T msg (some event) s).store).effects = []
        ∧ pushesOf (broadcastFromAnalytics env2 T msg2
          (broadcastToTenant env T msg (some event) s).store).effects = []) := by
  obtain ⟨r0, hmem, hk0⟩ := hin
  have hev : evicts env msg c = true := by
    simp [evicts, hfail, (isGone_iff code).mpr hgone, hdel]
  have hstore : (broadcastToTenant env T msg (some event) s).store
      = s.filter (fun r => !(decide (r.connectionId ∈ items.map (fun i => i.connectionId))
          && evicts env msg r.connectionId)) := by
    simpa [broadcastToTenant_some] using
      broadcastBody_store env T msg s items hscan
  have hcin : c ∈ items.map (fun i => i.connectionId) :=
    List.mem_map.mpr ⟨r0, hmem, hk0⟩
  have habsent : ∀ r ∈ (broadcastToTenant env T msg (some event) s).store,
      r.connectionId ≠ c := by
    intro r hr hrc
    rw [hstore] at hr
    have := (List.mem_filter.mp hr).2
    simp [hrc, hcin, hev] at this
  have hsub : ∀ r ∈ (broadcastToTenant env T msg (some event) s).store, r ∈ s := by
    intro r hr
    rw [hstore] at hr
    exact (List.mem_filter.mp hr).1
  refine ⟨?_, ?_, habsent, ?_, ?_, ?_⟩
  · have hp : pushesOf (broadcastToTenant env T msg (some event) s).effects
        = items.map (fun i => (i.connectionId, msg)) := by
      simpa [broadcastToTenant_some] using
        broadcastBody_pushes env T msg s items hscan
    rw [hp]
    exact List.mem_map.mpr ⟨r0, hmem, by rw [hk0]⟩
  · unfold Store.get
    rw [List.find?_eq_none]
    intro r hr
    simpa using habsent r hr
  · intro d hd
    obtain ⟨-, r, hr, hrc, -⟩ := broadcastToTenant_push_target env2 T msg2 event2 _ c d hd
    exact habsent r hr hrc
  · intro d hd
    obtain ⟨-, r, hr, hrc, -⟩ := broadcastFromAnalytics_push_target env2 T msg2 _ c d hd
    exact habsent r hr hrc
  · intro honly
    have hnil : (broadcastToTenant env T msg (some event) s).store.filter (matchesTenant T)
        = [] := by
      rw [List.filter_eq_nil_iff]
      intro r hr hm
      have hm' : r.tenantId = some T ∧ r.status = "joined" := by
        simpa [matchesTenant] using hm
      exact habsent r hr (honly r (hsub r hr) hm'.1 hm'.2)
    refine ⟨broadcastToTenant_pushes_nil env2 T msg2 event2 _ hnil, ?_⟩
    simpa [broadcastFromAnalytics_body] using broadcastBody_pushes_nil env2 T msg2 _ hnil

/-- Witness for the amended C3: `c1` is the only connection joined to `acme`, the push
is answered 410 and the delete succeeds. -/
theorem gone_connection_evicted_after_broadcast_witness :
    (broadcastToTenant goneEnv (.str "acme") sampleMessage (some (sampleEvent "c9" none))
        [joinedRecord "c1" "acme", joinedRecord "c4" "other"]).store.get "c1" = none
    ∧ pushesOf (broadcastToTenant sampleEnv (.str "acme") (.str "msg2")
        (some (sampleEvent "c9" none))
        (broadcastToTenant goneEnv (.str "acme") sampleMessage (some (sampleEvent "c9" none))
          [joinedRecord "c1" "acme", joinedRecord "c4" "other"]).store).effects = [] :=
  have h := gone_connection_evicted_after_broadcast goneEnv sampleEnv (.str "acme")
    sampleMessage (.str "msg2") (sampleEvent "c9" none) (some (sampleEvent "c9" none))
    [joinedRecord "c1" "acme", joinedRecord "c4" "other"] [joinedRecord "c1" "acme"] "c1"
    (some 410) (by decide) ⟨joinedRecord "c1" "acme", by decide, by decide⟩ (by decide)
    (Or.inl rfl) (by decide)
  ⟨h.2.1, (h.2.2.2.2.2 (by decide)).1⟩

/-- Counterexample for C4: the push to `c1` fails with status 410 and the clean-up delete
is rejected; `postToConnection` returns false, has asked for the delete, and the record
of `c1` is still in the store. -/
theorem postToConnection_gone_without_eviction :
    goneEnvDeleteFails.push "c1" sampleMessage = .failed (some 410)
    ∧ (postToConnection goneEnvDeleteFails "c1" sampleMessage
        [joinedRecord "c1" "acme"]).store = [joinedRecord "c1" "acme"]
    ∧ (postToConnection goneEnvDeleteFails "c1" sampleMessage
        [joinedRecord "c1" "acme"]).effects = [.push "c1" sampleMessage, .delete "c1"]
    ∧ (postToConnection goneEnvDeleteFails "c1" sampleMessage
        [joinedRecord "c1" "acme"]).result = false := by
  decide

/-- Claim C4 (amended): `postToConnection` asks the store to delete the target record if
and only if the push failed with status 410 or 403, and never asks for another key; the
record is removed exactly when that delete succeeds, otherwise the store is unchanged;
on any other push error it issues no store request, returns false and leaves the store
unchanged; it returns true exactly when the push succeeded. -/
theorem postToConnection_eviction_iff_gone (env : Env) (c : String) (data : JsVal)
    (s : Store) :
    (deletesOf (postToConnection env c data s).effects = [c]
        ↔ ∃ code, env.push c data = .failed code ∧ (code = some 410 ∨ code = some 403))
    ∧ (deletesOf (postToConnection env c data s).effects = []
        ↔ ¬ ∃ code, env.push c data = .failed code ∧ (code = some 410 ∨ code = some 403))
    ∧ ((∃ code, env.push c data = .failed code ∧ (code = some 410 ∨ code = some 403))
          → env.deleteOk c = true → (postToConnection env c data s).store = s.delete c)
    ∧ (¬ ((∃ code, env.push c data = .failed code ∧ (code = some 410 ∨ code = some 403))
          ∧ env.deleteOk c = true) → (postToConnection env c data s).store = s)
    ∧ (∀ code, env.push c data = .failed code → ¬ (code = some 410 ∨ code = some 403) →
        (postToConnection env c data s).effects = [.push c data]
        ∧ (postToConnection env c data s).store = s
        ∧ (postToConnection env c data s).result = false)
    ∧ ((postToConnection env c data s).result = true ↔ env.push c data = .ok) := by
  unfold postToConnection settlePush
  cases hp : env.push c data with
  | ok => simp [deletesOf]
  | failed code =>
    by_cases hg : code = some 410 ∨ code = some 403
    · rcases hg with h | h <;> subst h <;> by_cases hd : env.deleteOk c = true <;>
        simp [isGone, hd, deletesOf]
    · have hg' : isGone code = false := by
        cases h : isGone code with
        | false => rfl
        | true => exact absurd ((isGone_iff code).mp h) hg
      simp [hg', hg, deletesOf]

/-- Witness for the amended C4: the push to `c1` is answered 410 and the delete
succeeds, so the record of `c1` is removed and the other records stay. -/
theorem postToConnection_eviction_iff_gone_witness :
    (postToConnection goneEnv "c1" sampleMessage sampleStore).store
      = Store.delete sampleStore "c1"
    ∧ deletesOf (postToConnection goneEnv "c1" sampleMessage sampleStore).effects = ["c1"] :=
  have h := postToConnection_eviction_iff_gone goneEnv "c1" sampleMessage sampleStore
  ⟨h.2.2.1 ⟨some 410, by decide, Or.inl rfl⟩ (by decide),
   h.1.mpr ⟨some 410, by decide, Or.inl rfl⟩⟩

/-! ## Broadcast result and the ingestion bridge -/

theorem broadcast_ok_when_scan_succeeds (env : Env) (tenantId data : JsVal) (event : Event)
    (s : Store) (items : List Connection) (h : scan env tenantId s = some items) :
    (broadcastToTenant env tenantId data (some event) s).result = .ok true
    ∧ (broadcastFromAnalytics env tenantId data s).result = .ok true := by
  simp [broadcastToTenant_some, broadcastFromAnalytics_body,
    broadcastBody_result, h]

theorem broadcastToTenant_without_event (env : Env) (tenantId data : JsVal) (s : Store) :
    broadcastToTenant env tenantId data none s = ⟨s, [], .error .typeError⟩ := rfl

/-- Claim C5 (code evaluated at the failing input): called without an event, as
`ingestData` calls it, `broadcastToTenant` rejects with a `TypeError` before any store
query is issued, on a table whose scan would succeed and on which
`broadcastFromAnalytics` returns true. -/
theorem broadcastToTenant_rejects_without_event :
    (broadcastToTenant sampleEnv (.str "acme") sampleMessage none sampleStore).result
        = .error .typeError
    ∧ (broadcastToTenant sampleEnv (.str "acme") sampleMessage none sampleStore).effects = []
    ∧ scan sampleEnv (.str "acme") sampleStore
        = some [joinedRecord "c1" "acme", joinedRecord "c3" "acme"]
    ∧ (broadcastFromAnalytics sampleEnv (.str "acme") sampleMessage sampleStore).result
        = .ok true :=
  ⟨rfl, rfl, by decide, rfl⟩

theorem ingestData_never_created (env : Env) (event : HttpEvent) (s : Store) :
    (ingestData env event s).result.statusCode ≠ 201 := by
  unfold ingestData
  cases verifyToken env event with
  | error e => cases h : e.isAuthMessage <;> simp [ingestFailure, h]
  | ok decoded =>
    by_cases hn : decoded.isNullish = true
    · simp [hn, ingestFailure, JsError.isAuthMessage]
    · cases parseIngestBody env event.body with
      | error e => cases h : e.isAuthMessage <;> simp [hn, ingestFailure, h]
      | ok body =>
        by_cases hp : env.analyticsPutOk = true
        · simp [hn, hp, broadcastToTenant_without_event, ingestFailure,
            JsError.isAuthMessage]
        · simp [hn, hp, ingestFailure, JsError.isAuthMessage]

/-- Claim C6 (code evaluated at the failing input): for an authenticated request whose
storage write succeeds, `ingestData` stores the record, calls the broadcast, the call
rejects with a `TypeError`, and the response is status 500 with that error. -/
theorem ingestData_fails_after_storing :
    verifyToken sampleEnv sampleIngest = .ok (.obj [("tenantId", .str "acme")])
    ∧ sampleEnv.analyticsPutOk = true
    ∧ (ingestData sampleEnv sampleIngest sampleStore).result = ⟨500, .failure .typeError⟩
    ∧ (ingestData sampleEnv sampleIngest sampleStore).effects
        = [.analyticsPut (analyticsRecord sampleEnv (.str "acme")
              (.obj [("eventType", .str "click")])),
           .broadcast (.str "acme") (newEventEnvelope sampleEnv
              (analyticsRecord sampleEnv (.str "acme") (.obj [("eventType", .str "click")])))]
      :=
  ⟨rfl, rfl, by decide, by decide⟩

/-- Claim C7: `ingestData` calls the broadcast only after a successful storage put.  When
token verification, body parsing or the put fails, no broadcast call is issued; and
every broadcast call that is issued comes directly after the put request of the record,
in a run where verification, parsing and the put all succeeded, with the envelope built
from that record. -/
theorem ingestData_broadcasts_only_after_store (env : Env) (event : HttpEvent)
    (s : Store) :
    (((∀ decoded, verifyToken env event ≠ .ok decoded)
        ∨ (∀ body, parseIngestBody env event.body ≠ .ok body)
        ∨ env.analyticsPutOk = false) →
      ∀ t d, Effect.broadcast t d ∉ (ingestData env event s).effects)
    ∧ (∀ t d, Effect.broadcast t d ∈ (ingestData env event s).effects →
        env.analyticsPutOk = true
        ∧ (∃ decoded, verifyToken env event = .ok decoded)
        ∧ (∃ body, parseIngestBody env event.body = .ok body)
        ∧ ∃ record, d = newEventEnvelope env record
            ∧ (ingestData env event s).effects
                = [.analyticsPut record, .broadcast t d]) := by
  have key : ∀ t d, Effect.broadcast t d ∈ (ingestData env event s).effects →
      env.analyticsPutOk = true
      ∧ (∃ decoded, verifyToken env event = .ok decoded)
      ∧ (∃ body, parseIngestBody env event.body = .ok body)
      ∧ ∃ record, d = newEventEnvelope env record
          ∧ (ingestData env event s).effects = [.analyticsPut record, .broadcast t d] := by
    intro t d
    unfold ingestData
    cases hv : verifyToken env event with
    | error e => simp
    | ok decoded =>
      by_cases hn : decoded.isNullish = true
      · simp [hn]
      · cases hb : parseIngestBody env event.body with
        | error e => simp [hn]
        | ok body =>
          by_cases hp : env.analyticsPutOk = true
          · simp only [hn, hp, broadcastToTenant_without_event, if_true]
            intro hmem
            simp at hmem
            obtain ⟨rfl, rfl⟩ := hmem
            exact ⟨trivial, ⟨decoded, rfl⟩, ⟨body, rfl⟩, _, rfl, rfl⟩
          · simp [hn, hp]
  refine ⟨?_, key⟩
  intro hfail t d hmem
  obtain ⟨hp, ⟨decoded, hv⟩, ⟨body, hb⟩, -⟩ := key t d hmem
  rcases hfail with h | h | h
  · exact h decoded hv
  · exact h body hb
  · rw [hp] at h; cases h

/-- Witness for C7: a request without an Authorization header issues no broadcast call. -/
theorem ingestData_broadcasts_only_after_store_witness :
    Effect.broadcast (.str "acme") sampleMessage
      ∉ (ingestData sampleEnv ⟨some [], some "event"⟩ sampleStore).effects :=
  (ingestData_broadcasts_only_after_store sampleEnv ⟨some [], some "event"⟩ sampleStore).1
    (Or.inl (fun decoded h => by simp [verifyToken, authHeader, headerValue] at h))
    (.str "acme") sampleMessage

/-! ## Connect and the never-joined invariant -/

/-- Claim C10: a successful `connectHandler` (the put succeeds) leaves exactly one record
for the connection id, namely
`{connectionId, timestamp: now, ttl: floor(now / 1000) + 7200, status: 'connected'}`
without `tenantId` or `joinedAt`, and answers 200; the `ttl` is the floor of `now / 1000`
plus the fixed 7200. -/
theorem connectHandler_stores_fresh_record (env : Env) (event : Event) (s : Store)
    (h : env.putOk = true) :
    (connectHandler env event s).store.filter
        (fun r => decide (r.connectionId = event.requestContext.connectionId))
      = [ { connectionId := event.requestContext.connectionId,
            timestamp := some (env.now 0),
            ttl := some (Int.fdiv (env.now 0) 1000 + 7200),
            status := "connected", tenantId := none, joinedAt := none } ]
    ∧ (connectHandler env event s).store.get event.requestContext.connectionId
      = some { connectionId := event.requestContext.connectionId,
               timestamp := some (env.now 0),
               ttl := some (Int.fdiv (env.now 0) 1000 + 7200),
               status := "connected", tenantId := none, joinedAt := none }
    ∧ (1000 * Int.fdiv (env.now 0) 1000 ≤ env.now 0
        ∧ env.now 0 < 1000 * Int.fdiv (env.now 0) 1000 + 1000)
    ∧ (connectHandler env event s).result = ⟨200, "Connected"⟩ := by
  refine ⟨?_, ?_, ?_, ?_⟩
  · simp [connectHandler, h, Store.put, Store.delete, List.filter_filter]
  · simp [connectHandler, h, Store.put, Store.get]
  · rw [Int.fdiv_eq_ediv _ (by norm_num : (0 : Int) ≤ 1000)]
    omega
  · simp [connectHandler, h]

/-- Witness for C10: connection `c1` at time 1700000000123 ms gets ttl 1700007200. -/
theorem connectHandler_stores_fresh_record_witness :
    (connectHandler sampleEnv (sampleEvent "c1" none) sampleStore).store.get "c1"
      = some { connectionId := "c1", timestamp := some 1700000000123,
               ttl := some 1700007200, status := "connected",
               tenantId := none, joinedAt := none }
    ∧ (connectHandler sampleEnv (sampleEvent "c1" none) sampleStore).result
      = ⟨200, "Connected"⟩ :=
  have h := connectHandler_stores_fresh_record sampleEnv (sampleEvent "c1" none)
    sampleStore rfl
  ⟨h.2.1, h.2.2.2⟩

theorem postToConnection_store_subset (env : Env) (c : String) (data : JsVal) (s : Store)
    (r : Connection) (h : r ∈ (postToConnection env c data s).store) : r ∈ s := by
  simp only [postToConnection, settlePush_store] at h
  by_cases he : evicts env data c = true
  · rw [if_pos he] at h
    exact (List.mem_filter.mp h).1
  · rw [if_neg he] at h
    exact h

theorem mem_put (s : Store) (item r : Connection) (h : r ∈ s.put item) :
    r = item ∨ r ∈ s := by
  simp only [Store.put, Store.delete, List.mem_cons] at h
  rcases h with h | h
  · exact Or.inl h
  · exact Or.inr (List.mem_filter.mp h).1

theorem get_key (s : Store) (c : String) (r : Connection) (h : s.get c = some r) :
    r.connectionId = c := by
  have := List.find?_some h
  simpa using this

theorem mem_update (s : Store) (c : String) (tenantId : JsVal) (joinedAt : Int)
    (r : Connection) (h : r ∈ s.update c tenantId joinedAt) :
    (r.connectionId = c ∧ r.status = "joined" ∧ r.tenantId = some tenantId) ∨ r ∈ s := by
  unfold Store.update at h
  cases hg : s.get c with
  | none =>
    rw [hg] at h
    rcases mem_put _ _ _ h with h | h
    · subst h; exact Or.inl ⟨rfl, rfl, rfl⟩
    · exact Or.inr h
  | some r0 =>
    rw [hg] at h
    rcases mem_put _ _ _ h with h | h
    · subst h; exact Or.inl ⟨get_key s c r0 hg, rfl, rfl⟩
    · exact Or.inr h

theorem broadcastToTenant_store_subset (env : Env) (tenantId data : JsVal)
    (event : Option Event) (s : Store) (r : Connection)
    (h : r ∈ (broadcastToTenant env tenantId data event s).store) : r ∈ s := by
  cases event with
  | none => simpa [broadcastToTenant, getApiGatewayEndpoint] using h
  | some e =>
    exact broadcastBody_store_subset env tenantId data s r
      (by simpa [broadcastToTenant_some] using h)

theorem broadcastFromAnalytics_store_subset (env : Env) (tenantId data : JsVal)
    (s : Store) (r : Connection)
    (h : r ∈ (broadcastFromAnalytics env tenantId data s).store) : r ∈ s :=
  broadcastBody_store_subset env tenantId data s r
    (by simpa [broadcastFromAnalytics_body] using h)

theorem ingestData_store (env : Env) (event : HttpEvent) (s : Store) :
    (ingestData env event s).store = s := by
  unfold ingestData
  cases verifyToken env event with
  | error e => rfl
  | ok decoded =>
    by_cases hn : decoded.isNullish = true
    · simp [hn]
    · cases parseIngestBody env event.body with
      | error e => simp [hn]
      | ok body =>
        by_cases hp : env.analyticsPutOk = true
        · simp [hn, hp, broadcastToTenant_without_event]
        · simp [hn, hp]

/-- What one message can do to the store: every record afterwards was there before, or
is the record written by a join-tenant update that the handler issued for its own
connection with a defined tenant value. -/
theorem defaultHandler_store_cases (env : Env) (event : Event) (s : Store)
    (r : Connection) (h : r ∈ (defaultHandler env event s).store) :
    r ∈ s ∨ ∃ tenantId joinedAt,
      Effect.update event.requestContext.connectionId tenantId joinedAt
          ∈ (defaultHandler env event s).effects
      ∧ tenantId ≠ .undefined
      ∧ r.connectionId = event.requestContext.connectionId
      ∧ r.status = "joined" ∧ r.tenantId = some tenantId := by
  unfold defaultHandler at h ⊢
  by_cases hn : (parseMessage env event.body).isNullish = true
  · simp only [hn, if_true] at h ⊢
    exact Or.inl h
  · simp only [hn] at h ⊢
    by_cases hh : (parseMessage env event.body).prop "action" = .str "heartbeat"
    · simp only [hh, if_true] at h ⊢
      exact Or.inl (postToConnection_store_subset _ _ _ _ _ h)
    · simp only [hh, if_false] at h ⊢
      by_cases hj : (parseMessage env event.body).prop "action" = .str "join-tenant"
      · simp only [hj, if_true] at h ⊢
        cases hu : update env event.requestContext.connectionId
            ((parseMessage env event.body).prop "tenantId") (env.now 0) s with
        | none =>
          simp only [hu] at h ⊢
          exact Or.inl h
        | some s1 =>
          simp only [hu] at h ⊢
          have hr1 := postToConnection_store_subset _ _ _ _ _ h
          unfold update at hu
          by_cases hT : (parseMessage env event.body).prop "tenantId" = .undefined
          · simp [hT] at hu
          · by_cases hq : env.updateOk = true
            · simp only [hT, hq, if_true, if_false, Option.some.injEq] at hu
              subst hu
              rcases mem_update _ _ _ _ _ hr1 with hm | hm
              · exact Or.inr ⟨_, _, List.mem_cons_self _ _, hT, hm.1, hm.2.1, hm.2.2⟩
              · exact Or.inl hm
            · simp [hT, hq] at hu
      · simp only [hj, if_false] at h ⊢
        exact Or.inl (postToConnection_store_subset _ _ _ _ _ h)

/-- What one action can do to the store: every record afterwards was there before, is
the fresh record of a connect, or was written by a join-tenant update of this action. -/
theorem perform_store_cases (a : Action) (s : Store) (r : Connection)
    (h : r ∈ (a.perform s).1) :
    r ∈ s ∨ (r.status = "connected" ∧ r.tenantId = none)
    ∨ ∃ tenantId joinedAt, Effect.update r.connectionId tenantId joinedAt ∈ (a.perform s).2
        ∧ tenantId ≠ .undefined ∧ r.status = "joined" ∧ r.tenantId = some tenantId := by
  cases a with
  | connect env event =>
    simp only [Action.perform, connectHandler] at h
    by_cases hp : env.putOk = true
    · simp only [hp, if_true] at h
      rcases mem_put _ _ _ h with h | h
      · subst h; exact Or.inr (Or.inl ⟨rfl, rfl⟩)
      · exact Or.inl h
    · simp only [hp, if_false] at h
      exact Or.inl h
  | disconnect env event =>
    simp only [Action.perform, disconnectHandler] at h
    by_cases hd : env.deleteOk event.requestContext.connectionId = true
    · simp only [hd, if_true] at h
      exact Or.inl (List.mem_filter.mp h).1
    · simp only [hd, if_false] at h
      exact Or.inl h
  | message env event =>
    simp only [Action.perform] at h ⊢
    rcases defaultHandler_store_cases env event s r h with h | ⟨t, j, hm, hT, hk, hs, ht⟩
    · exact Or.inl h
    · exact Or.inr (Or.inr ⟨t, j, by rw [hk]; exact hm, hT, hs, ht⟩)
  | broadcastToTenant env tenantId data event =>
    exact Or.inl (broadcastToTenant_store_subset env tenantId data event s r h)
  | broadcastFromAnalytics env tenantId data =>
    exact Or.inl (broadcastFromAnalytics_store_subset env tenantId data s r h)
  | ingest env event =>
    simp only [Action.perform, ingestData_store] at h
    exact Or.inl h

theorem run_snoc (w : World) (actions : List Action) (a : Action) :
    w.run (actions ++ [a]) = (w.run actions).step a := by
  simp [World.run, List.foldl_append]

/-- Every record of a reachable store is a fresh connect record or was written by a
join-tenant update recorded in the history, with a defined tenant value. -/
theorem reachable_record_origin (actions : List Action) (r : Connection)
    (h : r ∈ (World.empty.run actions).store) :
    (r.status = "connected" ∧ r.tenantId = none)
    ∨ ∃ tenantId joinedAt,
        Effect.update r.connectionId tenantId joinedAt ∈ (World.empty.run actions).history
        ∧ tenantId ≠ .undefined ∧ r.status = "joined" ∧ r.tenantId = some tenantId := by
  induction actions using List.reverseRecOn generalizing r with
  | nil => simp [World.run, World.empty] at h
  | append_singleton actions a ih =>
    rw [run_snoc] at h ⊢
    simp only [World.step] at h ⊢
    rcases perform_store_cases a _ r h with h | h | ⟨t, j, hm, hT, hs, ht⟩
    · rcases ih r h with h | ⟨t, j, hm, hT, hs, ht⟩
      · exact Or.inl h
      · exact Or.inr ⟨t, j, List.mem_append_left _ hm, hT, hs, ht⟩
    · exact Or.inl h
    · exact Or.inr ⟨t, j, List.mem_append_right _ hm, hT, hs, ht⟩

theorem history_mono (w : World) (actions : List Action) (e : Effect)
    (h : e ∈ w.history) : e ∈ (w.run actions).history := by
  induction actions using List.reverseRecOn with
  | nil => simpa [World.run] using h
  | append_singleton actions a ih =>
    rw [run_snoc]
    exact List.mem_append_left _ ih

theorem run_append (w : World) (xs ys : List Action) :
    w.run (xs ++ ys) = (w.run xs).run ys := by
  simp [World.run, List.foldl_append]

/-- Claim C8: in a run from the empty store in which no join-tenant update was ever
issued for connection C, at every point of the run the record of C, if any, has status
`connected` and no tenantId, and no broadcast started there (either function, any
tenant id, payload and environment) issues a delivery attempt to C. -/
theorem never_joined_connection_is_never_targeted (actions : List Action) (c : String)
    (hnever : ∀ t j, Effect.update c t j ∉ (World.empty.run actions).history) :
    ∀ pre post, actions = pre ++ post →
      (∀ r ∈ (World.empty.run pre).store, r.connectionId = c →
          r.status = "connected" ∧ r.tenantId = none)
      ∧ (∀ (env : Env) (T data : JsVal) (event : Option Event) (d : JsVal),
          (c, d) ∉ pushesOf
            (broadcastToTenant env T data event (World.empty.run pre).store).effects
          ∧ (c, d) ∉ pushesOf
            (broadcastFromAnalytics env T data (World.empty.run pre).store).effects) := by
  intro pre post hsplit
  have hrec : ∀ r ∈ (World.empty.run pre).store, r.connectionId = c →
      r.status = "connected" ∧ r.tenantId = none := by
    intro r hr hk
    rcases reachable_record_origin pre r hr with h | ⟨t, j, hm, -, -, -⟩
    · exact h
    · exfalso
      apply hnever t j
      rw [hsplit, run_append, ← hk]
      exact history_mono _ post _ hm
  refine ⟨hrec, ?_⟩
  intro env T data event d
  constructor
  · intro hd
    obtain ⟨-, r, hr, hk, ht, -⟩ := broadcastToTenant_push_target env T data event _ c d hd
    have := (hrec r hr hk).2
    rw [ht] at this
    cases this
  · intro hd
    obtain ⟨-, r, hr, hk, ht, -⟩ := broadcastFromAnalytics_push_target env T data _ c d hd
    have := (hrec r hr hk).2
    rw [ht] at this
    cases this

/-- Witness for C8: `c1` and `c2` connect, only `c1` joins `acme`; the broadcast to
`acme` attempts `c1` and not `c2`. -/
theorem never_joined_connection_is_never_targeted_witness :
    pushesOf (broadcastToTenant sampleEnv (.str "acme") sampleMessage
        (some (sampleEvent "c9" none))
        (World.empty.run
          [.connect sampleEnv (sampleEvent "c1" none),
           .connect sampleEnv (sampleEvent "c2" none),
           .message sampleEnv (sampleEvent "c1" (some "join acme"))]).store).effects
      = [("c1", sampleMessage)]
    ∧ ("c2", sampleMessage) ∉ pushesOf (broadcastToTenant sampleEnv (.str "acme")
        sampleMessage (some (sampleEvent "c9" none))
        (World.empty.run
          [.connect sampleEnv (sampleEvent "c1" none),
           .connect sampleEnv (sampleEvent "c2" none),
           .message sampleEnv (sampleEvent "c1" (some "join acme"))]).store).effects :=
  ⟨by decide,
   ((never_joined_connection_is_never_targeted
      [.connect sampleEnv (sampleEvent "c1" none),
       .connect sampleEnv (sampleEvent "c2" none),
       .message sampleEnv (sampleEvent "c1" (some "join acme"))] "c2"
      (fun t j h => by
        simp [World.run, World.step, World.empty, Action.perform, connectHandler,
          defaultHandler, parseMessage, bodyOrDefault, sampleEnv, sampleParse, sampleEvent,
          JsVal.isNullish, JsVal.prop, JsVal.lookup, update, postToConnection,
          settlePush] at h)
      [.connect sampleEnv (sampleEvent "c1" none),
       .connect sampleEnv (sampleEvent "c2" none),
       .message sampleEnv (sampleEvent "c1" (some "join acme"))] [] rfl).2
      sampleEnv (.str "acme") sampleMessage (some (sampleEvent "c9" none))
      sampleMessage).1⟩

/-! ## Joined records and their tenant attribute -/

/-- Counterexample for C9: after connect and a join-tenant message whose tenantId is
JSON null, the store holds a record with status `joined` and tenantId null. -/
theorem join_with_null_tenant_is_stored :
    (World.empty.run
      [.connect sampleEnv (sampleEvent "c1" none),
       .message sampleEnv (sampleEvent "c1" (some "join null"))]).store
      = [ { connectionId := "c1", timestamp := some 1700000000123,
            ttl := some 1700007200, status := "joined",
            tenantId := some .null, joinedAt := some 1700000000123 } ] := by
  decide

/-- Claim C9 (amended): in every store reachable from the empty store every record with
status `joined` carries a tenantId attribute whose value is not `undefined` (it is the
value of the join-tenant message and may be JSON null); a join-tenant message whose
tenantId field is missing is answered 500 and leaves the store unchanged. -/
theorem joined_record_has_tenant_attribute :
    (∀ (actions : List Action) (r : Connection),
        r ∈ (World.empty.run actions).store → r.status = "joined" →
        ∃ v, r.tenantId = some v ∧ v ≠ .undefined)
    ∧ (∀ (env : Env) (event : Event) (s : Store),
        IsJoinTenant env event .undefined →
        (defaultHandler env event s).store = s
        ∧ (defaultHandler env event s).result = ⟨500, "Failed to process message"⟩) := by
  constructor
  · intro actions r hr hs
    rcases reachable_record_origin actions r hr with h | ⟨t, j, -, hT, -, ht⟩
    · rw [h.1] at hs
      exact absurd hs (by decide)
    · exact ⟨t, ht, hT⟩
  · intro env event s hj
    rw [defaultHandler_join env event s .undefined hj]
    simp [update]

/-- Witness for the amended C9: a join-tenant message without tenantId on the sample
table. -/
theorem joined_record_has_tenant_attribute_witness :
    (defaultHandler sampleEnv (sampleEvent "c2" (some "join")) sampleStore).store
      = sampleStore
    ∧ (defaultHandler sampleEnv (sampleEvent "c2" (some "join")) sampleStore).result
      = ⟨500, "Failed to process message"⟩ :=
  joined_record_has_tenant_attribute.2 sampleEnv (sampleEvent "c2" (some "join"))
    sampleStore ⟨by decide, by decide⟩

/-! ## Store algebra -/

theorem get_delete_ne (s : Store) (c k : String) (h : k ≠ c) :
    (s.delete c).get k = s.get k := by
  unfold Store.delete Store.get
  rw [List.find?_filter]
  congr 1
  funext a
  by_cases hk : a.connectionId = k
  · have hc : ¬ a.connectionId = c := fun e => h (hk.symm.trans e)
    simp [hk, hc]
    exact fun e => hc (hk.trans e)
  · simp [hk]

theorem get_delete_self (s : Store) (c : String) : (s.delete c).get c = none := by
  simp [Store.get, Store.delete, List.find?_eq_none]

theorem mem_delete (s : Store) (c : String) (r : Connection) :
    r ∈ s.delete c ↔ r ∈ s ∧ r.connectionId ≠ c := by
  simp [Store.delete, List.mem_filter]

theorem delete_delete (s : Store) (c : String) : (s.delete c).delete c = s.delete c := by
  simp [Store.delete, List.filter_filter]

theorem get_put_self (s : Store) (item : Connection) :
    (s.put item).get item.connectionId = some item := by
  simp [Store.put, Store.get]

theorem get_put_ne (s : Store) (item : Connection) (k : String)
    (h : k ≠ item.connectionId) : (s.put item).get k = s.get k := by
  have hk : ¬ item.connectionId = k := fun e => h e.symm
  simp only [Store.put, Store.get, List.find?_cons, hk, decide_False]
  exact get_delete_ne s item.connectionId k h

theorem mem_put_iff_of_ne (s : Store) (item r : Connection)
    (h : r.connectionId ≠ item.connectionId) : r ∈ s.put item ↔ r ∈ s := by
  have hne : r ≠ item := fun e => h (by rw [e])
  simp [Store.put, mem_delete, hne, h]

theorem filter_key_put (s : Store) (item : Connection) :
    (s.put item).filter (fun r => decide (r.connectionId = item.connectionId)) = [item] := by
  simp [Store.put, Store.delete, List.filter_filter]

theorem mem_update_iff_of_ne (s : Store) (c : String) (tenantId : JsVal) (joinedAt : Int)
    (r : Connection) (h : r.connectionId ≠ c) :
    r ∈ s.update c tenantId joinedAt ↔ r ∈ s := by
  unfold Store.update
  cases hg : s.get c with
  | none => exact mem_put_iff_of_ne s _ r h
  | some r0 =>
    have hk := get_key s c r0 hg
    exact mem_put_iff_of_ne s _ r (by simpa [hk] using h)

theorem postToConnection_store (env : Env) (c : String) (data : JsVal) (s : Store) :
    (postToConnection env c data s).store = if evicts env data c then s.delete c else s := by
  simp [postToConnection, settlePush_store]

theorem postToConnection_effects (env : Env) (c : String) (data : JsVal) (s : Store) :
    (postToConnection env c data s).effects
      = .push c data :: (if answeredGone env data c then [.delete c] else []) := by
  unfold postToConnection settlePush answeredGone
  cases env.push c data with
  | ok => simp
  | failed code =>
    by_cases hg : isGone code = true <;> by_cases hd : env.deleteOk c = true <;> simp [hg, hd]

theorem postToConnection_mem_of_ne (env : Env) (c : String) (data : JsVal) (s : Store)
    (r : Connection) (h : r.connectionId ≠ c) :
    r ∈ (postToConnection env c data s).store ↔ r ∈ s := by
  rw [postToConnection_store]
  by_cases he : evicts env data c = true
  · simp [he, mem_delete, h]
  · simp [he]

/-- Frame of one message: the records of the other connections are untouched, whatever the
message, the store and the transport do. -/
theorem defaultHandler_other_records (env : Env) (event : Event) (s : Store)
    (r : Connection) (h : r.connectionId ≠ event.requestContext.connectionId) :
    r ∈ (defaultHandler env event s).store ↔ r ∈ s := by
  unfold defaultHandler
  by_cases hn : (parseMessage env event.body).isNullish = true
  · simp [hn]
  · simp only [hn, Bool.false_eq_true, if_false]
    by_cases hh : (parseMessage env event.body).prop "action" = .str "heartbeat"
    · simp only [hh, if_true]
      exact postToConnection_mem_of_ne _ _ _ _ _ h
    · simp only [hh, if_false]
      by_cases hj : (parseMessage env event.body).prop "action" = .str "join-tenant"
      · simp only [hj, if_true]
        unfold update
        by_cases hT : (parseMessage env event.body).prop "tenantId" = .undefined
        · simp [hT]
        · by_cases hq : env.updateOk = true
          · simp only [hT, hq, if_true, if_false]
            rw [postToConnection_mem_of_ne _ _ _ _ _ h]
            exact mem_update_iff_of_ne _ _ _ _ _ h
          · simp [hT, hq]
      · simp only [hj, if_false]
        exact postToConnection_mem_of_ne _ _ _ _ _ h

/-! ## Join-tenant as an update of one record -/

theorem defaultHandler_join_store (env : Env) (event : Event) (s : Store) (T : JsVal)
    (hj : IsJoinTenant env event T)
    (hok : (defaultHandler env event s).result.statusCode = 200) :
    T ≠ .undefined ∧
    (defaultHandler env event s).store
      = if evicts env (joinedAck env T) event.requestContext.connectionId
        then (s.update event.requestContext.connectionId T (env.now 0)).delete
          event.requestContext.connectionId
        else s.update event.requestContext.connectionId T (env.now 0) := by
  rw [defaultHandler_join env event s T hj] at hok ⊢
  unfold update at hok ⊢
  by_cases hu : T = .undefined
  · simp [hu] at hok
  · by_cases hq : env.updateOk = true
    · simp [hu, hq, postToConnection_store, joinedAck]
    · simp [hu, hq] at hok

/-- Counterexample for C11: `c1` has a stored record and sends join-tenant for `acme`; the
update succeeds and the handler answers 200, but the acknowledgement push is answered
410, so the record of `c1` is deleted instead of being left joined. -/
theorem join_ack_gone_removes_record :
    (defaultHandler goneEnv (sampleEvent "c1" (some "join acme"))
        [connectedRecord "c1", connectedRecord "c2"]).store = [connectedRecord "c2"]
    ∧ (defaultHandler goneEnv (sampleEvent "c1" (some "join acme"))
        [connectedRecord "c1", connectedRecord "c2"]).result = ⟨200, "Joined tenant"⟩
    ∧ (defaultHandler goneEnv (sampleEvent "c1" (some "join acme"))
        [connectedRecord "c1", connectedRecord "c2"]).effects
      = [.update "c1" (.str "acme") 1700000000123,
         .push "c1" (joinedAck goneEnv (.str "acme")), .delete "c1"] := by
  decide

/-- Claim C11 (amended): for a connection C with stored record `r0`, when the join-tenant
message for tenant T is handled with a successful update (the handler answers 200) and
the acknowledgement push is not answered gone, the store afterwards holds exactly one
record for C, equal to `r0` with tenantId T, joinedAt the current time and status
`joined` (timestamp and ttl as before); if instead the acknowledgement is answered gone
and the clean-up delete succeeds, no record for C remains.  In both cases the record of
every other connection is unchanged. -/
theorem join_tenant_updates_own_record (env : Env) (event : Event) (s : Store)
    (T : JsVal) (r0 : Connection)
    (hj : IsJoinTenant env event T)
    (hrec : s.get event.requestContext.connectionId = some r0)
    (hok : (defaultHandler env event s).result.statusCode = 200) :
    (NotGone env event.requestContext.connectionId →
        (defaultHandler env event s).store.get event.requestContext.connectionId
          = some { connectionId := r0.connectionId, timestamp := r0.timestamp,
                   ttl := r0.ttl, status := "joined", tenantId := some T,
                   joinedAt := some (env.now 0) }
        ∧ (defaultHandler env event s).store.filter
            (fun r => decide (r.connectionId = event.requestContext.connectionId))
          = [ { connectionId := r0.connectionId, timestamp := r0.timestamp,
                ttl := r0.ttl, status := "joined", tenantId := some T,
                joinedAt := some (env.now 0) } ])
    ∧ (evicts env (joinedAck env T) event.requestContext.connectionId = true →
        (defaultHandler env event s).store.get event.requestContext.connectionId = none)
    ∧ (∀ r : Connection, r.connectionId ≠ event.requestContext.connectionId →
        (r ∈ (defaultHandler env event s).store ↔ r ∈ s))
    ∧ (∀ k : String, k ≠ event.requestContext.connectionId →
        (defaultHandler env event s).store.get k = s.get k) := by
  obtain ⟨-, hstore⟩ := defaultHandler_join_store env event s T hj hok
  have hk := get_key s _ r0 hrec
  have hupd : s.update event.requestContext.connectionId T (env.now 0)
      = s.put { connectionId := r0.connectionId, timestamp := r0.timestamp,
                ttl := r0.ttl, status := "joined", tenantId := some T,
                joinedAt := some (env.now 0) } := by
    simp [Store.update, hrec]
  refine ⟨?_, ?_, ?_, ?_⟩
  · intro hlive
    have hne : evicts env (joinedAck env T) event.requestContext.connectionId = false := by
      unfold evicts
      cases hp : env.push event.requestContext.connectionId (joinedAck env T) with
      | ok => rfl
      | failed code => simp [hlive _ code hp]
    rw [hstore, hne, hupd]
    simp only [Bool.false_eq_true, if_false]
    constructor
    · rw [← hk]
      exact get_put_self s _
    · rw [← hk]
      exact filter_key_put s _
  · intro hev
    rw [hstore, hev]
    simp only [if_true]
    exact get_delete_self _ _
  · intro r hr
    exact defaultHandler_other_records env event s r hr
  · intro k hkne
    rw [hstore, hupd]
    have hkne' : k ≠ r0.connectionId := by rw [hk]; exact hkne
    by_cases hev : evicts env (joinedAck env T) event.requestContext.connectionId = true
    · rw [if_pos hev, get_delete_ne _ _ _ hkne]
      exact get_put_ne s _ k hkne'
    · rw [if_neg hev]
      exact get_put_ne s _ k hkne'

/-- Witness for the amended C11: `c2` (connected) joins `acme` on the sample table. -/
theorem join_tenant_updates_own_record_witness :
    (defaultHandler sampleEnv (sampleEvent "c2" (some "join acme")) sampleStore).store.get
        "c2"
      = some { connectionId := "c2", timestamp := some 1700000000000,
               ttl := some 1700007200, status := "joined",
               tenantId := some (.str "acme"), joinedAt := some 1700000000123 }
    ∧ (defaultHandler sampleEnv (sampleEvent "c2" (some "join acme")) sampleStore).store.get
        "c1"
      = some (joinedRecord "c1" "acme") :=
  have h := join_tenant_updates_own_record sampleEnv (sampleEvent "c2" (some "join acme"))
    sampleStore (.str "acme") (connectedRecord "c2") ⟨by decide, by decide⟩ (by decide)
    (by decide)
  ⟨(h.1 (notGone_sampleEnv "c2")).1, (h.2.2.2 "c1" (by decide)).trans (by decide)⟩

/-! ## Connect and disconnect -/

/-- Claim C12: for every store, after `connectHandler` for C immediately followed by
`disconnectHandler` for C, both store requests succeeding, the store holds no record
for C and the records of all other connections are as before. -/
theorem connect_then_disconnect_removes_record (e1 e2 : Env) (v1 v2 : Event) (s : Store)
    (hsame : v2.requestContext.connectionId = v1.requestContext.connectionId)
    (hput : e1.putOk = true)
    (hdel : e2.deleteOk v1.requestContext.connectionId = true) :
    (disconnectHandler e2 v2 (connectHandler e1 v1 s).store).store
        = s.delete v1.requestContext.connectionId
    ∧ (disconnectHandler e2 v2 (connectHandler e1 v1 s).store).store.get
        v1.requestContext.connectionId = none
    ∧ (∀ r ∈ (disconnectHandler e2 v2 (connectHandler e1 v1 s).store).store,
        r.connectionId ≠ v1.requestContext.connectionId)
    ∧ (∀ r : Connection, r.connectionId ≠ v1.requestContext.connectionId →
        (r ∈ (disconnectHandler e2 v2 (connectHandler e1 v1 s).store).store ↔ r ∈ s))
    ∧ (∀ k : String, k ≠ v1.requestContext.connectionId →
        (disconnectHandler e2 v2 (connectHandler e1 v1 s).store).store.get k = s.get k) := by
  have hstore : (disconnectHandler e2 v2 (connectHandler e1 v1 s).store).store
      = s.delete v1.requestContext.connectionId := by
    simp [disconnectHandler, connectHandler, hsame, hput, hdel, Store.put, Store.delete,
      List.filter_filter]
  rw [hstore]
  refine ⟨rfl, get_delete_self _ _, ?_, ?_, ?_⟩
  · intro r hr
    exact ((mem_delete _ _ _).mp hr).2
  · intro r hr
    simp [mem_delete, hr]
  · intro k hk
    exact get_delete_ne _ _ _ hk

/-- Witness for C12: `c1` reconnects and disconnects on the sample table. -/
theorem connect_then_disconnect_removes_record_witness :
    (disconnectHandler sampleEnv (sampleEvent "c1" none)
        (connectHandler sampleEnv (sampleEvent "c1" none) sampleStore).store).store
      = [connectedRecord "c2", joinedRecord "c3" "acme", joinedRecord "c4" "other"] :=
  (connect_then_disconnect_removes_record sampleEnv sampleEnv (sampleEvent "c1" none)
    (sampleEvent "c1" none) sampleStore rfl rfl rfl).1.trans (by decide)

/-- Claim C13: `disconnectHandler` is idempotent.  Under one behaviour of the store,
handling the disconnect twice gives the same store, the same requests and the same
response as handling it once; when the first delete succeeded, the second call finds no
record, changes nothing whatever the store then answers, and answers the same
`200 Disconnected` as soon as its delete request is accepted. -/
theorem disconnectHandler_idempotent (env env2 : Env) (event : Event) (s : Store) :
    (disconnectHandler env event (disconnectHandler env event s).store).store
        = (disconnectHandler env event s).store
    ∧ (disconnectHandler env event (disconnectHandler env event s).store).result
        = (disconnectHandler env event s).result
    ∧ (disconnectHandler env event (disconnectHandler env event s).store).effects
        = (disconnectHandler env event s).effects
    ∧ ((disconnectHandler env event s).result.statusCode = 200 →
        (disconnectHandler env event s).result = ⟨200, "Disconnected"⟩
        ∧ (disconnectHandler env event s).store.get event.requestContext.connectionId = none
        ∧ (disconnectHandler env2 event (disconnectHandler env event s).store).store
            = (disconnectHandler env event s).store
        ∧ (env2.deleteOk event.requestContext.connectionId = true →
            (disconnectHandler env2 event (disconnectHandler env event s).store).result
              = ⟨200, "Disconnected"⟩)) := by
  unfold disconnectHandler
  by_cases hd : env.deleteOk event.requestContext.connectionId = true
  · by_cases hd2 : env2.deleteOk event.requestContext.connectionId = true
    · simp [hd, hd2, delete_delete, get_delete_self]
    · simp [hd, hd2, delete_delete, get_delete_self]
  · simp [hd]

/-- Witness for C13: `c1` disconnects twice on the sample table. -/
theorem disconnectHandler_idempotent_witness :
    (disconnectHandler sampleEnv (sampleEvent "c1" none)
        (disconnectHandler sampleEnv (sampleEvent "c1" none) sampleStore).store).store
      = [connectedRecord "c2", joinedRecord "c3" "acme", joinedRecord "c4" "other"]
    ∧ (disconnectHandler sampleEnv (sampleEvent "c1" none)
        (disconnectHandler sampleEnv (sampleEvent "c1" none) sampleStore).store).result
      = ⟨200, "Disconnected"⟩ :=
  have h := disconnectHandler_idempotent sampleEnv sampleEnv (sampleEvent "c1" none)
    sampleStore
  ⟨h.1.trans (by decide), (h.2.2.2 (by decide)).2.2.2 rfl⟩

/-- Counterexample for C14: with the connections table rejecting requests,
`connectHandler` and `disconnectHandler` answer status 500, not 200. -/
theorem connect_disconnect_answer_500_on_store_failure :
    (connectHandler storeDownEnv (sampleEvent "c1" none) sampleStore).result
      = ⟨500, "Failed to connect"⟩
    ∧ (disconnectHandler storeDownEnv (sampleEvent "c1" none) sampleStore).result
      = ⟨500, "Failed to disconnect"⟩ := by
  decide

/-- Claim C14 (amended): `connectHandler` and `disconnectHandler` always return a response
(they never throw): status 200 exactly when the store request succeeds, and status 500
(`Failed to connect` / `Failed to disconnect`) with the store left unchanged when it
is rejected. -/
theorem connect_disconnect_status_follows_store (env : Env) (event : Event) (s : Store) :
    ((connectHandler env event s).result
        = if env.putOk then ⟨200, "Connected"⟩ else ⟨500, "Failed to connect"⟩)
    ∧ ((connectHandler env event s).result.statusCode = 200 ↔ env.putOk = true)
    ∧ (env.putOk = false → (connectHandler env event s).store = s)
    ∧ ((disconnectHandler env event s).result
        = if env.deleteOk event.requestContext.connectionId
          then ⟨200, "Disconnected"⟩ else ⟨500, "Failed to disconnect"⟩)
    ∧ ((disconnectHandler env event s).result.statusCode = 200
        ↔ env.deleteOk event.requestContext.connectionId = true)
    ∧ (env.deleteOk event.requestContext.connectionId = false →
        (disconnectHandler env event s).store = s) := by
  unfold connectHandler disconnectHandler
  by_cases hp : env.putOk = true <;>
    by_cases hd : env.deleteOk event.requestContext.connectionId = true <;>
    simp [hp, hd]

/-- Witness for the amended C14 on the sample table with a working store. -/
theorem connect_disconnect_status_follows_store_witness :
    (connectHandler sampleEnv (sampleEvent "c1" none) sampleStore).result.statusCode = 200
    ∧ (disconnectHandler sampleEnv (sampleEvent "c1" none) sampleStore).result.statusCode
        = 200 :=
  have h := connect_disconnect_status_follows_store sampleEnv (sampleEvent "c1" none)
    sampleStore
  ⟨h.2.1.mpr rfl, h.2.2.2.2.1.mpr rfl⟩

/-! ## Malformed, unknown and heartbeat messages -/

theorem defaultHandler_parse_failure (env : Env) (event : Event) (s : Store)
    (h : env.parse (bodyOrDefault event.body) = none) :
    (defaultHandler env event s).result = ⟨200, "Message processed"⟩
    ∧ pushesOf (defaultHandler env event s).effects
      = [(event.requestContext.connectionId,
          echoEnvelope env (.obj [("action", .str "unknown")]))] := by
  simp [defaultHandler, parseMessage, h, JsVal.isNullish, JsVal.prop, JsVal.lookup,
    postToConnection_effects, pushesOf, echoEnvelope]
  split <;> simp [pushesOf]

/-- Claim C15 (code evaluated at the failing input): the body `null` is valid JSON, so the
inner `catch` does not run; the destructuring of `null` throws, the outer `catch`
answers status 500 and nothing is sent.  A body that is not JSON at all is echoed with
status 200. -/
theorem null_body_is_rejected_with_500 :
    sampleEnvMore.parse "null" = some .null
    ∧ (defaultHandler sampleEnvMore (sampleEvent "c1" (some "null")) sampleStore).result
      = ⟨500, "Failed to process message"⟩
    ∧ (defaultHandler sampleEnvMore (sampleEvent "c1" (some "null")) sampleStore).effects = []
    ∧ (defaultHandler sampleEnvMore (sampleEvent "c1" (some "not json")) sampleStore).result
      = ⟨200, "Message processed"⟩
    ∧ (defaultHandler sampleEnvMore (sampleEvent "c1" (some "not json")) sampleStore).effects
      = [.push "c1" (echoEnvelope sampleEnvMore (.obj [("action", .str "unknown")]))] := by
  decide

theorem defaultHandler_echo (env : Env) (event : Event) (s : Store)
    (hnn : (parseMessage env event.body).isNullish = false)
    (hh : (parseMessage env event.body).prop "action" ≠ .str "heartbeat")
    (hjn : (parseMessage env event.body).prop "action" ≠ .str "join-tenant") :
    defaultHandler env event s =
      ⟨(postToConnection env event.requestContext.connectionId
          (echoEnvelope env (parseMessage env event.body)) s).store,
       (postToConnection env event.requestContext.connectionId
          (echoEnvelope env (parseMessage env event.body)) s).effects,
       ⟨200, "Message processed"⟩⟩ := by
  unfold defaultHandler
  simp [hnn, hh, hjn, echoEnvelope]

theorem defaultHandler_heartbeat (env : Env) (event : Event) (s : Store)
    (hb : IsHeartbeat env event) :
    defaultHandler env event s =
      ⟨(postToConnection env event.requestContext.connectionId (heartbeatResponse env) s).store,
       (postToConnection env event.requestContext.connectionId
          (heartbeatResponse env) s).effects,
       ⟨200, "Heartbeat received"⟩⟩ := by
  have hnn := not_nullish_of_prop hb
  unfold IsHeartbeat at hb
  unfold defaultHandler
  simp [hnn, hb, heartbeatResponse]

theorem pushesOf_post_effects (c : String) (data : JsVal) (b : Bool) :
    pushesOf (Effect.push c data :: (if b then [Effect.delete c] else [])) = [(c, data)] := by
  cases b <;> rfl

/-- Counterexample for C16: the echo of an unknown message to `c1` is answered 410, so the
handler issues a delete and the record of `c1` leaves the store. -/
theorem echo_answered_gone_deletes_record :
    goneEnv.parse "event" = some (.obj [("eventType", .str "click")])
    ∧ (defaultHandler goneEnv (sampleEvent "c1" (some "event")) sampleStore).effects
      = [.push "c1" (echoEnvelope goneEnv (.obj [("eventType", .str "click")])),
         .delete "c1"]
    ∧ (defaultHandler goneEnv (sampleEvent "c1" (some "event")) sampleStore).store
      = [connectedRecord "c2", joinedRecord "c3" "acme", joinedRecord "c4" "other"]
    ∧ (defaultHandler goneEnv (sampleEvent "c1" (some "event")) sampleStore).result
      = ⟨200, "Message processed"⟩ := by
  decide

/-- Claim C16 (amended): for an inbound body that parses as JSON to a value other than
null whose action is neither `heartbeat` nor `join-tenant`, `defaultHandler` sends
exactly one message, to the same connection, equal to
`{type: 'echo', originalMessage, timestamp}` with originalMessage the parsed body, and
answers 200.  It issues no store request, and leaves the store unchanged, unless that
push is answered gone (410 or 403); then it requests the delete of the connection's own
record, which is removed when the delete succeeds. -/
theorem unknown_action_is_echoed (env : Env) (event : Event) (s : Store) (v : JsVal)
    (hparse : env.parse (bodyOrDefault event.body) = some v)
    (hnn : v.isNullish = false)
    (hh : v.prop "action" ≠ .str "heartbeat")
    (hjn : v.prop "action" ≠ .str "join-tenant") :
    pushesOf (defaultHandler env event s).effects
        = [(event.requestContext.connectionId, echoEnvelope env v)]
    ∧ (defaultHandler env event s).effects
        = .push event.requestContext.connectionId (echoEnvelope env v)
          :: (if answeredGone env (echoEnvelope env v) event.requestContext.connectionId
              then [.delete event.requestContext.connectionId] else [])
    ∧ (defaultHandler env event s).store
        = (if evicts env (echoEnvelope env v) event.requestContext.connectionId
           then s.delete event.requestContext.connectionId else s)
    ∧ (answeredGone env (echoEnvelope env v) event.requestContext.connectionId = false →
        (defaultHandler env event s).effects
          = [.push event.requestContext.connectionId (echoEnvelope env v)]
        ∧ (defaultHandler env event s).store = s)
    ∧ (defaultHandler env event s).result = ⟨200, "Message processed"⟩ := by
  have hm : parseMessage env event.body = v := by simp [parseMessage, hparse]
  rw [defaultHandler_echo env event s (by rw [hm]; exact hnn) (by rw [hm]; exact hh)
    (by rw [hm]; exact hjn), hm]
  simp only [postToConnection_effects, postToConnection_store, pushesOf_post_effects]
  refine ⟨trivial, trivial, trivial, ?_, trivial⟩
  intro hg
  have hev : evicts env (echoEnvelope env v) event.requestContext.connectionId = false := by
    unfold answeredGone at hg
    unfold evicts
    cases hp : env.push event.requestContext.connectionId (echoEnvelope env v) with
    | ok => rfl
    | failed code => rw [hp] at hg; simp at hg; simp [hg]
  simp [hg, hev]

/-- Witness for the amended C16: an unknown message from `c2` on the sample table. -/
theorem unknown_action_is_echoed_witness :
    (defaultHandler sampleEnv (sampleEvent "c2" (some "event")) sampleStore).effects
      = [.push "c2" (echoEnvelope sampleEnv (.obj [("eventType", .str "click")]))]
    ∧ (defaultHandler sampleEnv (sampleEvent "c2" (some "event")) sampleStore).store
      = sampleStore :=
  (unknown_action_is_echoed sampleEnv (sampleEvent "c2" (some "event")) sampleStore
    (.obj [("eventType", .str "click")]) (by decide) rfl (by decide) (by decide)).2.2.2.1
    (by decide)

/-- Counterexample for C17: the heartbeat acknowledgement to `c1` is answered 410, so
handling the heartbeat deletes the record of `c1`. -/
theorem heartbeat_ack_gone_deletes_record :
    (defaultHandler goneEnvMore (sampleEvent "c1" (some "heartbeat")) sampleStore).store
      = [connectedRecord "c2", joinedRecord "c3" "acme", joinedRecord "c4" "other"]
    ∧ (defaultHandler goneEnvMore (sampleEvent "c1" (some "heartbeat")) sampleStore).effects
      = [.push "c1" (heartbeatResponse goneEnvMore), .delete "c1"]
    ∧ (defaultHandler goneEnvMore (sampleEvent "c1" (some "heartbeat")) sampleStore).result
      = ⟨200, "Heartbeat received"⟩ := by
  decide

/-- Claim C17 (amended): handling a heartbeat message for C sends exactly one message,
`{type: 'heartbeat-response', timestamp}`, to C itself and answers 200.  It creates and
changes no record (no ttl refresh) and never touches another connection's record; it
issues no store request and leaves the store as it was unless the acknowledgement is
answered gone (410 or 403), in which case it requests the delete of C's own record,
which is removed when the delete succeeds. -/
theorem heartbeat_is_acknowledged (env : Env) (event : Event) (s : Store)
    (hb : IsHeartbeat env event) :
    pushesOf (defaultHandler env event s).effects
        = [(event.requestContext.connectionId, heartbeatResponse env)]
    ∧ (defaultHandler env event s).effects
        = .push event.requestContext.connectionId (heartbeatResponse env)
          :: (if answeredGone env (heartbeatResponse env) event.requestContext.connectionId
              then [.delete event.requestContext.connectionId] else [])
    ∧ (defaultHandler env event s).store
        = (if evicts env (heartbeatResponse env) event.requestContext.connectionId
           then s.delete event.requestContext.connectionId else s)
    ∧ (answeredGone env (heartbeatResponse env) event.requestContext.connectionId = false →
        (defaultHandler env event s).effects
          = [.push event.requestContext.connectionId (heartbeatResponse env)]
        ∧ (defaultHandler env event s).store = s)
    ∧ (∀ r ∈ (defaultHandler env event s).store, r ∈ s)
    ∧ (∀ r : Connection, r.connectionId ≠ event.requestContext.connectionId →
        (r ∈ (defaultHandler env event s).store ↔ r ∈ s))
    ∧ (defaultHandler env event s).result = ⟨200, "Heartbeat received"⟩ := by
  have hother := defaultHandler_other_records env event s
  rw [defaultHandler_heartbeat env event s hb] at hother ⊢
  simp only [postToConnection_effects, postToConnection_store, pushesOf_post_effects]
    at hother ⊢
  refine ⟨trivial, trivial, trivial, ?_, ?_, hother, trivial⟩
  · intro hg
    have hev : evicts env (heartbeatResponse env) event.requestContext.connectionId
        = false := by
      unfold answeredGone at hg
      unfold evicts
      cases hp : env.push event.requestContext.connectionId (heartbeatResponse env) with
      | ok => rfl
      | failed code => rw [hp] at hg; simp at hg; simp [hg]
    simp [hg, hev]
  · intro r hr
    by_cases hev : evicts env (heartbeatResponse env) event.requestContext.connectionId
        = true
    · rw [if_pos hev] at hr
      exact ((mem_delete _ _ _).mp hr).1
    · rw [if_neg hev] at hr
      exact hr

/-- Witness for the amended C17: a heartbeat from `c3` on the sample table. -/
theorem heartbeat_is_acknowledged_witness :
    (defaultHandler sampleEnvMore (sampleEvent "c3" (some "heartbeat")) sampleStore).effects
      = [.push "c3" (heartbeatResponse sampleEnvMore)]
    ∧ (defaultHandler sampleEnvMore (sampleEvent "c3" (some "heartbeat")) sampleStore).store
      = sampleStore :=
  (heartbeat_is_acknowledged sampleEnvMore (sampleEvent "c3" (some "heartbeat")) sampleStore
    (by unfold IsHeartbeat; decide)).2.2.2.1 (by decide)

/-! ## The delivery primitive -/

/-- Claim C18: `postToConnection` always returns a boolean (no path throws): true exactly
when the transport push succeeded; every push error yields false, whatever its status
code, and a rejected clean-up delete is absorbed as well, leaving the store unchanged
and the result false. -/
theorem postToConnection_returns_push_success (env : Env) (c : String) (data : JsVal)
    (s : Store) :
    ((postToConnection env c data s).result = true ↔ env.push c data = .ok)
    ∧ (∀ code, env.push c data = .failed code →
        (postToConnection env c data s).result = false)
    ∧ (∀ code, env.push c data = .failed code → isGone code = true →
        env.deleteOk c = false →
        (postToConnection env c data s).result = false
        ∧ (postToConnection env c data s).store = s
        ∧ (postToConnection env c data s).effects = [.push c data, .delete c]) := by
  unfold postToConnection settlePush
  cases hp : env.push c data with
  | ok => simp
  | failed code =>
    by_cases hg : isGone code = true <;> by_cases hd : env.deleteOk c = true <;>
      simp [hg, hd]

/-- Witness for C18: pushes to `c1` (answered 410, delete rejected) and to `c2`. -/
theorem postToConnection_returns_push_success_witness :
    (postToConnection goneEnvDeleteFails "c1" sampleMessage sampleStore).result = false
    ∧ (postToConnection goneEnvDeleteFails "c1" sampleMessage sampleStore).store = sampleStore
    ∧ (postToConnection goneEnvDeleteFails "c2" sampleMessage sampleStore).result = true :=
  have h1 := postToConnection_returns_push_success goneEnvDeleteFails "c1" sampleMessage
    sampleStore
  have h2 := postToConnection_returns_push_success goneEnvDeleteFails "c2" sampleMessage
    sampleStore
  ⟨(h1.2.2 (some 410) (by decide) (by decide) (by decide)).1,
   (h1.2.2 (some 410) (by decide) (by decide) (by decide)).2.1,
   h2.1.mpr (by decide)⟩

/-! ## Broadcast without recipients, and the delivered count -/

theorem broadcastBody_empty (env : Env) (T data : JsVal) (s : Store)
    (h : s.filter (matchesTenant T) = []) :
    (broadcastBody env T data s).store = s
    ∧ (broadcastBody env T data s).effects = [.scan T]
    ∧ (broadcastBody env T data s).result = (scan env T s).isSome := by
  unfold broadcastBody
  cases hs : scan env T s with
  | none => simp
  | some items =>
    have : items = [] := by
      rw [scan_eq_some env T s items hs, scanned_nil_of_matching_nil env T s h]
    subst this
    simp

/-- Counterexample for C19: no connection is joined to `nobody`, but the scan is rejected by
the store, and both broadcast functions return false instead of completing
successfully. -/
theorem broadcast_to_empty_tenant_fails_with_store :
    sampleStore.filter (matchesTenant (.str "nobody")) = []
    ∧ (broadcastToTenant storeDownEnv (.str "nobody") sampleMessage
        (some (sampleEvent "c9" none)) sampleStore).result = .ok false
    ∧ (broadcastFromAnalytics storeDownEnv (.str "nobody") sampleMessage
        sampleStore).result = .ok false :=
  ⟨by decide, rfl, rfl⟩

/-- Claim C19 (amended): when the store holds no record with `tenantId = T` and status
`joined`, a broadcast to T (`broadcastFromAnalytics`, or `broadcastToTenant` called
with an event) attempts no delivery, issues only its scan and leaves the store
unchanged; it returns true when the scan succeeds and false, without throwing, when the
scan is rejected. -/
theorem broadcast_to_empty_tenant (env : Env) (T data : JsVal) (event : Event)
    (s : Store)
    (hnone : ∀ r ∈ s, ¬ (r.tenantId = some T ∧ r.status = "joined")) :
    pushesOf (broadcastToTenant env T data (some event) s).effects = []
    ∧ (broadcastToTenant env T data (some event) s).effects = [.scan T]
    ∧ (broadcastToTenant env T data (some event) s).store = s
    ∧ pushesOf (broadcastFromAnalytics env T data s).effects = []
    ∧ (broadcastFromAnalytics env T data s).effects = [.scan T]
    ∧ (broadcastFromAnalytics env T data s).store = s
    ∧ ((scan env T s).isSome = true →
        (broadcastToTenant env T data (some event) s).result = .ok true
        ∧ (broadcastFromAnalytics env T data s).result = .ok true)
    ∧ (scan env T s = none →
        (broadcastToTenant env T data (some event) s).result = .ok false
        ∧ (broadcastFromAnalytics env T data s).result = .ok false) := by
  have hnil : s.filter (matchesTenant T) = [] := by
    rw [List.filter_eq_nil_iff]
    intro r hr hm
    exact hnone r hr (by simpa [matchesTenant] using hm)
  obtain ⟨h1, h2, h3⟩ := broadcastBody_empty env T data s hnil
  simp only [broadcastToTenant_some, broadcastFromAnalytics_body, h1, h2, h3]
  refine ⟨rfl, trivial, trivial, rfl, trivial, trivial, ?_, ?_⟩
  · intro h; simp [h]
  · intro h; simp [h]

/-- Witness for the amended C19: nobody is joined to `nobody` on the sample table. -/
theorem broadcast_to_empty_tenant_witness :
    (broadcastFromAnalytics sampleEnv (.str "nobody") sampleMessage sampleStore).effects
      = [.scan (.str "nobody")]
    ∧ (broadcastFromAnalytics sampleEnv (.str "nobody") sampleMessage sampleStore).result
      = .ok true :=
  have h := broadcast_to_empty_tenant sampleEnv (.str "nobody") sampleMessage
    (sampleEvent "c9" none) sampleStore (by decide)
  ⟨h.2.2.2.2.1, (h.2.2.2.2.2.2.1 (by decide)).2⟩

theorem reportsOf_append (xs ys : List Effect) :
    reportsOf (xs ++ ys) = reportsOf xs ++ reportsOf ys := by
  induction xs with
  | nil => rfl
  | cons e rest ih => cases e <;> simp [reportsOf, ih]

theorem settlePush_reports (env : Env) (c : String) (data : JsVal) (s : Store) :
    reportsOf (settlePush env c data s).effects = [] := by
  unfold settlePush
  split
  · rfl
  · split
    · split <;> rfl
    · rfl

theorem settlePush_result (env : Env) (c : String) (data : JsVal) (s : Store) :
    (settlePush env c data s).result = decide (env.push c data = .ok) := by
  unfold settlePush
  cases env.push c data with
  | ok => simp
  | failed code =>
    by_cases hg : isGone code = true <;> by_cases hd : env.deleteOk c = true <;>
      simp [hg, hd]

theorem settleAll_reports (env : Env) (data : JsVal) (items : List Connection) (s : Store) :
    reportsOf (settleAll env data items s).effects = [] := by
  induction items generalizing s with
  | nil => rfl
  | cons r rest ih => simp [settleAll, reportsOf_append, settlePush_reports, ih]

theorem settleAll_result (env : Env) (data : JsVal) (items : List Connection) (s : Store) :
    (settleAll env data items s).result
      = items.map (fun r => decide (env.push r.connectionId data = .ok)) := by
  induction items generalizing s with
  | nil => rfl
  | cons r rest ih => simp [settleAll, settlePush_result, ih]

theorem reportsOf_started (data : JsVal) (items : List Connection) :
    reportsOf (items.map (fun c => Effect.push c.connectionId data)) = [] := by
  induction items with
  | nil => rfl
  | cons r rest ih => simp [reportsOf, ih]

theorem broadcastBody_reports (env : Env) (T data : JsVal) (s : Store)
    (items : List Connection) (hscan : scan env T s = some items) (hne : items ≠ []) :
    reportsOf (broadcastBody env T data s).effects
      = [((items.filter (fun r => decide (env.push r.connectionId data = .ok))).length,
          items.length)] := by
  unfold broadcastBody
  rw [hscan]
  have h0 : ¬ items.length = 0 := fun h => hne (List.length_eq_zero.mp h)
  simp only [h0, if_false]
  simp only [reportsOf, reportsOf_append, deliverAll, reportsOf_started, settleAll_reports,
    settleAll_result, List.nil_append, List.filter_map, List.length_map]
  rfl

/-- Counterexample for C20: on the sample table two connections are joined to `acme`.  With
a transport that rejects `c1` one delivery succeeds, with a working transport two do;
both broadcasts return the same boolean `true`, the counts appear only in the
completion report. -/
theorem broadcast_returns_true_not_count :
    (broadcastFromAnalytics goneEnv (.str "acme") sampleMessage sampleStore).result = .ok true
    ∧ reportsOf (broadcastFromAnalytics goneEnv (.str "acme") sampleMessage
        sampleStore).effects = [(1, 2)]
    ∧ (broadcastFromAnalytics sampleEnv (.str "acme") sampleMessage sampleStore).result
        = .ok true
    ∧ reportsOf (broadcastFromAnalytics sampleEnv (.str "acme") sampleMessage
        sampleStore).effects = [(2, 2)]
    ∧ (broadcastToTenant goneEnv (.str "acme") sampleMessage
        (some (sampleEvent "c9" none)) sampleStore).result = .ok true :=
  ⟨rfl, by decide, rfl, by decide, rfl⟩

theorem broadcastBody_reports_nil (env : Env) (T data : JsVal) (s : Store)
    (hscan : scan env T s = some []) :
    reportsOf (broadcastBody env T data s).effects = [] := by
  unfold broadcastBody
  rw [hscan]
  rfl

/-- Claim C20 (amended): a broadcast (`broadcastToTenant` called with an event, or
`broadcastFromAnalytics`) returns the boolean `true` whenever its scan succeeds,
whatever the deliveries do; the delivered count is not returned but reported: when the
scan returned at least one connection, exactly one completion report
`successful/attempted` is issued, where attempted is the number of connections the scan
returned (the stored records with `tenantId = T` and `status = 'joined'` on the first
page of the scan) and successful the number of them whose delivery returned success,
which never exceeds attempted; when the scan returned no connection, no report is
issued. -/
theorem broadcast_reports_delivered_count (env : Env) (T data : JsVal) (event : Event)
    (s : Store) (items : List Connection)
    (hscan : scan env T s = some items) :
    (broadcastToTenant env T data (some event) s).result = .ok true
    ∧ (broadcastFromAnalytics env T data s).result = .ok true
    ∧ (items ≠ [] →
        reportsOf (broadcastToTenant env T data (some event) s).effects
          = [((items.filter (fun r => decide (env.push r.connectionId data = .ok))).length,
              items.length)]
        ∧ reportsOf (broadcastFromAnalytics env T data s).effects
          = [((items.filter (fun r => decide (env.push r.connectionId data = .ok))).length,
              items.length)])
    ∧ (items = [] →
        reportsOf (broadcastToTenant env T data (some event) s).effects = []
        ∧ reportsOf (broadcastFromAnalytics env T data s).effects = [])
    ∧ (items.filter (fun r => decide (env.push r.connectionId data = .ok))).length
      ≤ items.length
    ∧ (∀ r, r ∈ items ↔ r ∈ s ∧ env.firstPage r.connectionId = true
        ∧ r.tenantId = some T ∧ r.status = "joined") := by
  refine ⟨?_, ?_, fun hne => ⟨?_, ?_⟩, fun hnil => ⟨?_, ?_⟩, List.length_filter_le _ _,
    scan_mem_iff env T s items hscan⟩
  · simp [broadcastToTenant_some, broadcastBody_result, hscan]
  · simp [broadcastFromAnalytics_body, broadcastBody_result, hscan]
  · simpa [broadcastToTenant_some] using broadcastBody_reports env T data s items hscan hne
  · simpa [broadcastFromAnalytics_body] using
      broadcastBody_reports env T data s items hscan hne
  · subst hnil
    simpa [broadcastToTenant_some] using broadcastBody_reports_nil env T data s hscan
  · subst hnil
    simpa [broadcastFromAnalytics_body] using broadcastBody_reports_nil env T data s hscan

/-- Witness for the amended C20: broadcast to `acme` with the push to `c1` rejected. -/
theorem broadcast_reports_delivered_count_witness :
    reportsOf (broadcastToTenant goneEnv (.str "acme") sampleMessage
        (some (sampleEvent "c9" none)) sampleStore).effects = [(1, 2)]
    ∧ (broadcastToTenant goneEnv (.str "acme") sampleMessage
        (some (sampleEvent "c9" none)) sampleStore).result = .ok true :=
  have h := broadcast_reports_delivered_count goneEnv (.str "acme") sampleMessage
    (sampleEvent "c9" none) sampleStore
    [joinedRecord "c1" "acme", joinedRecord "c3" "acme"] (by decide)
  ⟨(h.2.2.1 (by decide)).1.trans (by decide), h.1⟩

/-! ## Re-joining -/

theorem update_of_some (s : Store) (c : String) (T : JsVal) (j : Int) (r0 : Connection)
    (h : s.get c = some r0) :
    s.update c T j
      = { connectionId := r0.connectionId, timestamp := r0.timestamp, ttl := r0.ttl,
          status := "joined", tenantId := some T, joinedAt := some j } :: s.delete c := by
  have hk := get_key s c r0 h
  simp [Store.update, h, Store.put, hk]

theorem update_of_none (s : Store) (c : String) (T : JsVal) (j : Int)
    (h : s.get c = none) :
    s.update c T j
      = { connectionId := c, timestamp := none, ttl := none, status := "joined",
          tenantId := some T, joinedAt := some j } :: s.delete c := by
  simp [Store.update, h, Store.put]

theorem delete_cons_self (s : Store) (c : String) (r : Connection)
    (h : r.connectionId = c) : Store.delete (r :: s.delete c) c = s.delete c := by
  simp [Store.delete, List.filter_cons, h, List.filter_filter]

theorem get_cons_self (s : Store) (c : String) (r : Connection) (h : r.connectionId = c) :
    Store.get (r :: s) c = some r := by
  simp [Store.get, List.find?_cons, h]

theorem update_update (s : Store) (c : String) (T1 T2 : JsVal) (j1 j2 : Int) :
    (s.update c T1 j1).update c T2 j2 = s.update c T2 j2 := by
  cases hg : s.get c with
  | none =>
    rw [update_of_none s c T1 j1 hg, update_of_none s c T2 j2 hg]
    rw [update_of_some _ c T2 j2 _ (get_cons_self _ c _ rfl)]
    rw [delete_cons_self s c _ rfl]
  | some r0 =>
    have hk := get_key s c r0 hg
    rw [update_of_some s c T1 j1 r0 hg, update_of_some s c T2 j2 r0 hg]
    have hx := get_cons_self (s.delete c) c
      ⟨r0.connectionId, r0.timestamp, r0.ttl, "joined", some T1, some j1⟩ hk
    rw [update_of_some _ c T2 j2 _ hx]
    rw [delete_cons_self s c ⟨r0.connectionId, r0.timestamp, r0.ttl, "joined", some T1,
      some j1⟩ hk]

theorem notGone_evicts (env : Env) (c : String) (data : JsVal) (h : NotGone env c) :
    evicts env data c = false := by
  unfold evicts
  cases hp : env.push c data with
  | ok => rfl
  | failed code => simp [h data code hp]

/-- Counterexample for C21: `c1` has a stored record, joins `acme` and then `other`; both
updates succeed and both handlers answer 200, but the second acknowledgement is answered
410, so afterwards the store holds no record for `c1` and a broadcast to `other` does
not target it. -/
theorem rejoin_ack_gone_removes_record :
    (defaultHandler switchGoneEnv (sampleEvent "c1" (some "join other"))
        (defaultHandler switchEnv (sampleEvent "c1" (some "join acme"))
          [connectedRecord "c1"]).store).store = []
    ∧ (defaultHandler switchGoneEnv (sampleEvent "c1" (some "join other"))
        (defaultHandler switchEnv (sampleEvent "c1" (some "join acme"))
          [connectedRecord "c1"]).store).result = ⟨200, "Joined tenant"⟩
    ∧ pushesOf (broadcastFromAnalytics switchEnv (.str "other") sampleMessage
        (defaultHandler switchGoneEnv (sampleEvent "c1" (some "join other"))
          (defaultHandler switchEnv (sampleEvent "c1" (some "join acme"))
            [connectedRecord "c1"]).store).store).effects = [] := by
  decide

/-- Claim C21 (amended): for a connection C with stored record `r0`, when join-tenant T1
and then join-tenant T2 are handled, both handlers answer 200 and neither
acknowledgement is answered gone, the store holds exactly one record for C, equal to
`r0` with tenantId T2, status `joined` and the second joinedAt; the store is the one a
single join-tenant T2 would have produced; when T1 differs from T2 no broadcast to T1
attempts delivery to C, and a broadcast to T2 (`broadcastToTenant` called with an event,
or `broadcastFromAnalytics`) whose scan succeeds and has the record of C on its first
page does. -/
theorem rejoin_overwrites_tenant (e1 e2 eb eb1 : Env) (m1 m2 evb : Event)
    (evb1 : Option Event) (s : Store) (T1 T2 msg : JsVal) (r0 : Connection)
    (hsame : m2.requestContext.connectionId = m1.requestContext.connectionId)
    (hrec : s.get m1.requestContext.connectionId = some r0)
    (hj1 : IsJoinTenant e1 m1 T1) (hj2 : IsJoinTenant e2 m2 T2)
    (ok1 : (defaultHandler e1 m1 s).result.statusCode = 200)
    (ok2 : (defaultHandler e2 m2 (defaultHandler e1 m1 s).store).result.statusCode = 200)
    (hlive1 : NotGone e1 m1.requestContext.connectionId)
    (hlive2 : NotGone e2 m1.requestContext.connectionId) :
    (defaultHandler e2 m2 (defaultHandler e1 m1 s).store).store.filter
        (fun r => decide (r.connectionId = m1.requestContext.connectionId))
      = [ { connectionId := r0.connectionId, timestamp := r0.timestamp, ttl := r0.ttl,
            status := "joined", tenantId := some T2, joinedAt := some (e2.now 0) } ]
    ∧ (defaultHandler e2 m2 (defaultHandler e1 m1 s).store).store.get
        m1.requestContext.connectionId
      = some { connectionId := r0.connectionId, timestamp := r0.timestamp, ttl := r0.ttl,
               status := "joined", tenantId := some T2, joinedAt := some (e2.now 0) }
    ∧ (defaultHandler e2 m2 (defaultHandler e1 m1 s).store).store
      = (defaultHandler e2 m2 s).store
    ∧ (T1 ≠ T2 → ∀ d,
        (m1.requestContext.connectionId, d) ∉ pushesOf (broadcastToTenant eb1 T1 msg evb1
          (defaultHandler e2 m2 (defaultHandler e1 m1 s).store).store).effects
        ∧ (m1.requestContext.connectionId, d) ∉ pushesOf (broadcastFromAnalytics eb1 T1 msg
          (defaultHandler e2 m2 (defaultHandler e1 m1 s).store).store).effects)
    ∧ (eb.scanOk = true → eb.firstPage m1.requestContext.connectionId = true →
        (m1.requestContext.connectionId, msg) ∈ pushesOf (broadcastToTenant eb T2 msg
          (some evb) (defaultHandler e2 m2 (defaultHandler e1 m1 s).store).store).effects
        ∧ (m1.requestContext.connectionId, msg) ∈ pushesOf (broadcastFromAnalytics eb T2 msg
          (defaultHandler e2 m2 (defaultHandler e1 m1 s).store).store).effects) := by
  have hk := get_key s _ r0 hrec
  obtain ⟨-, hs1⟩ := defaultHandler_join_store e1 m1 s T1 hj1 ok1
  obtain ⟨hT2, hs2⟩ := defaultHandler_join_store e2 m2 _ T2 hj2 ok2
  rw [notGone_evicts e1 _ _ hlive1] at hs1
  rw [hsame, notGone_evicts e2 _ _ hlive2] at hs2
  simp only [Bool.false_eq_true, if_false] at hs1 hs2
  have hstore : (defaultHandler e2 m2 (defaultHandler e1 m1 s).store).store
      = { connectionId := r0.connectionId, timestamp := r0.timestamp, ttl := r0.ttl,
          status := "joined", tenantId := some T2, joinedAt := some (e2.now 0) }
        :: s.delete m1.requestContext.connectionId := by
    rw [hs2, hs1, update_update, update_of_some s _ T2 _ r0 hrec]
  have hsingle : (defaultHandler e2 m2 s).store
      = { connectionId := r0.connectionId, timestamp := r0.timestamp, ttl := r0.ttl,
          status := "joined", tenantId := some T2, joinedAt := some (e2.now 0) }
        :: s.delete m1.requestContext.connectionId := by
    have ok2' : (defaultHandler e2 m2 s).result.statusCode = 200 := by
      rw [defaultHandler_join e2 m2 _ T2 hj2] at ok2 ⊢
      unfold update at ok2 ⊢
      by_cases hq : e2.updateOk = true
      · simp [hT2, hq]
      · simp [hT2, hq] at ok2
    obtain ⟨-, hs⟩ := defaultHandler_join_store e2 m2 s T2 hj2 ok2'
    rw [hsame, notGone_evicts e2 _ _ hlive2] at hs
    simp only [Bool.false_eq_true, if_false] at hs
    rw [hs, update_of_some s _ T2 _ r0 hrec]
  have hfilter : (defaultHandler e2 m2 (defaultHandler e1 m1 s).store).store.filter
        (fun r => decide (r.connectionId = m1.requestContext.connectionId))
      = [ { connectionId := r0.connectionId, timestamp := r0.timestamp, ttl := r0.ttl,
            status := "joined", tenantId := some T2, joinedAt := some (e2.now 0) } ] := by
    rw [hstore]
    simp [Store.delete, List.filter_cons, hk, List.filter_filter]
  have honly : ∀ r ∈ (defaultHandler e2 m2 (defaultHandler e1 m1 s).store).store,
      r.connectionId = m1.requestContext.connectionId → r.tenantId = some T2 := by
    intro r hr hrk
    have : r ∈ (defaultHandler e2 m2 (defaultHandler e1 m1 s).store).store.filter
        (fun r => decide (r.connectionId = m1.requestContext.connectionId)) :=
      List.mem_filter.mpr ⟨hr, by simpa using hrk⟩
    rw [hfilter] at this
    rw [List.mem_singleton.mp this]
  refine ⟨hfilter, ?_, ?_, ?_, ?_⟩
  · rw [hstore]
    exact get_cons_self _ _ _ hk
  · rw [hstore, hsingle]
  · intro hne d
    constructor
    · intro hd
      obtain ⟨-, r, hr, hrk, ht, -⟩ := broadcastToTenant_push_target eb1 T1 msg evb1 _ _ d hd
      have := honly r hr hrk
      rw [ht] at this
      exact hne (Option.some.inj this)
    · intro hd
      obtain ⟨-, r, hr, hrk, ht, -⟩ := broadcastFromAnalytics_push_target eb1 T1 msg _ _ d hd
      have := honly r hr hrk
      rw [ht] at this
      exact hne (Option.some.inj this)
  · intro hscan hpage
    have hp := broadcastBody_pushes_of_filter eb T2 msg
      (defaultHandler e2 m2 (defaultHandler e1 m1 s).store).store hT2 hscan
    have hmem : (m1.requestContext.connectionId, msg) ∈
        pushesOf (broadcastBody eb T2 msg
          (defaultHandler e2 m2 (defaultHandler e1 m1 s).store).store).effects := by
      rw [hp, hstore]
      simp [scanned, matchesTenant, List.filter_cons, hk, hpage]
    constructor
    · simpa [broadcastToTenant_some] using hmem
    · simpa [broadcastFromAnalytics_body] using hmem

/-- Witness for the amended C21: `c1` (joined to `acme` on the sample table) re-sends
join-tenant for `acme` and then switches to `other`. -/
theorem rejoin_overwrites_tenant_witness :
    (defaultHandler switchEnv (sampleEvent "c1" (some "join other"))
        (defaultHandler switchEnv (sampleEvent "c1" (some "join acme"))
          sampleStore).store).store.get "c1"
      = some { connectionId := "c1", timestamp := some 1700000000000,
               ttl := some 1700007200, status := "joined",
               tenantId := some (.str "other"), joinedAt := some 1700000000123 }
    ∧ ("c1", sampleMessage) ∈ pushesOf (broadcastFromAnalytics switchEnv (.str "other")
        sampleMessage
        (defaultHandler switchEnv (sampleEvent "c1" (some "join other"))
          (defaultHandler switchEnv (sampleEvent "c1" (some "join acme"))
            sampleStore).store).store).effects :=
  have hlive : NotGone switchEnv "c1" := fun data code h => by
    simp [switchEnv, sampleEnv] at h
  have h := rejoin_overwrites_tenant switchEnv switchEnv switchEnv switchEnv
    (sampleEvent "c1" (some "join acme")) (sampleEvent "c1" (some "join other"))
    (sampleEvent "c9" none) none sampleStore (.str "acme") (.str "other") sampleMessage
    (joinedRecord "c1" "acme") rfl (by decide) ⟨by decide, by decide⟩
    ⟨by decide, by decide⟩ (by decide) (by decide) hlive hlive
  ⟨h.2.1, (h.2.2.2.2 rfl rfl).2⟩

/-! ## Records of deleted connections, and record shapes -/

theorem get_mem (s : Store) (c : String) (r : Connection) (h : s.get c = some r) : r ∈ s :=
  List.mem_of_find?_eq_some h

/-- Invariant rule for one message: a property of records that holds before, survives
a join-tenant update of a record and holds of the record created for an absent key,
holds after the message. -/
theorem defaultHandler_preserves (P : Connection → Prop) (env : Env) (event : Event)
    (s : Store)
    (hupd : ∀ (r0 : Connection) (T : JsVal) (j : Int), P r0 →
      P { connectionId := r0.connectionId, timestamp := r0.timestamp, ttl := r0.ttl,
          status := "joined", tenantId := some T, joinedAt := some j })
    (hbare : ∀ (c : String) (T : JsVal) (j : Int), P (bareJoinedRecord c T j))
    (hs : ∀ r ∈ s, P r) :
    ∀ r ∈ (defaultHandler env event s).store, P r := by
  intro r hr
  unfold defaultHandler at hr
  by_cases hn : (parseMessage env event.body).isNullish = true
  · simp only [hn, if_true] at hr
    exact hs r hr
  · simp only [hn, Bool.false_eq_true, if_false] at hr
    by_cases hh : (parseMessage env event.body).prop "action" = .str "heartbeat"
    · simp only [hh, if_true] at hr
      exact hs r (postToConnection_store_subset _ _ _ _ _ hr)
    · simp only [hh, if_false] at hr
      by_cases hj : (parseMessage env event.body).prop "action" = .str "join-tenant"
      · simp only [hj, if_true] at hr
        cases hu : update env event.requestContext.connectionId
            ((parseMessage env event.body).prop "tenantId") (env.now 0) s with
        | none =>
          simp only [hu] at hr
          exact hs r hr
        | some s1 =>
          simp only [hu] at hr
          have hr1 := postToConnection_store_subset _ _ _ _ _ hr
          unfold update at hu
          by_cases hT : (parseMessage env event.body).prop "tenantId" = .undefined
          · simp [hT] at hu
          · by_cases hq : env.updateOk = true
            · simp only [hT, hq, if_true, if_false, Option.some.injEq] at hu
              subst hu
              cases hg : s.get event.requestContext.connectionId with
              | none =>
                rw [update_of_none s _ _ _ hg] at hr1
                rcases List.mem_cons.mp hr1 with h | h
                · rw [h]; exact hbare _ _ _
                · exact hs r ((mem_delete _ _ _).mp h).1
              | some r0 =>
                rw [update_of_some s _ _ _ r0 hg] at hr1
                rcases List.mem_cons.mp hr1 with h | h
                · rw [h]; exact hupd r0 _ _ (hs r0 (get_mem s _ r0 hg))
                · exact hs r ((mem_delete _ _ _).mp h).1
            · simp [hT, hq] at hu
      · simp only [hj, if_false] at hr
        exact hs r (postToConnection_store_subset _ _ _ _ _ hr)

/-- A message that is not a join-tenant message adds no record. -/
theorem defaultHandler_store_subset_of_not_join (env : Env) (event : Event) (s : Store)
    (hnj : (parseMessage env event.body).prop "action" ≠ .str "join-tenant") :
    ∀ r ∈ (defaultHandler env event s).store, r ∈ s := by
  intro r hr
  unfold defaultHandler at hr
  by_cases hn : (parseMessage env event.body).isNullish = true
  · simp only [hn, if_true] at hr
    exact hr
  · simp only [hn, Bool.false_eq_true, if_false] at hr
    by_cases hh : (parseMessage env event.body).prop "action" = .str "heartbeat"
    · simp only [hh, if_true] at hr
      exact postToConnection_store_subset _ _ _ _ _ hr
    · simp only [hh, if_false, hnj] at hr
      exact postToConnection_store_subset _ _ _ _ _ hr

/-- Counterexample for C22: `c1` connects and is removed by its disconnect notification; a
join-tenant message handled for `c1` afterwards brings a record for `c1` back, without
any new connect. -/
theorem join_after_disconnect_recreates_record :
    (World.empty.run
      [.connect sampleEnv (sampleEvent "c1" none),
       .disconnect sampleEnv (sampleEvent "c1" none)]).store = []
    ∧ (World.empty.run
      [.connect sampleEnv (sampleEvent "c1" none),
       .disconnect sampleEnv (sampleEvent "c1" none),
       .message sampleEnv (sampleEvent "c1" (some "join acme"))]).store
      = [bareJoinedRecord "c1" (.str "acme") 1700000000123] := by
  decide

/-- Claim C22 (amended): when the store holds no record for C, handling a message for C
that is not a join-tenant message, a disconnect for C, or a broadcast leaves the store
without a record for C; but a join-tenant message for C whose handler answers 200 and
whose acknowledgement is not answered gone creates a record for C again, holding only
connectionId, status `joined`, tenantId and joinedAt; when instead the acknowledgement
is answered gone (410 or 403) and the clean-up delete succeeds, the store again holds
no record for C. -/
theorem absent_connection_returns_only_by_join (env : Env) (event : Event) (s : Store)
    (habsent : ∀ r ∈ s, r.connectionId ≠ event.requestContext.connectionId) :
    ((parseMessage env event.body).prop "action" ≠ .str "join-tenant" →
        ∀ r ∈ (defaultHandler env event s).store,
          r.connectionId ≠ event.requestContext.connectionId)
    ∧ (∀ r ∈ (disconnectHandler env event s).store,
          r.connectionId ≠ event.requestContext.connectionId)
    ∧ (∀ (T data : JsVal) (ev : Option Event),
        (∀ r ∈ (broadcastToTenant env T data ev s).store,
          r.connectionId ≠ event.requestContext.connectionId)
        ∧ (∀ r ∈ (broadcastFromAnalytics env T data s).store,
          r.connectionId ≠ event.requestContext.connectionId))
    ∧ (∀ T : JsVal, IsJoinTenant env event T →
        (defaultHandler env event s).result.statusCode = 200 →
        NotGone env event.requestContext.connectionId →
        (defaultHandler env event s).store.filter
            (fun r => decide (r.connectionId = event.requestContext.connectionId))
          = [bareJoinedRecord event.requestContext.connectionId T (env.now 0)])
    ∧ (∀ (T : JsVal) (code : Option Int), IsJoinTenant env event T →
        (defaultHandler env event s).result.statusCode = 200 →
        env.push event.requestContext.connectionId (joinedAck env T) = .failed code →
        (code = some 410 ∨ code = some 403) →
        env.deleteOk event.requestContext.connectionId = true →
        ∀ r ∈ (defaultHandler env event s).store,
          r.connectionId ≠ event.requestContext.connectionId) := by
  refine ⟨?_, ?_, ?_, ?_, ?_⟩
  · intro hnj r hr
    exact habsent r (defaultHandler_store_subset_of_not_join env event s hnj r hr)
  · intro r hr
    unfold disconnectHandler at hr
    by_cases hd : env.deleteOk event.requestContext.connectionId = true
    · simp only [hd, if_true] at hr
      exact ((mem_delete _ _ _).mp hr).2
    · simp only [hd, if_false] at hr
      exact habsent r hr
  · intro T data ev
    exact ⟨fun r hr => habsent r (broadcastToTenant_store_subset env T data ev s r hr),
      fun r hr => habsent r (broadcastFromAnalytics_store_subset env T data s r hr)⟩
  · intro T hj hok hlive
    obtain ⟨-, hstore⟩ := defaultHandler_join_store env event s T hj hok
    rw [notGone_evicts env _ _ hlive] at hstore
    simp only [Bool.false_eq_true, if_false] at hstore
    have hg : s.get event.requestContext.connectionId = none := by
      unfold Store.get
      rw [List.find?_eq_none]
      intro r hr
      simpa using habsent r hr
    rw [hstore, update_of_none s _ _ _ hg]
    simp [bareJoinedRecord, Store.delete, List.filter_cons, List.filter_filter]
  · intro T code hj hok hfail hgone hdel r hr
    obtain ⟨-, hstore⟩ := defaultHandler_join_store env event s T hj hok
    have hev : evicts env (joinedAck env T) event.requestContext.connectionId = true := by
      simp [evicts, hfail, (isGone_iff code).mpr hgone, hdel]
    rw [hev] at hstore
    simp only [if_true] at hstore
    rw [hstore] at hr
    exact ((mem_delete _ _ _).mp hr).2

/-- Witness for the amended C22: `c7` has no record on the sample table; its heartbeat
leaves none, its join-tenant message creates one. -/
theorem absent_connection_returns_only_by_join_witness :
    (∀ r ∈ (defaultHandler sampleEnvMore (sampleEvent "c7" (some "heartbeat"))
        sampleStore).store, r.connectionId ≠ "c7")
    ∧ (defaultHandler sampleEnv (sampleEvent "c7" (some "join acme")) sampleStore).store.filter
        (fun r => decide (r.connectionId = "c7"))
      = [bareJoinedRecord "c7" (.str "acme") 1700000000123] :=
  ⟨(absent_connection_returns_only_by_join sampleEnvMore
      (sampleEvent "c7" (some "heartbeat")) sampleStore (by decide)).1 (by decide),
   (absent_connection_returns_only_by_join sampleEnv
      (sampleEvent "c7" (some "join acme")) sampleStore (by decide)).2.2.2.1 (.str "acme")
      ⟨by decide, by decide⟩ (by decide) (notGone_sampleEnv "c7")⟩

/-- Invariant rule for one action. -/
theorem perform_preserves (P : Connection → Prop) (a : Action) (s : Store)
    (hfresh : ∀ (c : String) (now : Int),
      P { connectionId := c, timestamp := some now, ttl := some (Int.fdiv now 1000 + 7200),
          status := "connected", tenantId := none, joinedAt := none })
    (hupd : ∀ (r0 : Connection) (T : JsVal) (j : Int), P r0 →
      P { connectionId := r0.connectionId, timestamp := r0.timestamp, ttl := r0.ttl,
          status := "joined", tenantId := some T, joinedAt := some j })
    (hbare : ∀ (c : String) (T : JsVal) (j : Int), P (bareJoinedRecord c T j))
    (hs : ∀ r ∈ s, P r) :
    ∀ r ∈ (a.perform s).1, P r := by
  intro r hr
  cases a with
  | connect env event =>
    simp only [Action.perform, connectHandler] at hr
    by_cases hp : env.putOk = true
    · simp only [hp, if_true] at hr
      rcases mem_put _ _ _ hr with h | h
      · rw [h]; exact hfresh _ _
      · exact hs r h
    · simp only [hp, if_false] at hr
      exact hs r hr
  | disconnect env event =>
    simp only [Action.perform, disconnectHandler] at hr
    by_cases hd : env.deleteOk event.requestContext.connectionId = true
    · simp only [hd, if_true] at hr
      exact hs r (List.mem_filter.mp hr).1
    · simp only [hd, if_false] at hr
      exact hs r hr
  | message env event =>
    exact defaultHandler_preserves P env event s hupd hbare hs r hr
  | broadcastToTenant env tenantId data event =>
    exact hs r (broadcastToTenant_store_subset env tenantId data event s r hr)
  | broadcastFromAnalytics env tenantId data =>
    exact hs r (broadcastFromAnalytics_store_subset env tenantId data s r hr)
  | ingest env event =>
    simp only [Action.perform, ingestData_store] at hr
    exact hs r hr

/-- Invariant rule for runs. -/
theorem run_preserves (P : Connection → Prop) (w : World) (actions : List Action)
    (hfresh : ∀ (c : String) (now : Int),
      P { connectionId := c, timestamp := some now, ttl := some (Int.fdiv now 1000 + 7200),
          status := "connected", tenantId := none, joinedAt := none })
    (hupd : ∀ (r0 : Connection) (T : JsVal) (j : Int), P r0 →
      P { connectionId := r0.connectionId, timestamp := r0.timestamp, ttl := r0.ttl,
          status := "joined", tenantId := some T, joinedAt := some j })
    (hbare : ∀ (c : String) (T : JsVal) (j : Int), P (bareJoinedRecord c T j))
    (hw : ∀ r ∈ w.store, P r) :
    ∀ r ∈ (w.run actions).store, P r := by
  induction actions using List.reverseRecOn with
  | nil => simpa [World.run] using hw
  | append_singleton actions a ih =>
    rw [run_snoc]
    exact perform_preserves P a _ hfresh hupd hbare ih

/-- Counterexample for C23: after connect, disconnect and a join-tenant message for `c1`,
the store holds a record for `c1` that has neither timestamp nor ttl. -/
theorem join_after_disconnect_has_no_expiry :
    (World.empty.run
      [.connect sampleEnv (sampleEvent "c1" none),
       .disconnect sampleEnv (sampleEvent "c1" none),
       .message sampleEnv (sampleEvent "c1" (some "join acme"))]).store.map
        (fun r => (r.connectionId, r.status, r.timestamp, r.ttl))
      = [("c1", "joined", none, none)] := by
  decide

/-- Claim C23 (amended): every record in a store reachable from the empty store carries
connectionId and a status that is `connected` or `joined`, and has one of two shapes:
either a creation timestamp together with the expiry `floor(timestamp / 1000) + 7200`
(a record written by `connectHandler`, possibly joined later), or no timestamp and no
expiry at all, with status `joined`, a tenantId and a joinedAt (a record created by a
join-tenant update for an id that had no record). -/
theorem reachable_records_have_stored_shape (actions : List Action) (r : Connection)
    (h : r ∈ (World.empty.run actions).store) :
    (r.status = "connected" ∨ r.status = "joined")
    ∧ ((∃ now : Int, r.timestamp = some now ∧ r.ttl = some (Int.fdiv now 1000 + 7200))
      ∨ (r.timestamp = none ∧ r.ttl = none ∧ r.status = "joined"
          ∧ (∃ v, r.tenantId = some v) ∧ (∃ j, r.joinedAt = some j))) := by
  have key : StoredShape r := by
    refine run_preserves StoredShape World.empty actions ?_ ?_ ?_ ?_ r h
    · intro c now
      exact ⟨Or.inl rfl, Or.inl ⟨now, rfl, rfl⟩⟩
    · intro r0 T j h0
      refine ⟨Or.inr rfl, ?_⟩
      rcases h0.2 with ⟨now, h1, h2⟩ | ⟨h1, h2, -, -, -⟩
      · exact Or.inl ⟨now, h1, h2⟩
      · exact Or.inr ⟨h1, h2, rfl, ⟨T, rfl⟩, ⟨j, rfl⟩⟩
    · intro c T j
      exact ⟨Or.inr rfl, Or.inr ⟨rfl, rfl, rfl, ⟨T, rfl⟩, ⟨j, rfl⟩⟩⟩
    · intro r hr
      simp [World.empty] at hr
  exact key

/-- Witness for the amended C23: after connect and join-tenant the record of `c1` has its
timestamp and the matching expiry. -/
theorem reachable_records_have_stored_shape_witness :
    ∃ now : Int,
      (⟨"c1", some 1700000000123, some 1700007200, "joined", some (.str "acme"),
          some 1700000000123⟩ : Connection).timestamp = some now
      ∧ (⟨"c1", some 1700000000123, some 1700007200, "joined", some (.str "acme"),
          some 1700000000123⟩ : Connection).ttl = some (Int.fdiv now 1000 + 7200) :=
  ((reachable_records_have_stored_shape
      [.connect sampleEnv (sampleEvent "c1" none),
       .message sampleEnv (sampleEvent "c1" (some "join acme"))]
      ⟨"c1", some 1700000000123, some 1700007200, "joined", some (.str "acme"),
        some 1700000000123⟩ (by decide)).2).resolve_right
    (fun h => by simp at h)

/-! ## The envelope handed over by the ingestion bridge -/

/-- Claim C24: whenever `ingestData` calls the broadcast, the tenant id it is addressed to
is the `tenantId` of the verified token, the envelope is
`{type: 'new-event', data, timestamp}` with `data` the very record handed to the
storage put just before, and that record's own `tenantId` is the token's; an
authenticated request whose body parses and whose put succeeds always makes this call;
the verified token does not depend on the request body. -/
theorem ingestData_envelope_carries_stored_record (env : Env) (event : HttpEvent)
    (s : Store) :
    (∀ t d, Effect.broadcast t d ∈ (ingestData env event s).effects →
      ∃ decoded body,
        verifyToken env event = .ok decoded
        ∧ parseIngestBody env event.body = .ok body
        ∧ t = decoded.prop "tenantId"
        ∧ d = .obj [("type", .str "new-event"), ("data", analyticsRecord env t body),
                    ("timestamp", .num (env.now 2))]
        ∧ (ingestData env event s).effects
            = [.analyticsPut (analyticsRecord env t body), .broadcast t d]
        ∧ (analyticsRecord env t body).prop "tenantId" = t)
    ∧ (∀ decoded body,
        verifyToken env event = .ok decoded → decoded.isNullish = false →
        parseIngestBody env event.body = .ok body → env.analyticsPutOk = true →
        (ingestData env event s).effects
          = [.analyticsPut (analyticsRecord env (decoded.prop "tenantId") body),
             .broadcast (decoded.prop "tenantId")
               (.obj [("type", .str "new-event"),
                      ("data", analyticsRecord env (decoded.prop "tenantId") body),
                      ("timestamp", .num (env.now 2))])])
    ∧ (∀ body2 : Option String,
        verifyToken env { headers := event.headers, body := body2 }
          = verifyToken env event) := by
  refine ⟨?_, ?_, ?_⟩
  · intro t d
    unfold ingestData
    cases hv : verifyToken env event with
    | error e => simp
    | ok decoded =>
      by_cases hn : decoded.isNullish = true
      · simp [hn]
      · cases hb : parseIngestBody env event.body with
        | error e => simp [hn]
        | ok body =>
          by_cases hp : env.analyticsPutOk = true
          · simp only [hn, hp, broadcastToTenant_without_event, if_true]
            intro hmem
            simp at hmem
            obtain ⟨rfl, rfl⟩ := hmem
            exact ⟨decoded, body, rfl, rfl, rfl, rfl, rfl,
              by simp [analyticsRecord, JsVal.prop, JsVal.lookup]⟩
          · simp [hn, hp]
  · intro decoded body hv hn hb hp
    unfold ingestData
    simp [hv, hn, hb, hp, broadcastToTenant_without_event, newEventEnvelope]
  · intro body2
    rfl

/-- Witness for C24: the sample ingest request. -/
theorem ingestData_envelope_carries_stored_record_witness :
    (ingestData sampleEnv sampleIngest sampleStore).effects
      = [.analyticsPut (analyticsRecord sampleEnv (.str "acme")
            (.obj [("eventType", .str "click")])),
         .broadcast (.str "acme")
           (.obj [("type", .str "new-event"),
                  ("data", analyticsRecord sampleEnv (.str "acme")
                    (.obj [("eventType", .str "click")])),
                  ("timestamp", .num 1700000000123)])] :=
  (ingestData_envelope_carries_stored_record sampleEnv sampleIngest sampleStore).2.1
    (.obj [("tenantId", .str "acme")]) (.obj [("eventType", .str "click")])
    rfl rfl rfl rfl

/-! ## The two broadcast functions -/

/-- Claim C26: called with an event, `broadcastToTenant` and `broadcastFromAnalytics`
(each transcribed from its own source body) leave the same store, issue the same
requests in the same order (the same scan, the same delivery attempts, the same clean-up
deletes, the same counts in the completion report) and return the same boolean, for
every store, tenant id, payload and environment. -/
theorem broadcast_functions_agree (env : Env) (T data : JsVal) (event : Event)
    (s : Store) :
    (broadcastToTenant env T data (some event) s).store
        = (broadcastFromAnalytics env T data s).store
    ∧ (broadcastToTenant env T data (some event) s).effects
        = (broadcastFromAnalytics env T data s).effects
    ∧ (broadcastToTenant env T data (some event) s).result
        = (broadcastFromAnalytics env T data s).result
    ∧ pushesOf (broadcastToTenant env T data (some event) s).effects
        = pushesOf (broadcastFromAnalytics env T data s).effects
    ∧ deletesOf (broadcastToTenant env T data (some event) s).effects
        = deletesOf (broadcastFromAnalytics env T data s).effects
    ∧ (∃ b : Bool, (broadcastToTenant env T data (some event) s).result = .ok b
        ∧ (broadcastFromAnalytics env T data s).result = .ok b) := by
  unfold broadcastToTenant broadcastFromAnalytics getApiGatewayEndpoint
  cases scan env T s with
  | none => simp
  | some connections => by_cases h : connections.length = 0 <;> simp [h]

/-- Settling the deliveries of one broadcast in another order leaves the same store. -/
theorem settleAll_store_perm (env : Env) (data : JsVal) (items items2 : List Connection)
    (s : Store) (h : items.Perm items2) :
    (settleAll env data items s).store = (settleAll env data items2 s).store := by
  rw [settleAll_store, settleAll_store]
  apply List.filter_congr
  intro r _
  have hm : r.connectionId ∈ items.map (fun i => i.connectionId)
      ↔ r.connectionId ∈ items2.map (fun i => i.connectionId) :=
    (h.map _).mem_iff
  by_cases h1 : r.connectionId ∈ items.map (fun i => i.connectionId)
  · simp [h1, hm.mp h1]
  · have h2 : ¬ r.connectionId ∈ items2.map (fun i => i.connectionId) := fun e => h1 (hm.mpr e)
    simp [h1, h2]

/-! ## Reconnecting with the same connection id -/

theorem run_keeps_unjoined (w : World) (actions : List Action) (c : String)
    (hw : ∀ r ∈ w.store, r.connectionId = c → r.status = "connected" ∧ r.tenantId = none)
    (hnever : ∀ t j, Effect.update c t j ∉ (w.run actions).history) :
    ∀ r ∈ (w.run actions).store, r.connectionId = c →
      r.status = "connected" ∧ r.tenantId = none := by
  induction actions using List.reverseRecOn with
  | nil => simpa [World.run] using hw
  | append_singleton actions a ih =>
    rw [run_snoc] at hnever ⊢
    simp only [World.step] at hnever ⊢
    intro r hr hk
    rcases perform_store_cases a _ r hr with h | h | ⟨t, j, hm, -, -, -⟩
    · exact ih (fun t j hm => hnever t j (List.mem_append_left _ hm)) r h hk
    · exact h
    · exact absurd (List.mem_append_right _ (hk ▸ hm)) (hnever t j)

/-- Claim C27: a successful `connectHandler` for C replaces whatever was stored for C by a
single record with status `connected` and no tenantId or joinedAt; from then on, as
long as no join-tenant update is issued for C, no broadcast (either function, any
tenant id) issues a delivery attempt to C. -/
theorem connect_replaces_joined_record (env : Env) (event : Event) (s : Store)
    (hput : env.putOk = true) :
    (connectHandler env event s).store.filter
        (fun r => decide (r.connectionId = event.requestContext.connectionId))
      = [ { connectionId := event.requestContext.connectionId,
            timestamp := some (env.now 0),
            ttl := some (Int.fdiv (env.now 0) 1000 + 7200),
            status := "connected", tenantId := none, joinedAt := none } ]
    ∧ (∀ actions : List Action,
        (∀ t j, Effect.update event.requestContext.connectionId t j
          ∉ (World.run ⟨(connectHandler env event s).store, []⟩ actions).history) →
        ∀ (envb : Env) (T data : JsVal) (ev : Option Event) (d : JsVal),
          (event.requestContext.connectionId, d) ∉ pushesOf (broadcastToTenant envb T data ev
            (World.run ⟨(connectHandler env event s).store, []⟩ actions).store).effects
          ∧ (event.requestContext.connectionId, d) ∉ pushesOf (broadcastFromAnalytics envb T
            data (World.run ⟨(connectHandler env event s).store, []⟩ actions).store).effects)
      := by
  have hfilter : (connectHandler env event s).store.filter
        (fun r => decide (r.connectionId = event.requestContext.connectionId))
      = [ { connectionId := event.requestContext.connectionId,
            timestamp := some (env.now 0),
            ttl := some (Int.fdiv (env.now 0) 1000 + 7200),
            status := "connected", tenantId := none, joinedAt := none } ] := by
    simp [connectHandler, hput, Store.put, Store.delete, List.filter_filter]
  refine ⟨hfilter, ?_⟩
  intro actions hnever envb T data ev d
  have hw : ∀ r ∈ (connectHandler env event s).store,
      r.connectionId = event.requestContext.connectionId →
      r.status = "connected" ∧ r.tenantId = none := by
    intro r hr hk
    have : r ∈ (connectHandler env event s).store.filter
        (fun r => decide (r.connectionId = event.requestContext.connectionId)) :=
      List.mem_filter.mpr ⟨hr, by simpa using hk⟩
    rw [hfilter] at this
    rw [List.mem_singleton.mp this]
    exact ⟨rfl, rfl⟩
  have hrec := run_keeps_unjoined ⟨(connectHandler env event s).store, []⟩ actions
    event.requestContext.connectionId hw hnever
  constructor
  · intro hd
    obtain ⟨-, r, hr, hk, ht, -⟩ := broadcastToTenant_push_target envb T data ev _ _ d hd
    have := (hrec r hr hk).2
    rw [ht] at this
    cases this
  · intro hd
    obtain ⟨-, r, hr, hk, ht, -⟩ := broadcastFromAnalytics_push_target envb T data _ _ d hd
    have := (hrec r hr hk).2
    rw [ht] at this
    cases this

/-- Witness for C27: `c1` is joined to `acme` on the sample table and connects again; the
broadcast to `acme` then only attempts `c3`. -/
theorem connect_replaces_joined_record_witness :
    (connectHandler sampleEnv (sampleEvent "c1" none) sampleStore).store.get "c1"
      = some { connectionId := "c1", timestamp := some 1700000000123,
               ttl := some 1700007200, status := "connected",
               tenantId := none, joinedAt := none }
    ∧ ("c1", sampleMessage) ∉ pushesOf (broadcastFromAnalytics sampleEnv (.str "acme")
        sampleMessage
        (connectHandler sampleEnv (sampleEvent "c1" none) sampleStore).store).effects
    ∧ pushesOf (broadcastFromAnalytics sampleEnv (.str "acme") sampleMessage
        (connectHandler sampleEnv (sampleEvent "c1" none) sampleStore).store).effects
      = [("c3", sampleMessage)] :=
  have h := connect_replaces_joined_record sampleEnv (sampleEvent "c1" none) sampleStore rfl
  ⟨by decide,
   (h.2 [] (fun t j hm => by simp [World.run] at hm) sampleEnv (.str "acme") sampleMessage
      none sampleMessage).2,
   by decide⟩

/-! ## The useWebSocket hook -/

namespace useWebSocket

theorem slice49_push (l : List JsVal) (m : JsVal) :
    slice49 (l.drop (l.length - 50)) ++ [m]
      = (l ++ [m]).drop ((l ++ [m]).length - 50) := by
  unfold slice49
  by_cases h : l.length ≤ 49
  · have h1 : l.length - 50 = 0 := by omega
    have h2 : l.length - 49 = 0 := by omega
    have h3 : (l ++ [m]).length - 50 = 0 := by
      rw [List.length_append, List.length_singleton]; omega
    rw [h3, h1]
    simp [h2]
  · have h3 : (l ++ [m]).length - 50 = l.length - 49 := by
      rw [List.length_append, List.length_singleton]; omega
    rw [h3, List.drop_append_of_le_length (by omega)]
    congr 1
    rw [List.drop_drop, List.length_drop]
    congr 1
    omega

theorem hook_run_snoc (opts : Options) (st : State) (events : List HookEvent) (e : HookEvent) :
    run opts st (events ++ [e]) = (step opts (run opts st events) e).1 := by
  simp [run, List.foldl_append]

theorem received_snoc (opts : Options) (events : List HookEvent) (e : HookEvent) :
    received opts (events ++ [e]) = received opts events ++ received opts [e] := by
  induction events with
  | nil => simp [received]
  | cons x rest ih => cases x <;> simp [received, ih]

theorem step_history_of_not_message (opts : Options) (st : State) (e : HookEvent)
    (h : ∀ data, e ≠ .message data) :
    (step opts st e).1.messageHistory = st.messageHistory
    ∧ (step opts st e).1.lastMessage = st.lastMessage := by
  cases e with
  | message data => exact absurd rfl (h data)
  | opened => simp [step, onopen]
  | closed code =>
    simp only [step, onclose, stopHeartbeat]
    split <;> simp
  | errored => simp [step, onerror, stopHeartbeat]
  | disconnect => simp [step, disconnect, stopHeartbeat]
  | reconnect created =>
    simp only [step, reconnect, connect, stopHeartbeat]
    split
    · split <;> simp
    · simp
  | autoConnect created =>
    simp only [step, connect, stopHeartbeat]
    split
    · split <;> simp
    · simp
  | heartbeatDue socketOpen =>
    simp only [step, initialHeartbeat]
    split <;> simp

theorem history_invariant (opts : Options) (events : List HookEvent) :
    (run opts initial events).messageHistory
        = (received opts events).drop ((received opts events).length - 50)
    ∧ (run opts initial events).lastMessage = (received opts events).getLast? := by
  induction events using List.reverseRecOn with
  | nil => simp [run, initial, received]
  | append_singleton events e ih =>
    rw [hook_run_snoc, received_snoc]
    by_cases hm : ∃ data, e = .message data
    · obtain ⟨data, rfl⟩ := hm
      simp only [step, onmessage, received]
      rw [ih.1]
      exact ⟨slice49_push _ _, (List.getLast?_concat _).symm⟩
    · have hne : ∀ data, e ≠ .message data := fun data h => hm ⟨data, h⟩
      have hrec : received opts [e] = [] := by
        cases e <;> first | rfl | exact absurd rfl (hne _)
      obtain ⟨h1, h2⟩ := step_history_of_not_message opts (run opts initial events) e hne
      rw [h1, h2, hrec, List.append_nil]
      exact ih

/-- Claim C28: after any sequence of events in which n messages arrived, heartbeat
responses included, `messageHistory` is the list of the last min(n, 50) of them in
arrival order, `lastMessage` is the newest message and is the last element of
`messageHistory`. -/
theorem messageHistory_keeps_last_50 (opts : Options) (events : List HookEvent) :
    (run opts initial events).messageHistory
        = (received opts events).drop ((received opts events).length - 50)
    ∧ (run opts initial events).messageHistory.length
        = min (received opts events).length 50
    ∧ (run opts initial events).lastMessage = (received opts events).getLast?
    ∧ (run opts initial events).messageHistory.getLast?
        = (run opts initial events).lastMessage := by
  obtain ⟨h1, h2⟩ := history_invariant opts events
  refine ⟨h1, ?_, h2, ?_⟩
  · rw [h1, List.length_drop]
    omega
  · rw [h1, h2, List.getLast?_drop]
    by_cases hn : (received opts events).length = 0
    · have : received opts events = [] := List.length_eq_zero.mp hn
      simp [this]
    · have : ¬ (received opts events).length ≤ (received opts events).length - 50 := by
        omega
      simp [this]

/-- Witness for C28: three messages, one of them not JSON, with other events in
between. -/
theorem messageHistory_keeps_last_50_witness :
    (run sampleOptions initial
        [.opened, .message "event", .message "pong", .closed 1006, .message "join"]
      ).messageHistory
      = [.obj [("eventType", .str "click")], .str "pong",
         .obj [("action", .str "join-tenant")]]
    ∧ (run sampleOptions initial
        [.opened, .message "event", .message "pong", .closed 1006, .message "join"]
      ).lastMessage = some (.obj [("action", .str "join-tenant")]) :=
  have h := messageHistory_keeps_last_50 sampleOptions
    [.opened, .message "event", .message "pong", .closed 1006, .message "join"]
  ⟨h.1.trans (by decide), h.2.2.1.trans (by decide)⟩

theorem onclose_scheduled_iff (opts : Options) (code : Nat) (st : State) :
    HookEffect.scheduleReconnect ∈ (onclose opts code st).2
      ↔ opts.shouldReconnect = true ∧ code ≠ 1000
        ∧ st.reconnectAttempts < opts.maxReconnectAttempts := by
  unfold onclose stopHeartbeat
  by_cases h1 : opts.shouldReconnect = true <;> by_cases h2 : code = 1000 <;>
    by_cases h3 : st.reconnectAttempts < opts.maxReconnectAttempts <;> simp [h1, h2, h3]

theorem step_attempts_of_not_reset (opts : Options) (st : State) (e : HookEvent)
    (h : isReset e = false) :
    (step opts st e).1.reconnectAttempts
      = st.reconnectAttempts + (step opts st e).2.count .scheduleReconnect := by
  cases e with
  | opened => simp [isReset] at h
  | reconnect created => simp [isReset] at h
  | closed code =>
    simp only [step, onclose, stopHeartbeat]
    split <;> simp
  | message data =>
    simp only [step, onmessage]
    split <;> simp
  | errored => simp [step, onerror, stopHeartbeat]
  | disconnect =>
    simp only [step, disconnect, stopHeartbeat]
    by_cases a : st.reconnectTimeoutSet = true <;> by_cases b : st.hasSocket = true <;>
      simp [a, b]
  | autoConnect created =>
    simp only [step, connect, stopHeartbeat]
    by_cases a : opts.hasUrl = true <;> by_cases b : st.hasSocket = true <;>
      by_cases c : created = true <;> simp [a, b, c]
  | heartbeatDue socketOpen =>
    simp only [step, initialHeartbeat]
    split <;> simp

theorem step_attempts_le (opts : Options) (st : State) (e : HookEvent)
    (h : st.reconnectAttempts ≤ opts.maxReconnectAttempts) :
    (step opts st e).1.reconnectAttempts ≤ opts.maxReconnectAttempts := by
  cases e with
  | opened => simp [step, onopen]
  | reconnect created =>
    simp only [step, reconnect, connect, stopHeartbeat]
    by_cases a : opts.hasUrl = true <;> by_cases c : created = true <;> simp [a, c]
  | closed code =>
    simp only [step, onclose, stopHeartbeat]
    by_cases h1 : opts.shouldReconnect = true <;> by_cases h2 : code = 1000 <;>
      by_cases h3 : st.reconnectAttempts < opts.maxReconnectAttempts <;>
      simp [h1, h2, h3] <;> omega
  | message data =>
    simp only [step, onmessage]
    exact h
  | errored => simpa [step, onerror, stopHeartbeat] using h
  | disconnect => simpa [step, disconnect, stopHeartbeat] using h
  | autoConnect created =>
    simp only [step, connect, stopHeartbeat]
    by_cases a : opts.hasUrl = true <;> by_cases c : created = true <;> simpa [a, c] using h
  | heartbeatDue socketOpen =>
    simp only [step, initialHeartbeat]
    split <;> simpa using h

theorem run_attempts_le (opts : Options) (events : List HookEvent) :
    (run opts initial events).reconnectAttempts ≤ opts.maxReconnectAttempts := by
  induction events using List.reverseRecOn with
  | nil => simp [run, initial]
  | append_singleton events e ih =>
    rw [hook_run_snoc]
    exact step_attempts_le opts _ e ih

theorem hook_run_cons (opts : Options) (st : State) (e : HookEvent) (rest : List HookEvent) :
    run opts st (e :: rest) = run opts (step opts st e).1 rest := by
  simp [run]

theorem run_attempts_of_no_reset (opts : Options) (events : List HookEvent) (st : State)
    (h : ∀ e ∈ events, isReset e = false) :
    (run opts st events).reconnectAttempts
      = st.reconnectAttempts + (trace opts st events).count .scheduleReconnect := by
  induction events generalizing st with
  | nil => simp [run, trace]
  | cons e rest ih =>
    rw [hook_run_cons, ih _ (fun x hx => h x (List.mem_cons_of_mem _ hx))]
    rw [step_attempts_of_not_reset opts st e (h e (List.mem_cons_self _ _))]
    simp only [trace, List.count_append]
    omega

theorem hook_run_append (opts : Options) (st : State) (xs ys : List HookEvent) :
    run opts st (xs ++ ys) = run opts (run opts st xs) ys := by
  simp [run, List.foldl_append]

/-- Claim C29: the close handler schedules an automatic reconnect exactly when
`shouldReconnect` is enabled, the close code is not 1000 and the attempt counter is
below `maxReconnectAttempts`; along every sequence of events the counter stays at most
`maxReconnectAttempts`; in any stretch of events without a successful open or a manual
reconnect at most `maxReconnectAttempts` automatic reconnects are scheduled; and
`reconnectAttemptsLeft` is `maxReconnectAttempts` minus the counter, never negative. -/
theorem reconnect_attempts_are_bounded (opts : Options) :
    (∀ (code : Nat) (st : State),
        HookEffect.scheduleReconnect ∈ (onclose opts code st).2
          ↔ opts.shouldReconnect = true ∧ code ≠ 1000
            ∧ st.reconnectAttempts < opts.maxReconnectAttempts)
    ∧ (∀ events : List HookEvent,
        (run opts initial events).reconnectAttempts ≤ opts.maxReconnectAttempts)
    ∧ (∀ before stretch : List HookEvent, (∀ e ∈ stretch, isReset e = false) →
        (trace opts (run opts initial before) stretch).count .scheduleReconnect
          ≤ opts.maxReconnectAttempts)
    ∧ (∀ events : List HookEvent,
        0 ≤ reconnectAttemptsLeft opts (run opts initial events)
        ∧ reconnectAttemptsLeft opts (run opts initial events)
          = ((opts.maxReconnectAttempts - (run opts initial events).reconnectAttempts : Nat)
              : Int)) := by
  refine ⟨onclose_scheduled_iff opts, run_attempts_le opts, ?_, ?_⟩
  · intro before stretch hno
    have h1 := run_attempts_of_no_reset opts stretch (run opts initial before) hno
    have h2 := run_attempts_le opts (before ++ stretch)
    rw [hook_run_append] at h2
    omega
  · intro events
    have h := run_attempts_le opts events
    unfold reconnectAttemptsLeft
    constructor
    · exact le_max_left _ _
    · rw [max_eq_right (by omega)]
      omega

/-- Witness for C29: with three attempts allowed, four abnormal closes in a row schedule
three reconnects and leave no attempt. -/
theorem reconnect_attempts_are_bounded_witness :
    (trace sampleOptions (run sampleOptions initial [.opened])
        [.closed 1006, .closed 1006, .closed 1006, .closed 1006]).count .scheduleReconnect = 3
    ∧ reconnectAttemptsLeft sampleOptions (run sampleOptions initial
        [.opened, .closed 1006, .closed 1006, .closed 1006, .closed 1006]) = 0
    ∧ (trace sampleOptions (run sampleOptions initial [.opened])
        [.closed 1006, .closed 1006, .closed 1006, .closed 1006]).count .scheduleReconnect
      ≤ sampleOptions.maxReconnectAttempts :=
  ⟨by decide, by decide,
   (reconnect_attempts_are_bounded sampleOptions).2.2.1 [.opened]
     [.closed 1006, .closed 1006, .closed 1006, .closed 1006] (by decide)⟩

/-- Claim C30: whenever the close handler schedules no automatic reconnect, the status
after it is `Failed`, and otherwise it is `Reconnecting`; in particular every close with
code 1000 ends in `Failed`, so after `disconnect()`, which sets `Closed` and closes the
socket with code 1000, handling that close event turns the status into `Failed`. -/
theorem close_without_reconnect_is_failed (opts : Options) (st : State) :
    (∀ code : Nat, HookEffect.scheduleReconnect ∉ (onclose opts code st).2 →
        (onclose opts code st).1.connectionStatus = "Failed")
    ∧ (∀ code : Nat, HookEffect.scheduleReconnect ∈ (onclose opts code st).2 →
        (onclose opts code st).1.connectionStatus = "Reconnecting")
    ∧ (onclose opts 1000 st).1.connectionStatus = "Failed"
    ∧ HookEffect.scheduleReconnect ∉ (onclose opts 1000 st).2
    ∧ (disconnect st).1.connectionStatus = "Closed"
    ∧ (st.hasSocket = true → HookEffect.closeSocket (some 1000) ∈ (disconnect st).2)
    ∧ (onclose opts 1000 (disconnect st).1).1.connectionStatus = "Failed" := by
  refine ⟨?_, ?_, ?_, ?_, ?_, ?_, ?_⟩
  · intro code
    unfold onclose stopHeartbeat
    by_cases h1 : opts.shouldReconnect = true <;> by_cases h2 : code = 1000 <;>
      by_cases h3 : st.reconnectAttempts < opts.maxReconnectAttempts <;> simp [h1, h2, h3]
  · intro code
    unfold onclose stopHeartbeat
    by_cases h1 : opts.shouldReconnect = true <;> by_cases h2 : code = 1000 <;>
      by_cases h3 : st.reconnectAttempts < opts.maxReconnectAttempts <;> simp [h1, h2, h3]
  · simp [onclose, stopHeartbeat]
  · simp [onclose, stopHeartbeat]
  · simp [disconnect, stopHeartbeat]
  · intro h
    simp [disconnect, h]
  · simp [onclose, stopHeartbeat]

/-- Witness for C30: the hook is open, the caller disconnects, the close event arrives. -/
theorem close_without_reconnect_is_failed_witness :
    (run sampleOptions initial [.autoConnect true, .opened, .disconnect]).connectionStatus = "Closed"
    ∧ (run sampleOptions initial
        [.autoConnect true, .opened, .disconnect, .closed 1000]).connectionStatus = "Failed" :=
  ⟨by decide,
   (close_without_reconnect_is_failed sampleOptions
      (run sampleOptions initial [.autoConnect true, .opened, .disconnect])).2.2.1⟩

end useWebSocket

end AnalyticsPlatform
